import Mathlib

/-!
Authorization and ownership checks of the village-information backend.

A shallow embedding of the permission code of `main.go` and of the store
functions of `services/db.go` it calls, followed by theorems about them.

Conventions of the embedding

* Go strings are Lean strings; `strings.HasPrefix` and `strings.TrimPrefix`
  are defined on the character lists.
* The relational store is a record of tables, each table the list of its rows
  in primary-key order, so that gorm's `First` is "first row that matches".
* A Go `(*T, error)` result is a pair of an optional row (the pointer, `none`
  for `nil`) and an optional error.  Reading a field through a `nil` pointer is
  a `Panic`, so functions that dereference return `Except Panic _`.
* Log lines are omitted; they have no effect on results.
-/

namespace Zxbe

/-! ## Go runtime pieces -/

/-- Error values handed back by the store layer. -/
inductive GoError where
  | ErrRecordNotFound
  | Other (msg : String)
  deriving DecidableEq, Repr

/-- Run-time panics of the Go program. -/
inductive Panic where
  | nilDereference
  | sliceBounds
  deriving DecidableEq, Repr

deriving instance DecidableEq for Except

/-- Field access through a pointer: a `nil` pointer panics. -/
def deref {α : Type} : Option α → Except Panic α
  | some a => Except.ok a
  | none => Except.error Panic.nilDereference

/-- Go `strings.HasPrefix(s, pre)`. -/
def HasPrefix (s pre : String) : Bool :=
  pre.data.isPrefixOf s.data

/-- Go `strings.TrimPrefix(s, pre)`: `s` without the leading `pre`, or `s`
itself when it does not start with `pre`. -/
def TrimPrefix (s pre : String) : String :=
  if HasPrefix s pre then String.mk (s.data.drop pre.data.length) else s

/-- The method `err.Error()`: the message of an error. -/
def GoError.Error : GoError → String
  | GoError.ErrRecordNotFound => "record not found"
  | GoError.Other msg => msg

/-- Substring test on character lists. -/
def containsChars : List Char → List Char → Bool
  | [], sub => sub.isPrefixOf []
  | c :: t, sub => sub.isPrefixOf (c :: t) || containsChars t sub

/-- Go `strings.Contains(s, substr)`. -/
def Contains (s substr : String) : Bool :=
  containsChars s.data substr.data

/-- The slice expression `l[:high]`: it panics when `high` is negative or
beyond the slice (the handler below never asks for more than `len(l)`). -/
def sliceTo {α : Type} (l : List α) (high : Int) : Except Panic (List α) :=
  if high < 0 ∨ (l.length : Int) < high then Except.error Panic.sliceBounds
  else Except.ok (l.take high.toNat)

/-- A value of a decoded JSON object (`map[string]interface{}`) as it reaches a
text column: a JSON string, or a JSON number or boolean together with the text
the store keeps when it writes that value into a text column (that conversion
is the store engine's).  A `null`, an array or an object is not held: the
store either refuses the statement, which is its answer `werr`, or leaves a
NULL, which a row of this model cannot hold. -/
inductive JSONValue where
  | str (s : String)
  | scalar (stored : String)
  deriving DecidableEq, Repr

/-- The text a text column holds after the value is written to it. -/
def JSONValue.text : JSONValue → String
  | JSONValue.str s => s
  | JSONValue.scalar stored => stored

/-- The largest `int64`, the range of an integer column. -/
def int64Max : Int := 9223372036854775807

/-- The SQL expression `column + 1` on a counter column.  Below the `int64`
maximum it is integer addition; at the maximum SQLite keeps the sum as the
REAL 2^63, which further additions of 1 leave as it is.  The model holds that
REAL as the out-of-range integer `int64Max + 1`; a row in that state can no
longer be scanned into its Go struct. -/
def bumpCounter (v : Int) : Int :=
  if v < int64Max then v + 1 else int64Max + 1

/-! ## Data model (`services/db.go`) -/

/-- Row of the administrator table (`type Admin`), time stamps left out. -/
structure Admin where
  ID : Int := 0
  Username : String := ""
  Password : String := ""
  Nickname : String := ""
  Role : String := ""
  deriving DecidableEq, Repr

/-- Row of the user table (`type User`), time stamps left out. -/
structure User where
  ID : Int := 0
  WechatID : String := ""
  Username : String := ""
  Nickname : String := ""
  Avatar : String := ""
  Phone : String := ""
  Email : String := ""
  Role : String := ""
  Favorites : String := ""
  PublishedIDs : String := ""
  deriving DecidableEq, Repr

/-- Row of the consultation table (`type Consultation`), `CreatedAt` left out. -/
structure Consultation where
  ID : Int := 0
  Title : String := ""
  Content : String := ""
  Category : String := ""
  Author : String := ""
  AuthorID : String := ""
  Avatar : String := ""
  Images : String := ""
  ViewCount : Int := 0
  ReplyCount : Int := 0
  Status : String := ""
  PublishTime : String := ""
  deriving DecidableEq, Repr

/-- Row of the news table (`type News`), `CreatedAt` left out. -/
structure News where
  ID : Int := 0
  Title : String := ""
  Category : String := ""
  PublishTime : String := ""
  Author : String := ""
  Summary : String := ""
  Content : String := ""
  Image : String := ""
  ViewCount : Int := 0
  LikeCount : Int := 0
  Tags : String := ""
  IsHot : Bool := false
  PublisherID : String := ""
  deriving DecidableEq, Repr

/-- Row of the farmhouse table (`type Farmhouse`); the `float64` field
`Rating` and `CreatedAt` are left out. -/
structure Farmhouse where
  ID : Int := 0
  Title : String := ""
  Address : String := ""
  Description : String := ""
  Image : String := ""
  Images : String := ""
  PublishTime : String := ""
  Author : String := ""
  AuthorAvatar : String := ""
  PublisherID : String := ""
  Phone : String := ""
  Price : String := ""
  ReviewCount : Int := 0
  ViewCount : Int := 0
  Facilities : String := ""
  Features : String := ""
  OpenTime : String := ""
  IsBookmarked : Bool := false
  deriving DecidableEq, Repr

/-- Row of the policy table (`type Policy`), `CreatedAt` left out. -/
structure Policy where
  ID : Int := 0
  Title : String := ""
  Category : String := ""
  Department : String := ""
  Author : String := ""
  PublisherID : String := ""
  Content : String := ""
  Summary : String := ""
  Image : String := ""
  Images : String := ""
  Attachments : String := ""
  Tags : String := ""
  IsImportant : Bool := false
  ReadCount : Int := 0
  PublishTime : String := ""
  deriving DecidableEq, Repr

/-- Row of the tourism table (`type Tourism`); the `float64` fields
(`Latitude`, `Longitude`, `Rating`) and `CreatedAt` are left out. -/
structure Tourism where
  ID : Int := 0
  Name : String := ""
  Category : String := ""
  Location : String := ""
  Address : String := ""
  Phone : String := ""
  ReviewCount : Int := 0
  Price : Int := 0
  PriceUnit : String := ""
  Distance : String := ""
  OpenTime : String := ""
  Tags : String := ""
  Image : String := ""
  Images : String := ""
  Description : String := ""
  IsHot : Bool := false
  ViewCount : Int := 0
  PublisherID : String := ""
  PublisherName : String := ""
  PublisherAvatar : String := ""
  deriving DecidableEq, Repr

/-- Row of the job table (`type Job`), `CreatedAt` left out. -/
structure Job where
  ID : Int := 0
  Title : String := ""
  Company : String := ""
  Location : String := ""
  Salary : String := ""
  Experience : String := ""
  Education : String := ""
  JobType : String := ""
  PublishTime : String := ""
  Tags : String := ""
  Logo : String := ""
  Description : String := ""
  Requirements : String := ""
  Responsibilities : String := ""
  IsUrgent : Bool := false
  ViewCount : Int := 0
  ApplicantCount : Int := 0
  PublisherID : String := ""
  PublisherName : String := ""
  PublisherAvatar : String := ""
  deriving DecidableEq, Repr

/-- Row of the help table (`type Help`), `CreatedAt` left out. -/
structure Help where
  ID : Int := 0
  Title : String := ""
  Category : String := ""
  Location : String := ""
  Urgency : String := ""
  PublishTime : String := ""
  Author : String := ""
  PublisherID : String := ""
  Phone : String := ""
  Description : String := ""
  Reward : String := ""
  Image : String := ""
  Images : String := ""
  ViewCount : Int := 0
  HelpCount : Int := 0
  Tags : String := ""
  Status : String := ""
  deriving DecidableEq, Repr

/-- The tables behind the global `DB` handle that the permission code reads
and writes. -/
structure Store where
  admins : List Admin := []
  users : List User := []
  consultations : List Consultation := []
  news : List News := []
  farmhouses : List Farmhouse := []
  policies : List Policy := []
  tourisms : List Tourism := []
  jobs : List Job := []
  helps : List Help := []
  deriving DecidableEq, Repr

/-! ## Store functions (`services/db.go`) -/

/-- `GetAdminByUsername`: first administrator row with that username;
`(nil, err)` when there is none. -/
def GetAdminByUsername (db : Store) (username : String) : Option Admin × Option GoError :=
  match db.admins.find? (fun a => a.Username = username) with
  | some a => (some a, none)
  | none => (none, some GoError.ErrRecordNotFound)

/-- `GetUserByWechatID`: first user row with that external identifier.  The
returned pointer is never `nil`: on a miss it points at the zero `User`. -/
def GetUserByWechatID (db : Store) (wechatID : String) : User × Option GoError :=
  match db.users.find? (fun u => u.WechatID = wechatID) with
  | some u => (u, none)
  | none => ({}, some GoError.ErrRecordNotFound)

/-- The `roleLevel` map literal of `CheckUserPermission`. -/
def roleLevelMap : List (String × Int) :=
  [("super_admin", 4), ("admin", 3), ("vip", 2), ("user", 1), ("banned", 0)]

/-- Indexing the Go map `roleLevel[role]`: a missing key reads as `0`. -/
def roleLevel (role : String) : Int :=
  (roleLevelMap.lookup role).getD 0

/-- `CheckUserPermission`. -/
def CheckUserPermission (db : Store) (wechatID requiredRole : String) : Bool × Option GoError :=
  match GetUserByWechatID db wechatID with
  | (_, some err) => (false, some err)
  | (user, none) =>
    let userLevel := roleLevel user.Role
    let requiredLevel := roleLevel requiredRole
    (decide (userLevel ≥ requiredLevel), none)

/-- `NewsGetByID`: `DB.First(&n, id)`, the row with that primary key. -/
def NewsGetByID (db : Store) (id : Int) : Option News × Option GoError :=
  match db.news.find? (fun x => x.ID = id) with
  | some x => (some x, none)
  | none => (none, some GoError.ErrRecordNotFound)

/-- `FarmhouseGetByID`. -/
def FarmhouseGetByID (db : Store) (id : Int) : Option Farmhouse × Option GoError :=
  match db.farmhouses.find? (fun x => x.ID = id) with
  | some x => (some x, none)
  | none => (none, some GoError.ErrRecordNotFound)

/-- `PolicyGetByID`. -/
def PolicyGetByID (db : Store) (id : Int) : Option Policy × Option GoError :=
  match db.policies.find? (fun x => x.ID = id) with
  | some x => (some x, none)
  | none => (none, some GoError.ErrRecordNotFound)

/-- `TourismGetByID`. -/
def TourismGetByID (db : Store) (id : Int) : Option Tourism × Option GoError :=
  match db.tourisms.find? (fun x => x.ID = id) with
  | some x => (some x, none)
  | none => (none, some GoError.ErrRecordNotFound)

/-- `JobsGetByID`. -/
def JobsGetByID (db : Store) (id : Int) : Option Job × Option GoError :=
  match db.jobs.find? (fun x => x.ID = id) with
  | some x => (some x, none)
  | none => (none, some GoError.ErrRecordNotFound)

/-- `HelpGetByID`. -/
def HelpGetByID (db : Store) (id : Int) : Option Help × Option GoError :=
  match db.helps.find? (fun x => x.ID = id) with
  | some x => (some x, none)
  | none => (none, some GoError.ErrRecordNotFound)

/-- `ConsultationGetByID`. -/
def ConsultationGetByID (db : Store) (id : Int) : Option Consultation × Option GoError :=
  match db.consultations.find? (fun x => x.ID = id) with
  | some x => (some x, none)
  | none => (none, some GoError.ErrRecordNotFound)

/-! ## Delete permission (`main.go`) -/

/-- `checkDeletePermission(userID, publisherID)`. -/
def checkDeletePermission (db : Store) (userID publisherID : String) : Except Panic Bool :=
  if userID = "" then
    Except.ok false
  else if HasPrefix userID "admin_" then
    let username := TrimPrefix userID "admin_"
    match GetAdminByUsername db username with
    | (admin, err) =>
      -- `err == nil && (admin.Role == "super_admin" || admin.Role == "admin")`
      let cond : Except Panic Bool :=
        if err = none then
          (deref admin).bind (fun a => Except.ok (a.Role = "super_admin" || a.Role = "admin"))
        else Except.ok false
      cond.bind (fun c =>
        if c then Except.ok true
        else if publisherID = username || publisherID = userID then Except.ok true
        else Except.ok false)
  else
    if publisherID = userID then
      Except.ok true
    else
      match GetUserByWechatID db userID with
      | (user, err) =>
        if err = none then
          if user.Role = "super_admin" || user.Role = "admin" then Except.ok true
          else Except.ok false
        else Except.ok false

/-! ## Store writes (`services/db.go`)

The store engine is an external collaborator: whether a write statement fails
is its answer, passed in as `werr` (`none` for success).  A failed write
leaves the tables as they were. -/

/-- `UpdateUserRole`: `UPDATE users SET role = newRole WHERE id = userID`. -/
def UpdateUserRole (db : Store) (userID : Int) (newRole : String)
    (werr : Option GoError) : Store × Option GoError :=
  match werr with
  | some e => (db, some e)
  | none =>
    let users1 := db.users.map (fun u => if u.ID = userID then { u with Role := newRole } else u)
    ({ db with users := users1 }, none)

/-- `UpdateUserRoleByWechatID`:
`UPDATE users SET role = role WHERE wechat_id = wechatID`. -/
def UpdateUserRoleByWechatID (db : Store) (wechatID role : String)
    (werr : Option GoError) : Store × Option GoError :=
  match werr with
  | some e => (db, some e)
  | none =>
    let users1 := db.users.map (fun u => if u.WechatID = wechatID then { u with Role := role } else u)
    ({ db with users := users1 }, none)

/-- `ConsultationCreate`: stamps publish time (`now`, already formatted) and
status, then inserts the row.  A zero `ID` is replaced by the key the store
assigns (`newID`). -/
def ConsultationCreate (db : Store) (c : Consultation) (now : String) (newID : Int)
    (werr : Option GoError) : Store × Consultation × Option GoError :=
  let c1 := { c with PublishTime := now, Status := "待回复" }
  match werr with
  | some e => (db, c1, some e)
  | none =>
    let c2 := { c1 with ID := if c1.ID = 0 then newID else c1.ID }
    ({ db with consultations := db.consultations ++ [c2] }, c2, none)

/-- `errors.New("not found")`, returned by the delete functions when no row
was affected. -/
def errNotFound : GoError := GoError.Other "not found"

/-- `FarmhouseDelete`: `DELETE FROM farmhouses WHERE id = id`; an error when
the statement fails or affects no row. -/
def FarmhouseDelete (db : Store) (id : Int) (werr : Option GoError) : Store × Option GoError :=
  match werr with
  | some e => (db, some e)
  | none =>
    if db.farmhouses.any (fun x => x.ID = id) then
      ({ db with farmhouses := db.farmhouses.filter (fun x => x.ID ≠ id) }, none)
    else (db, some errNotFound)

/-- `PolicyDelete`. -/
def PolicyDelete (db : Store) (id : Int) (werr : Option GoError) : Store × Option GoError :=
  match werr with
  | some e => (db, some e)
  | none =>
    if db.policies.any (fun x => x.ID = id) then
      ({ db with policies := db.policies.filter (fun x => x.ID ≠ id) }, none)
    else (db, some errNotFound)

/-- `TourismDelete`. -/
def TourismDelete (db : Store) (id : Int) (werr : Option GoError) : Store × Option GoError :=
  match werr with
  | some e => (db, some e)
  | none =>
    if db.tourisms.any (fun x => x.ID = id) then
      ({ db with tourisms := db.tourisms.filter (fun x => x.ID ≠ id) }, none)
    else (db, some errNotFound)

/-- `JobDelete`. -/
def JobDelete (db : Store) (id : Int) (werr : Option GoError) : Store × Option GoError :=
  match werr with
  | some e => (db, some e)
  | none =>
    if db.jobs.any (fun x => x.ID = id) then
      ({ db with jobs := db.jobs.filter (fun x => x.ID ≠ id) }, none)
    else (db, some errNotFound)

/-- `HelpDelete`. -/
def HelpDelete (db : Store) (id : Int) (werr : Option GoError) : Store × Option GoError :=
  match werr with
  | some e => (db, some e)
  | none =>
    if db.helps.any (fun x => x.ID = id) then
      ({ db with helps := db.helps.filter (fun x => x.ID ≠ id) }, none)
    else (db, some errNotFound)

/-- `ConsultationDelete`. -/
def ConsultationDelete (db : Store) (id : Int) (werr : Option GoError) : Store × Option GoError :=
  match werr with
  | some e => (db, some e)
  | none =>
    if db.consultations.any (fun x => x.ID = id) then
      ({ db with consultations := db.consultations.filter (fun x => x.ID ≠ id) }, none)
    else (db, some errNotFound)

/-- What a run of a retrying create leaves behind: the error it returns,
the number of `DB.Create` calls it made and the sleeps it took, in
milliseconds and in order. -/
structure CreateRun where
  err : Option GoError
  attempts : Nat
  sleeps : List Nat
  deriving DecidableEq, Repr

/-- The loop `for i := 0; i < maxRetries; i++` of `CreateNews` and
`PolicyCreate` (the two copies differ in the word `what` of the last message
only), started at index `i` with `remaining = maxRetries - i` rounds to go.
`attempt i` is the store's answer to the `DB.Create` call of round `i`. -/
def createRetryLoop (what : String) (maxRetries : Nat) (attempt : Nat → Option GoError) :
    Nat → Nat → CreateRun
  | 0, _ =>
    ⟨some (GoError.Other
      ("failed to create " ++ what ++ " after " ++ toString maxRetries ++ " retries")), 0, []⟩
  | remaining + 1, i =>
    match attempt i with
    | none => ⟨none, 1, []⟩
    | some err =>
      if Contains err.Error "database is locked" || Contains err.Error "SQLITE_BUSY" then
        let rest := createRetryLoop what maxRetries attempt remaining (i + 1)
        ⟨rest.err, rest.attempts + 1, 100 * (i + 1) :: rest.sleeps⟩
      else
        ⟨some err, 1, []⟩

/-- `CreateNews`: stamps the publish date (`now`, already formatted) and runs
the retrying insert; on success the row is in the table, a zero `ID` replaced
by the key the store assigns (`newID`). -/
def CreateNews (db : Store) (n : News) (now : String) (newID : Int)
    (attempt : Nat → Option GoError) : Store × News × CreateRun :=
  let n1 := { n with PublishTime := now }
  let maxRetries := 3
  let run := createRetryLoop "news" maxRetries attempt maxRetries 0
  match run.err with
  | some _ => (db, n1, run)
  | none =>
    let n2 := { n1 with ID := if n1.ID = 0 then newID else n1.ID }
    ({ db with news := db.news ++ [n2] }, n2, run)

/-- `PolicyCreate`. -/
def PolicyCreate (db : Store) (p : Policy) (now : String) (newID : Int)
    (attempt : Nat → Option GoError) : Store × Policy × CreateRun :=
  let p1 := { p with PublishTime := now }
  let maxRetries := 3
  let run := createRetryLoop "policy" maxRetries attempt maxRetries 0
  match run.err with
  | some _ => (db, p1, run)
  | none =>
    let p2 := { p1 with ID := if p1.ID = 0 then newID else p1.ID }
    ({ db with policies := db.policies ++ [p2] }, p2, run)

/-- `UpdateNews`: the row must exist; then `DB.Save` writes every column of
the submitted record under the given key. -/
def UpdateNews (db : Store) (id : Int) (n : News) (werr : Option GoError) :
    Store × News × Option GoError :=
  match db.news.find? (fun x => x.ID = id) with
  | none => (db, n, some GoError.ErrRecordNotFound)
  | some _ =>
    let n1 := { n with ID := id }
    match werr with
    | some e => (db, n1, some e)
    | none => ({ db with news := db.news.map (fun x => if x.ID = id then n1 else x) }, n1, none)

/-- `DeleteNews`. -/
def DeleteNews (db : Store) (id : Int) (werr : Option GoError) : Store × Option GoError :=
  match werr with
  | some e => (db, some e)
  | none =>
    if db.news.any (fun x => x.ID = id) then
      ({ db with news := db.news.filter (fun x => x.ID ≠ id) }, none)
    else (db, some errNotFound)

/-- `IncrementNewsView`: `UPDATE news SET view_count = view_count + 1 WHERE id = id`. -/
def IncrementNewsView (db : Store) (id : Int) (werr : Option GoError) : Store × Option GoError :=
  match werr with
  | some e => (db, some e)
  | none =>
    let news1 := db.news.map (fun x =>
      if x.ID = id then { x with ViewCount := bumpCounter x.ViewCount } else x)
    ({ db with news := news1 }, none)

/-- `IncrementPolicyRead`: `UPDATE policies SET read_count = read_count + 1 WHERE id = id`. -/
def IncrementPolicyRead (db : Store) (id : Int) (werr : Option GoError) : Store × Option GoError :=
  match werr with
  | some e => (db, some e)
  | none =>
    let rows := db.policies.map (fun x =>
      if x.ID = id then { x with ReadCount := bumpCounter x.ReadCount } else x)
    ({ db with policies := rows }, none)

/-- `IncrementTourismView`. -/
def IncrementTourismView (db : Store) (id : Int) (werr : Option GoError) :
    Store × Option GoError :=
  match werr with
  | some e => (db, some e)
  | none =>
    let rows := db.tourisms.map (fun x =>
      if x.ID = id then { x with ViewCount := bumpCounter x.ViewCount } else x)
    ({ db with tourisms := rows }, none)

/-- `IncrementJobView`. -/
def IncrementJobView (db : Store) (id : Int) (werr : Option GoError) : Store × Option GoError :=
  match werr with
  | some e => (db, some e)
  | none =>
    let rows := db.jobs.map (fun x =>
      if x.ID = id then { x with ViewCount := bumpCounter x.ViewCount } else x)
    ({ db with jobs := rows }, none)

/-- `IncrementHelpView`. -/
def IncrementHelpView (db : Store) (id : Int) (werr : Option GoError) : Store × Option GoError :=
  match werr with
  | some e => (db, some e)
  | none =>
    let rows := db.helps.map (fun x =>
      if x.ID = id then { x with ViewCount := bumpCounter x.ViewCount } else x)
    ({ db with helps := rows }, none)

/-- `IncrementConsultationView`. -/
def IncrementConsultationView (db : Store) (id : Int) (werr : Option GoError) :
    Store × Option GoError :=
  match werr with
  | some e => (db, some e)
  | none =>
    let rows := db.consultations.map (fun x =>
      if x.ID = id then { x with ViewCount := bumpCounter x.ViewCount } else x)
    ({ db with consultations := rows }, none)

/-- `FarmhouseUpdate`: the row must exist; then `DB.Save` writes every column
of the submitted record under the given key. -/
def FarmhouseUpdate (db : Store) (id : Int) (f : Farmhouse) (werr : Option GoError) :
    Store × Farmhouse × Option GoError :=
  match db.farmhouses.find? (fun x => x.ID = id) with
  | none => (db, f, some GoError.ErrRecordNotFound)
  | some _ =>
    let f1 := { f with ID := id }
    match werr with
    | some e => (db, f1, some e)
    | none =>
      ({ db with farmhouses := db.farmhouses.map (fun x => if x.ID = id then f1 else x) }, f1, none)

/-- `FarmhouseCreate`: stamps the publish date and makes one `DB.Create`
call, whose answer is `werr`. -/
def FarmhouseCreate (db : Store) (f : Farmhouse) (now : String) (newID : Int)
    (werr : Option GoError) : Store × Farmhouse × Option GoError :=
  let f1 := { f with PublishTime := now }
  match werr with
  | some e => (db, f1, some e)
  | none =>
    let f2 := { f1 with ID := if f1.ID = 0 then newID else f1.ID }
    ({ db with farmhouses := db.farmhouses ++ [f2] }, f2, none)

/-- `TourismCreate`: one `DB.Create` call. -/
def TourismCreate (db : Store) (t : Tourism) (newID : Int)
    (werr : Option GoError) : Store × Tourism × Option GoError :=
  match werr with
  | some e => (db, t, some e)
  | none =>
    let t2 := { t with ID := if t.ID = 0 then newID else t.ID }
    ({ db with tourisms := db.tourisms ++ [t2] }, t2, none)

/-- `JobsCreate`: stamps the publish date and makes one `DB.Create` call. -/
def JobsCreate (db : Store) (j : Job) (now : String) (newID : Int)
    (werr : Option GoError) : Store × Job × Option GoError :=
  let j1 := { j with PublishTime := now }
  match werr with
  | some e => (db, j1, some e)
  | none =>
    let j2 := { j1 with ID := if j1.ID = 0 then newID else j1.ID }
    ({ db with jobs := db.jobs ++ [j2] }, j2, none)

/-- `HelpCreate`: stamps the publish date and the status and makes one
`DB.Create` call. -/
def HelpCreate (db : Store) (h : Help) (now : String) (newID : Int)
    (werr : Option GoError) : Store × Help × Option GoError :=
  let h1 := { h with PublishTime := now, Status := "求助中" }
  match werr with
  | some e => (db, h1, some e)
  | none =>
    let h2 := { h1 with ID := if h1.ID = 0 then newID else h1.ID }
    ({ db with helps := db.helps ++ [h2] }, h2, none)

/-- The password column of the default administrator: the hexadecimal MD5
digest of "123456". -/
def defaultAdminPassword : String := "e10adc3949ba59abbe56e057f20f883e"

/-- `CreateDefaultAdmin`: deletes every administrator row whose username is
not "admin", counts the rows named "admin", and either inserts the default
row (the answer of that `DB.Create` is `werr`, the key it assigns `newID`) or
sets role and nickname of the rows named "admin".  The results of the delete,
the count and the update are discarded by the code; they are taken to
succeed. -/
def CreateDefaultAdmin (db : Store) (newID : Int) (werr : Option GoError) :
    Store × Option GoError :=
  let admins1 := db.admins.filter (fun a => a.Username = "admin")
  let count : Int := ((admins1.filter (fun a => a.Username = "admin")).length : Int)
  if count = 0 then
    match werr with
    | some e => ({ db with admins := admins1 }, some e)
    | none =>
      let admin : Admin :=
        { ID := newID, Username := "admin", Password := defaultAdminPassword,
          Nickname := "超级管理员", Role := "super_admin" }
      ({ db with admins := admins1 ++ [admin] }, none)
  else
    let admins2 := admins1.map (fun a =>
      if a.Username = "admin" then { a with Role := "super_admin", Nickname := "超级管理员" } else a)
    ({ db with admins := admins2 }, none)

/-- `GetOrCreateUserByWechatID`: the row with that external identifier, made
first when there is none (the answer of that `DB.Create` is `werr`, the key it
assigns `newID`).  For an existing row the nickname and the avatar are
refreshed when the submitted ones are not the placeholders; the result of
that update is discarded by the code. -/
def GetOrCreateUserByWechatID (db : Store) (wechatID nickname avatar : String) (newID : Int)
    (werr : Option GoError) : Store × Option User × Option GoError :=
  match db.users.find? (fun u => u.WechatID = wechatID) with
  | none =>
    let user : User :=
      { WechatID := wechatID, Nickname := nickname, Avatar := avatar, Role := "user",
        Favorites := "[]", PublishedIDs := "[]" }
    match werr with
    | some e => (db, none, some e)
    | none =>
      let user1 := { user with ID := newID }
      ({ db with users := db.users ++ [user1] }, some user1, none)
  | some user =>
    let nickname1 := if nickname ≠ "" ∧ nickname ≠ "微信用户" then nickname else user.Nickname
    let avatar1 :=
      if avatar ≠ "" ∧ Contains avatar "unsplash.com" = false then avatar else user.Avatar
    let users1 := db.users.map (fun u =>
      if u.ID = user.ID then { u with Nickname := nickname1, Avatar := avatar1 } else u)
    ({ db with users := users1 }, some { user with Nickname := nickname1, Avatar := avatar1 }, none)

/-- The value `Updates(payload)` leaves in a text column.  gorm resolves a key
of the map by column name and, failing that, by Go field name, and emits the
assignments in sorted key order; when both spellings are present the one by
column name (lower case, sorted last) is the rightmost, and SQLite keeps the
rightmost assignment of a column.  Without an entry the old value stays. -/
def payloadColumn (payload : List (String × JSONValue)) (column field old : String) : String :=
  match payload.lookup column with
  | some v => v.text
  | none =>
    match payload.lookup field with
    | some v => v.text
    | none => old

/-- `UpdateUserProfile`: `UPDATE users SET <payload> WHERE id = id`, the
payload being the decoded map as a list of entries with distinct keys.  No
column is excluded.  `werr` is the store's answer to the statement (an error,
for instance, when a key names no column).  Entries for the key column and the
time columns are not held by the rows of this model. -/
def UpdateUserProfile (db : Store) (id : Int) (payload : List (String × JSONValue))
    (werr : Option GoError) : Store × Option GoError :=
  match werr with
  | some e => (db, some e)
  | none =>
    let users1 := db.users.map (fun u =>
      if u.ID = id then
        { u with
          WechatID := payloadColumn payload "wechat_id" "WechatID" u.WechatID,
          Username := payloadColumn payload "username" "Username" u.Username,
          Nickname := payloadColumn payload "nickname" "Nickname" u.Nickname,
          Avatar := payloadColumn payload "avatar" "Avatar" u.Avatar,
          Phone := payloadColumn payload "phone" "Phone" u.Phone,
          Email := payloadColumn payload "email" "Email" u.Email,
          Role := payloadColumn payload "role" "Role" u.Role,
          Favorites := payloadColumn payload "favorites" "Favorites" u.Favorites,
          PublishedIDs := payloadColumn payload "published_ids" "PublishedIDs" u.PublishedIDs }
      else u)
    ({ db with users := users1 }, none)

/-- `NewsList("", "")`: with both filters empty the query is every news row,
`ORDER BY id desc`; `qerr` is the store's answer to the query. -/
def NewsListAll (db : Store) (qerr : Option GoError) : List News × Option GoError :=
  match qerr with
  | some e => ([], some e)
  | none => (db.news.insertionSort (fun a b => a.ID ≥ b.ID), none)

/-! ## HTTP handlers (`main.go`) -/

/-- The JSON envelope written by `sendResponse` (`Data` left out). -/
structure Response where
  Code : Int
  Message : String
  deriving DecidableEq, Repr

/-- `sendError(w, code, message)`. -/
def sendError (code : Int) (message : String) : Response := ⟨code, message⟩

/-- `sendSuccess(w, data)`. -/
def sendSuccess : Response := ⟨200, "success"⟩

/-- A store write issued by a handler. -/
inductive StoreCall where
  | UpdateUserRole (userID : Int) (newRole : String)
  | UpdateUserRoleByWechatID (wechatID role : String)
  | ConsultationCreate (c : Consultation)
  | FarmhouseDelete (id : Int)
  | PolicyDelete (id : Int)
  | TourismDelete (id : Int)
  | JobDelete (id : Int)
  | HelpDelete (id : Int)
  | ConsultationDelete (id : Int)
  | FarmhouseUpdate (id : Int) (f : Farmhouse)
  | GetOrCreateUserByWechatID (wechatID nickname avatar : String)
  | UpdateUserProfile (id : Int) (payload : List (String × JSONValue))
  deriving DecidableEq, Repr

/-- What a handler run leaves behind: the response, the store afterwards and
the store writes it issued, in order. -/
structure HandlerResult where
  resp : Response
  db : Store
  calls : List StoreCall
  deriving DecidableEq, Repr

/-- The parts of an HTTP request the handlers look at: the method, the
`X-Wechat-ID` header (`""` when absent) and the decoded JSON body (`none` when
decoding fails). -/
structure Request (β : Type) where
  Method : String
  XWechatID : String
  Body : Option β

/-- Body of a request to `updateRoleHandler`. -/
structure UpdateRoleReq where
  UserID : Int
  NewRole : String
  deriving DecidableEq, Repr

/-- Body of a request to `adminGrantRoleHandler`. -/
structure GrantRoleReq where
  AdminUsername : String
  UserWechatID : String
  NewRole : String
  deriving DecidableEq, Repr

/-- The `validRoles` slice of both role-assignment handlers. -/
def validRoles : List String := ["super_admin", "admin", "vip", "user", "banned"]

/-- The loop `for _, role := range validRoles { if newRole == role ... }`. -/
def isValidRole (newRole : String) : Bool :=
  validRoles.any (fun role => decide (newRole = role))

/-- Lines 1294-1336 of `updateRoleHandler`: the checks on the target role and
the acting role, then the write. -/
def updateRoleGate (db : Store) (req : UpdateRoleReq) (adminRole : String)
    (werr : Option GoError) : HandlerResult :=
  if !isValidRole req.NewRole then
    ⟨sendError 400 "Invalid role", db, []⟩
  else if req.NewRole = "super_admin" then
    ⟨sendError 403 "Forbidden: Cannot set super_admin role", db, []⟩
  else if req.NewRole = "admin" ∧ adminRole ≠ "super_admin" then
    ⟨sendError 403 "Forbidden: Only super_admin can set admin role", db, []⟩
  else if adminRole ≠ "super_admin" ∧ adminRole ≠ "admin" then
    ⟨sendError 403 "Forbidden: Admin permission required", db, []⟩
  else
    match UpdateUserRole db req.UserID req.NewRole werr with
    | (db1, some _) =>
      ⟨sendError 500 "Failed to update role", db1, [StoreCall.UpdateUserRole req.UserID req.NewRole]⟩
    | (db1, none) =>
      ⟨sendSuccess, db1, [StoreCall.UpdateUserRole req.UserID req.NewRole]⟩

/-- `updateRoleHandler`. -/
def updateRoleHandler (db : Store) (r : Request UpdateRoleReq)
    (werr : Option GoError) : Except Panic HandlerResult :=
  if r.Method ≠ "POST" then
    Except.ok ⟨sendError 405 "Method not allowed", db, []⟩
  else if r.XWechatID = "" then
    Except.ok ⟨sendError 401 "Unauthorized", db, []⟩
  else
    match r.Body with
    | none => Except.ok ⟨sendError 400 "Invalid JSON", db, []⟩
    | some req =>
      if HasPrefix r.XWechatID "admin_" then
        let username := TrimPrefix r.XWechatID "admin_"
        match GetAdminByUsername db username with
        | (_, some _) => Except.ok ⟨sendError 401 "Unauthorized", db, []⟩
        | (adminAccount, none) =>
          (deref adminAccount).bind (fun a => Except.ok (updateRoleGate db req a.Role werr))
      else
        match GetUserByWechatID db r.XWechatID with
        | (_, some _) => Except.ok ⟨sendError 401 "Unauthorized", db, []⟩
        | (admin, none) => Except.ok (updateRoleGate db req admin.Role werr)

/-- `adminGrantRoleHandler`. -/
def adminGrantRoleHandler (db : Store) (r : Request GrantRoleReq)
    (werr : Option GoError) : Except Panic HandlerResult :=
  if r.Method ≠ "POST" then
    Except.ok ⟨sendError 405 "Method not allowed", db, []⟩
  else
    match r.Body with
    | none => Except.ok ⟨sendError 400 "Invalid JSON", db, []⟩
    | some req =>
      match GetAdminByUsername db req.AdminUsername with
      | (_, some _) => Except.ok ⟨sendError 401 "管理员身份验证失败", db, []⟩
      | (admin, none) =>
        if !isValidRole req.NewRole then
          Except.ok ⟨sendError 400 "无效的角色", db, []⟩
        else if req.NewRole = "super_admin" then
          Except.ok ⟨sendError 403 "权限不足：不能设置超级管理员角色", db, []⟩
        else
          -- `admin` is read from here on (`admin.Role`, then `admin.Username`)
          (deref admin).bind (fun a =>
            if req.NewRole = "admin" ∧ a.Role ≠ "super_admin" then
              Except.ok ⟨sendError 403 "权限不足：只有超级管理员可以设置管理员角色", db, []⟩
            else
              match GetUserByWechatID db req.UserWechatID with
              | (_, some _) => Except.ok ⟨sendError 404 "用户不存在", db, []⟩
              | (_, none) =>
                match UpdateUserRoleByWechatID db req.UserWechatID req.NewRole werr with
                | (db1, some _) =>
                  Except.ok ⟨sendError 500 "更新角色失败", db1,
                    [StoreCall.UpdateUserRoleByWechatID req.UserWechatID req.NewRole]⟩
                | (db1, none) =>
                  Except.ok ⟨sendSuccess, db1,
                    [StoreCall.UpdateUserRoleByWechatID req.UserWechatID req.NewRole]⟩)

/-- The `case "POST"` arm of `consultationHandler`. -/
def consultationHandlerPost (db : Store) (body : Option Consultation) (now : String)
    (newID : Int) (werr : Option GoError) : HandlerResult :=
  match body with
  | none => ⟨sendError 400 "Invalid JSON", db, []⟩
  | some req =>
    -- the guard of lines 871-878; `true` when the request is turned away
    let refused : Bool :=
      if !HasPrefix req.AuthorID "admin_" then
        match GetUserByWechatID db req.AuthorID with
        | (user, err) =>
          decide (err ≠ none) || (decide (user.Role ≠ "super_admin") && decide (user.Role ≠ "admin"))
      else false
    if refused then
      ⟨sendError 403 "只有管理员可以发布乡村咨询", db, []⟩
    else
      match ConsultationCreate db req now newID werr with
      | (db1, _, some _) =>
        ⟨sendError 500 "Failed to create consultation", db1, [StoreCall.ConsultationCreate req]⟩
      | (db1, _, none) =>
        ⟨sendSuccess, db1, [StoreCall.ConsultationCreate req]⟩

/-- The `case "DELETE"` arm shared, word for word up to the table name, by
`farmhouseDetailHandler`, `policyDetailHandler`, `tourismDetailHandler`,
`jobsDetailHandler` and `helpDetailHandler`: `found` is the result of the
`...GetByID` call with the row narrowed to its `PublisherID`, `notFound` the
404 message, `deleted` the result of the `...Delete` call and `call` its
record in the log. -/
def deleteArm (db : Store) (userID : String) (found : Option String × Option GoError)
    (notFound : String) (deleted : Store × Option GoError) (call : StoreCall) :
    Except Panic HandlerResult :=
  if userID = "" then
    Except.ok ⟨sendError 401 "请先登录", db, []⟩
  else
    match found with
    | (_, some _) => Except.ok ⟨sendError 404 notFound, db, []⟩
    | (row, none) =>
      (deref row).bind (fun publisherID =>
        (checkDeletePermission db userID publisherID).bind (fun allowed =>
          if !allowed then
            Except.ok ⟨sendError 403 "无权删除此内容", db, []⟩
          else
            match deleted with
            | (db1, some _) => Except.ok ⟨sendError 500 "删除失败", db1, [call]⟩
            | (db1, none) => Except.ok ⟨sendSuccess, db1, [call]⟩))

/-- The `case "DELETE"` arm of `farmhouseDetailHandler`. -/
def farmhouseDetailHandlerDelete (db : Store) (userID : String) (id : Int)
    (werr : Option GoError) : Except Panic HandlerResult :=
  deleteArm db userID
    ((FarmhouseGetByID db id).1.map (fun x => x.PublisherID), (FarmhouseGetByID db id).2)
    "农家乐不存在" (FarmhouseDelete db id werr) (StoreCall.FarmhouseDelete id)

/-- The `case "DELETE"` arm of `policyDetailHandler`. -/
def policyDetailHandlerDelete (db : Store) (userID : String) (id : Int)
    (werr : Option GoError) : Except Panic HandlerResult :=
  deleteArm db userID
    ((PolicyGetByID db id).1.map (fun x => x.PublisherID), (PolicyGetByID db id).2)
    "政策不存在" (PolicyDelete db id werr) (StoreCall.PolicyDelete id)

/-- The `case "DELETE"` arm of `tourismDetailHandler`. -/
def tourismDetailHandlerDelete (db : Store) (userID : String) (id : Int)
    (werr : Option GoError) : Except Panic HandlerResult :=
  deleteArm db userID
    ((TourismGetByID db id).1.map (fun x => x.PublisherID), (TourismGetByID db id).2)
    "景区不存在" (TourismDelete db id werr) (StoreCall.TourismDelete id)

/-- The `case "DELETE"` arm of `jobsDetailHandler`. -/
def jobsDetailHandlerDelete (db : Store) (userID : String) (id : Int)
    (werr : Option GoError) : Except Panic HandlerResult :=
  deleteArm db userID
    ((JobsGetByID db id).1.map (fun x => x.PublisherID), (JobsGetByID db id).2)
    "招聘不存在" (JobDelete db id werr) (StoreCall.JobDelete id)

/-- The `case "DELETE"` arm of `helpDetailHandler`. -/
def helpDetailHandlerDelete (db : Store) (userID : String) (id : Int)
    (werr : Option GoError) : Except Panic HandlerResult :=
  deleteArm db userID
    ((HelpGetByID db id).1.map (fun x => x.PublisherID), (HelpGetByID db id).2)
    "求助不存在" (HelpDelete db id werr) (StoreCall.HelpDelete id)

/-- The inline permission check of the `case "DELETE"` arm of
`consultationDetailHandler` (lines 930-948): the value of `canDelete`. -/
def consultationCanDelete (db : Store) (userID : String) (consultation : Option Consultation) :
    Except Panic Bool :=
  if HasPrefix userID "admin_" then
    let username := TrimPrefix userID "admin_"
    match GetAdminByUsername db username with
    | (admin, err) =>
      if err = none then
        (deref admin).bind (fun a => Except.ok (a.Role = "super_admin" || a.Role = "admin"))
      else Except.ok false
  else
    match GetUserByWechatID db userID with
    | (user, err) =>
      if err = none then
        (deref consultation).bind (fun c =>
          Except.ok (user.Role = "super_admin" || user.Role = "admin" || c.AuthorID = userID))
      else Except.ok false

/-- The `case "DELETE"` arm of `consultationDetailHandler`. -/
def consultationDetailHandlerDelete (db : Store) (userID : String) (id : Int)
    (werr : Option GoError) : Except Panic HandlerResult :=
  if userID = "" then
    Except.ok ⟨sendError 401 "请先登录", db, []⟩
  else
    match ConsultationGetByID db id with
    | (_, some _) => Except.ok ⟨sendError 404 "咨询不存在", db, []⟩
    | (consultation, none) =>
      (consultationCanDelete db userID consultation).bind (fun canDelete =>
        if !canDelete then
          Except.ok ⟨sendError 403 "无权删除此内容", db, []⟩
        else
          match ConsultationDelete db id werr with
          | (db1, some _) =>
            Except.ok ⟨sendError 500 "删除失败", db1, [StoreCall.ConsultationDelete id]⟩
          | (db1, none) =>
            Except.ok ⟨sendSuccess, db1, [StoreCall.ConsultationDelete id]⟩)

/-- Body of a request to `checkPermissionHandler`. -/
structure CheckPermissionReq where
  UserID : String
  ContentType : String
  ContentID : Int
  deriving DecidableEq, Repr

/-- What `checkPermissionHandler` writes: an error envelope, or the success
envelope with its three data fields. -/
inductive PermissionReply where
  | error (code : Int) (message : String)
  | success (can_delete : Bool) (publisher_id : String) (user_id : String)
  deriving DecidableEq, Repr

/-- The `switch req.ContentType` of `checkPermissionHandler` (lines 276-322):
the publisher identity of the row, or the error response sent instead. -/
def resolvePublisher (db : Store) (contentType : String) (contentID : Int) :
    Except Panic (Response ⊕ String) :=
  if contentType = "policy" then
    match PolicyGetByID db contentID with
    | (_, some _) => Except.ok (Sum.inl (sendError 404 "Content not found"))
    | (policy, none) => (deref policy).bind (fun x => Except.ok (Sum.inr x.PublisherID))
  else if contentType = "tourism" then
    match TourismGetByID db contentID with
    | (_, some _) => Except.ok (Sum.inl (sendError 404 "Content not found"))
    | (tourism, none) => (deref tourism).bind (fun x => Except.ok (Sum.inr x.PublisherID))
  else if contentType = "job" then
    match JobsGetByID db contentID with
    | (_, some _) => Except.ok (Sum.inl (sendError 404 "Content not found"))
    | (job, none) => (deref job).bind (fun x => Except.ok (Sum.inr x.PublisherID))
  else if contentType = "help" then
    match HelpGetByID db contentID with
    | (_, some _) => Except.ok (Sum.inl (sendError 404 "Content not found"))
    | (help, none) => (deref help).bind (fun x => Except.ok (Sum.inr x.PublisherID))
  else if contentType = "consultation" then
    match ConsultationGetByID db contentID with
    | (_, some _) => Except.ok (Sum.inl (sendError 404 "Content not found"))
    | (consultation, none) =>
      (deref consultation).bind (fun x => Except.ok (Sum.inr x.AuthorID))
  else if contentType = "farmhouse" then
    match FarmhouseGetByID db contentID with
    | (_, some _) => Except.ok (Sum.inl (sendError 404 "Content not found"))
    | (farmhouse, none) => (deref farmhouse).bind (fun x => Except.ok (Sum.inr x.PublisherID))
  else
    Except.ok (Sum.inl (sendError 400 "Invalid content type"))

/-- `checkPermissionHandler`.  The outer `err` of line 274 is never assigned
(each `case` declares its own), so the check of line 324 never fires. -/
def checkPermissionHandler (db : Store) (method : String) (body : Option CheckPermissionReq) :
    Except Panic PermissionReply :=
  if method ≠ "POST" then
    Except.ok (PermissionReply.error 405 "Method not allowed")
  else
    match body with
    | none => Except.ok (PermissionReply.error 400 "Invalid request body")
    | some req =>
      if req.UserID = "" ∨ req.ContentType = "" ∨ req.ContentID = 0 then
        Except.ok (PermissionReply.error 400 "Missing required fields")
      else
        (resolvePublisher db req.ContentType req.ContentID).bind (fun r =>
          match r with
          | Sum.inl resp => Except.ok (PermissionReply.error resp.Code resp.Message)
          | Sum.inr publisherID =>
            let err : Option GoError := none
            if err ≠ none then
              Except.ok (PermissionReply.error 500 "Failed to check permission")
            else
              (checkDeletePermission db req.UserID publisherID).bind (fun canDelete =>
                Except.ok (PermissionReply.success canDelete publisherID req.UserID)))

/-- The `case "PUT"` arm of `farmhouseDetailHandler`: no identity is read and
no permission is checked. -/
def farmhouseDetailHandlerPut (db : Store) (id : Int) (body : Option Farmhouse)
    (werr : Option GoError) : HandlerResult :=
  match body with
  | none => ⟨sendError 400 "Invalid JSON", db, []⟩
  | some f =>
    match FarmhouseUpdate db id f werr with
    | (db1, _, some _) => ⟨sendError 500 "更新失败", db1, [StoreCall.FarmhouseUpdate id f]⟩
    | (db1, _, none) => ⟨sendSuccess, db1, [StoreCall.FarmhouseUpdate id f]⟩

/-- Body of a request to `wechatLoginHandler`. -/
structure WechatLoginReq where
  WechatID : String
  Nickname : String
  Avatar : String
  deriving DecidableEq, Repr

/-- `wechatLoginHandler`: the only check on the identifier is that it is not
empty. -/
def wechatLoginHandler (db : Store) (method : String) (body : Option WechatLoginReq)
    (newID : Int) (werr : Option GoError) : HandlerResult :=
  if method ≠ "POST" then
    ⟨sendError 405 "Method not allowed", db, []⟩
  else
    match body with
    | none => ⟨sendError 400 "Invalid JSON", db, []⟩
    | some req =>
      if req.WechatID = "" then
        ⟨sendError 400 "wechat_id is required", db, []⟩
      else
        match GetOrCreateUserByWechatID db req.WechatID req.Nickname req.Avatar newID werr with
        | (db1, _, some _) =>
          ⟨sendError 500 "Failed to login", db1,
            [StoreCall.GetOrCreateUserByWechatID req.WechatID req.Nickname req.Avatar]⟩
        | (db1, _, none) =>
          ⟨sendSuccess, db1,
            [StoreCall.GetOrCreateUserByWechatID req.WechatID req.Nickname req.Avatar]⟩

/-- The `case "PUT"` arm of `userHandler`, with `authRequired` unfolded: the
caller must name an existing user; the decoded payload goes to
`UpdateUserProfile` as it is. -/
def userHandlerPut (db : Store) (wechatID : String)
    (payload : Option (List (String × JSONValue)))
    (werr : Option GoError) : HandlerResult :=
  if wechatID = "" then
    ⟨sendError 401 "缺少 X-Wechat-ID", db, []⟩
  else
    match GetUserByWechatID db wechatID with
    | (_, some _) => ⟨sendError 401 "用户不存在", db, []⟩
    | (u, none) =>
      match payload with
      | none => ⟨sendError 400 "Invalid JSON", db, []⟩
      | some pl =>
        match UpdateUserProfile db u.ID pl werr with
        | (db1, some _) => ⟨sendError 500 "更新失败", db1, [StoreCall.UpdateUserProfile u.ID pl]⟩
        | (db1, none) => ⟨sendSuccess, db1, [StoreCall.UpdateUserProfile u.ID pl]⟩

/-- `latestNewsHandler`: `countParam` is the `count` query parameter when it
is present and `strconv.Atoi` accepts it.  The result is the response and the
list sent as its data. -/
def latestNewsHandler (db : Store) (method : String) (countParam : Option Int)
    (qerr : Option GoError) : Except Panic (Response × List News) :=
  if method ≠ "GET" then
    Except.ok (sendError 405 "Method not allowed", [])
  else
    let count : Int := match countParam with
      | some v => v
      | none => 4
    match NewsListAll db qerr with
    | (_, some _) => Except.ok (sendError 500 "数据库查询错误", [])
    | (list, none) =>
      let count1 : Int := if (list.length : Int) < count then (list.length : Int) else count
      (sliceTo list count1).bind (fun data => Except.ok (sendSuccess, data))

/-! ## The decision procedure as the specification words it -/

/-- Role hierarchy of the specification: `satisfies actual required` is
`level actual >= level required`, with the levels of `CheckUserPermission`. -/
def satisfies (actualRole requiredRole : String) : Bool :=
  decide (roleLevel actualRole ≥ roleLevel requiredRole)

/-- Decision procedure `canDelete` of the specification: deny the empty
identity; an administrator-shaped identity is allowed when its administrator
account exists and satisfies "admin", or when the publisher is the stripped
username or the raw identity; any other identity is allowed when it is the
publisher, or when its user account exists and satisfies "admin". -/
def canDeleteSpec (db : Store) (actingIdentity publisherIdentity : String) : Bool :=
  if actingIdentity = "" then false
  else if HasPrefix actingIdentity "admin_" then
    let stripped := TrimPrefix actingIdentity "admin_"
    (match db.admins.find? (fun a => a.Username = stripped) with
      | some a => satisfies a.Role "admin"
      | none => false)
    || decide (publisherIdentity = stripped)
    || decide (publisherIdentity = actingIdentity)
  else
    decide (publisherIdentity = actingIdentity)
    || (match db.users.find? (fun u => u.WechatID = actingIdentity) with
      | some u => satisfies u.Role "admin"
      | none => false)

/-- Identity Resolver of the specification, administrator side: the role of
the administrator account with that username, if there is one. -/
def adminRoleOf (db : Store) (username : String) : Option String :=
  (db.admins.find? (fun a => a.Username = username)).map (fun a => a.Role)

/-- Identity Resolver of the specification, user side: the role of the user
account with that external identifier, if there is one. -/
def userRoleOf (db : Store) (wechatID : String) : Option String :=
  (db.users.find? (fun u => u.WechatID = wechatID)).map (fun u => u.Role)

/-- Identity Resolver of the specification: an identity with the prefix
"admin_" names the administrator account of the stripped username, any other
identity names a user account. -/
def resolvedRole (db : Store) (identity : String) : Option String :=
  if HasPrefix identity "admin_" then adminRoleOf db (TrimPrefix identity "admin_")
  else userRoleOf db identity

/-- Role-assignment gating as the claims word it: the target role is one of
admin, vip, user, banned; the target admin is asked for only by a super_admin;
the acting role is admin or super_admin. -/
def assignAllowed (actingRole newRole : String) : Prop :=
  (newRole = "admin" ∨ newRole = "vip" ∨ newRole = "user" ∨ newRole = "banned")
    ∧ (newRole = "admin" → actingRole = "super_admin")
    ∧ (actingRole = "admin" ∨ actingRole = "super_admin")

instance (actingRole newRole : String) : Decidable (assignAllowed actingRole newRole) := by
  unfold assignAllowed; infer_instance

/-- A handler run that turned the request away: some error response, no store
write issued, the store as it was. -/
def Rejected (db : Store) (res : HandlerResult) : Prop :=
  res.resp.Code ≠ 200 ∧ res.calls = [] ∧ res.db = db

instance (db : Store) (res : HandlerResult) : Decidable (Rejected db res) := by
  unfold Rejected; infer_instance

/-- The content-type tags `checkPermissionHandler` has a `case` for. -/
def recognizedKinds : List String :=
  ["policy", "tourism", "job", "help", "consultation", "farmhouse"]

/-- Ownership fact of the data model: the owner recorded on the row of the
given kind and ID (`AuthorID` for a consultation, `PublisherID` for the other
kinds, news included), if that row exists. -/
def recordedOwner (db : Store) (kind : String) (id : Int) : Option String :=
  if kind = "news" then (db.news.find? (fun x => x.ID = id)).map (fun x => x.PublisherID)
  else if kind = "farmhouse" then
    (db.farmhouses.find? (fun x => x.ID = id)).map (fun x => x.PublisherID)
  else if kind = "policy" then
    (db.policies.find? (fun x => x.ID = id)).map (fun x => x.PublisherID)
  else if kind = "tourism" then
    (db.tourisms.find? (fun x => x.ID = id)).map (fun x => x.PublisherID)
  else if kind = "job" then (db.jobs.find? (fun x => x.ID = id)).map (fun x => x.PublisherID)
  else if kind = "help" then (db.helps.find? (fun x => x.ID = id)).map (fun x => x.PublisherID)
  else if kind = "consultation" then
    (db.consultations.find? (fun x => x.ID = id)).map (fun x => x.AuthorID)
  else none

/-- Transient contention as the store signals it: the error text contains
"database is locked" or "SQLITE_BUSY". -/
def isTransient (e : GoError) : Bool :=
  Contains e.Error "database is locked" || Contains e.Error "SQLITE_BUSY"

/-- The first `j` answers of the store are all transient contention. -/
def busyBefore (attempt : Nat → Option GoError) (j : Nat) : Prop :=
  ∀ k, k < j → ∃ e, attempt k = some e ∧ isTransient e = true

/-- The data-model invariant of the administrator table (`type Admin`,
`Role // super_admin, admin`): every administrator account has role
super_admin or admin.  `CreateDefaultAdmin`, the only writer of that table,
keeps it. -/
def adminRolesValid (db : Store) : Prop :=
  ∀ a ∈ db.admins, a.Role = "super_admin" ∨ a.Role = "admin"

instance (db : Store) : Decidable (adminRolesValid db) := by
  unfold adminRolesValid; infer_instance

/-- One request to `wechatLoginHandler` together with the store's answers
while it is served. -/
structure LoginStep where
  method : String
  body : Option WechatLoginReq
  newID : Int
  werr : Option GoError

/-- The store after a sequence of requests to `wechatLoginHandler`. -/
def runLogins (db : Store) : List LoginStep → Store
  | [] => db
  | s :: rest => runLogins (wechatLoginHandler db s.method s.body s.newID s.werr).db rest

/-- The store after startup provisioning of a fresh database. -/
def startup : Store := (CreateDefaultAdmin {} 1 none).1

/-- The operations `services/db.go` offers on content rows: every function
that writes one of the seven content tables, with its arguments and the
store's answers. -/
inductive ContentOp where
  | createNews (n : News) (now : String) (newID : Int) (attempt : Nat → Option GoError)
  | updateNews (id : Int) (n : News) (werr : Option GoError)
  | deleteNews (id : Int) (werr : Option GoError)
  | incrementNewsView (id : Int) (werr : Option GoError)
  | farmhouseCreate (f : Farmhouse) (now : String) (newID : Int) (werr : Option GoError)
  | farmhouseUpdate (id : Int) (f : Farmhouse) (werr : Option GoError)
  | farmhouseDelete (id : Int) (werr : Option GoError)
  | policyCreate (p : Policy) (now : String) (newID : Int) (attempt : Nat → Option GoError)
  | incrementPolicyRead (id : Int) (werr : Option GoError)
  | policyDelete (id : Int) (werr : Option GoError)
  | tourismCreate (t : Tourism) (newID : Int) (werr : Option GoError)
  | incrementTourismView (id : Int) (werr : Option GoError)
  | tourismDelete (id : Int) (werr : Option GoError)
  | jobsCreate (j : Job) (now : String) (newID : Int) (werr : Option GoError)
  | incrementJobView (id : Int) (werr : Option GoError)
  | jobDelete (id : Int) (werr : Option GoError)
  | helpCreate (h : Help) (now : String) (newID : Int) (werr : Option GoError)
  | incrementHelpView (id : Int) (werr : Option GoError)
  | helpDelete (id : Int) (werr : Option GoError)
  | consultationCreate (c : Consultation) (now : String) (newID : Int) (werr : Option GoError)
  | incrementConsultationView (id : Int) (werr : Option GoError)
  | consultationDelete (id : Int) (werr : Option GoError)

/-- The store after the operation. -/
def ContentOp.run (op : ContentOp) (db : Store) : Store :=
  match op with
  | ContentOp.createNews n now newID attempt => (CreateNews db n now newID attempt).1
  | ContentOp.updateNews id n werr => (UpdateNews db id n werr).1
  | ContentOp.deleteNews id werr => (DeleteNews db id werr).1
  | ContentOp.incrementNewsView id werr => (IncrementNewsView db id werr).1
  | ContentOp.farmhouseCreate f now newID werr => (FarmhouseCreate db f now newID werr).1
  | ContentOp.farmhouseUpdate id f werr => (FarmhouseUpdate db id f werr).1
  | ContentOp.farmhouseDelete id werr => (FarmhouseDelete db id werr).1
  | ContentOp.policyCreate p now newID attempt => (PolicyCreate db p now newID attempt).1
  | ContentOp.incrementPolicyRead id werr => (IncrementPolicyRead db id werr).1
  | ContentOp.policyDelete id werr => (PolicyDelete db id werr).1
  | ContentOp.tourismCreate t newID werr => (TourismCreate db t newID werr).1
  | ContentOp.incrementTourismView id werr => (IncrementTourismView db id werr).1
  | ContentOp.tourismDelete id werr => (TourismDelete db id werr).1
  | ContentOp.jobsCreate j now newID werr => (JobsCreate db j now newID werr).1
  | ContentOp.incrementJobView id werr => (IncrementJobView db id werr).1
  | ContentOp.jobDelete id werr => (JobDelete db id werr).1
  | ContentOp.helpCreate h now newID werr => (HelpCreate db h now newID werr).1
  | ContentOp.incrementHelpView id werr => (IncrementHelpView db id werr).1
  | ContentOp.helpDelete id werr => (HelpDelete db id werr).1
  | ContentOp.consultationCreate c now newID werr => (ConsultationCreate db c now newID werr).1
  | ContentOp.incrementConsultationView id werr => (IncrementConsultationView db id werr).1
  | ContentOp.consultationDelete id werr => (ConsultationDelete db id werr).1

/-- The two operations that end in `DB.Save`, which writes every column of
the submitted record. -/
def ContentOp.isFullRowUpdate : ContentOp → Bool
  | ContentOp.updateNews _ _ _ => true
  | ContentOp.farmhouseUpdate _ _ _ => true
  | _ => false

/-- The operations that end in `DB.Delete`. -/
def ContentOp.isDelete : ContentOp → Bool
  | ContentOp.deleteNews _ _ => true
  | ContentOp.farmhouseDelete _ _ => true
  | ContentOp.policyDelete _ _ => true
  | ContentOp.tourismDelete _ _ => true
  | ContentOp.jobDelete _ _ => true
  | ContentOp.helpDelete _ _ => true
  | ContentOp.consultationDelete _ _ => true
  | _ => false

/-- The (key, owner) columns of the table of the given kind, in row order:
what `recordedOwner` searches. -/
def ownerPairs (db : Store) (kind : String) : List (Int × String) :=
  if kind = "news" then db.news.map (fun x => (x.ID, x.PublisherID))
  else if kind = "farmhouse" then db.farmhouses.map (fun x => (x.ID, x.PublisherID))
  else if kind = "policy" then db.policies.map (fun x => (x.ID, x.PublisherID))
  else if kind = "tourism" then db.tourisms.map (fun x => (x.ID, x.PublisherID))
  else if kind = "job" then db.jobs.map (fun x => (x.ID, x.PublisherID))
  else if kind = "help" then db.helps.map (fun x => (x.ID, x.PublisherID))
  else if kind = "consultation" then db.consultations.map (fun x => (x.ID, x.AuthorID))
  else []

/-! ## Auxiliary facts -/

theorem roleLevel_admin : roleLevel "admin" = 3 := by decide

theorem satisfies_admin_iff (role : String) :
    satisfies role "admin" = true ↔ (role = "super_admin" ∨ role = "admin") := by
  unfold satisfies
  rw [roleLevel_admin]
  by_cases h1 : role = "super_admin"
  · subst h1; simp; decide
  by_cases h2 : role = "admin"
  · subst h2; simp; decide
  by_cases h3 : role = "vip"
  · subst h3; simp; decide
  by_cases h4 : role = "user"
  · subst h4; simp; decide
  by_cases h5 : role = "banned"
  · subst h5; simp; decide
  have : roleLevel role = 0 := by
    have e1 : (role == "super_admin") = false := by simpa using h1
    have e2 : (role == "admin") = false := by simpa using h2
    have e3 : (role == "vip") = false := by simpa using h3
    have e4 : (role == "user") = false := by simpa using h4
    have e5 : (role == "banned") = false := by simpa using h5
    simp [roleLevel, roleLevelMap, List.lookup, e1, e2, e3, e4, e5]
  simp [this, h1, h2]

theorem satisfies_admin_eq (role : String) :
    satisfies role "admin" = (decide (role = "super_admin") || decide (role = "admin")) := by
  rw [Bool.eq_iff_iff, satisfies_admin_iff]; simp

theorem HasPrefix_append (pre u : String) : HasPrefix (pre ++ u) pre = true := by
  simp [HasPrefix, String.data_append]

theorem TrimPrefix_append (pre u : String) : TrimPrefix (pre ++ u) pre = u := by
  simp [TrimPrefix, HasPrefix_append, String.data_append]

theorem append_ne_empty (pre u : String) (h : pre ≠ "") : pre ++ u ≠ "" := by
  intro he
  have hd := congrArg String.data he
  simp [String.data_append] at hd
  exact h (String.ext hd.1)

theorem roleLevel_lt_admin_iff (role : String) :
    roleLevel role < roleLevel "admin" ↔ ¬ (role = "super_admin" ∨ role = "admin") := by
  rw [← satisfies_admin_iff]
  unfold satisfies
  simp

/-! ## Delete permission -/

/-- The code and the specification's procedure agree on every input. -/
theorem cdp_eq_spec (db : Store) (userID publisherID : String) :
    checkDeletePermission db userID publisherID
      = Except.ok (canDeleteSpec db userID publisherID) := by
  unfold checkDeletePermission canDeleteSpec GetAdminByUsername GetUserByWechatID
  by_cases h0 : userID = ""
  · simp [h0]
  · by_cases hp : HasPrefix userID "admin_" = true
    · cases hf : db.admins.find? (fun a => decide (a.Username = TrimPrefix userID "admin_")) with
      | none =>
        by_cases h1 : publisherID = TrimPrefix userID "admin_" <;>
          by_cases h2 : publisherID = userID <;>
          simp [h0, hp, hf, Except.bind, h1, h2]
      | some a =>
        by_cases h1 : publisherID = TrimPrefix userID "admin_" <;>
          by_cases h2 : publisherID = userID <;>
          by_cases h3 : a.Role = "super_admin" <;>
          by_cases h4 : a.Role = "admin" <;>
          simp [h0, hp, hf, Except.bind, deref, h1, h2, h3, h4, satisfies_admin_eq]
    · have hp2 : HasPrefix userID "admin_" = false := by simpa using hp
      cases hf : db.users.find? (fun u => decide (u.WechatID = userID)) with
      | none =>
        by_cases h2 : publisherID = userID <;>
          simp [h0, hp2, hf, h2]
      | some u =>
        by_cases h2 : publisherID = userID <;>
          by_cases h3 : u.Role = "super_admin" <;>
          by_cases h4 : u.Role = "admin" <;>
          simp [h0, hp2, hf, h2, h3, h4, satisfies_admin_eq]


/-- C1: for every acting identity, publisher identity and store,
`checkDeletePermission` returns (without panicking) exactly the result of the
specification's decision procedure `canDeleteSpec`, in which "role satisfies
admin" is the level comparison of `CheckUserPermission`. -/
theorem checkDeletePermission_eq_canDeleteSpec (db : Store) (userID publisherID : String) :
    checkDeletePermission db userID publisherID
      = Except.ok (canDeleteSpec db userID publisherID) :=
  cdp_eq_spec db userID publisherID

/-- C2: a non-empty acting identity without the administrator prefix may
delete content whose publisher identity equals it, in every store, also one
with no user row for that identity. -/
theorem checkDeletePermission_author (db : Store) (userID : String)
    (hne : userID ≠ "") (hp : HasPrefix userID "admin_" = false) :
    checkDeletePermission db userID userID = Except.ok true := by
  simp [checkDeletePermission, hne, hp]

theorem checkDeletePermission_author_witness :
    GetUserByWechatID {} "wx_abc" = ({}, some GoError.ErrRecordNotFound)
      ∧ checkDeletePermission {} "wx_abc" "wx_abc" = Except.ok true :=
  ⟨by decide, checkDeletePermission_author {} "wx_abc" (by decide) (by decide)⟩

/-- C3: when no administrator account has username `u`, the identity
`"admin_" ++ u` may delete content published under `u` and content published
under `"admin_" ++ u`. -/
theorem checkDeletePermission_admin_fallback (db : Store) (u : String)
    (hno : ∀ a ∈ db.admins, a.Username ≠ u) :
    checkDeletePermission db ("admin_" ++ u) u = Except.ok true
      ∧ checkDeletePermission db ("admin_" ++ u) ("admin_" ++ u) = Except.ok true := by
  have hne : "admin_" ++ u ≠ "" := append_ne_empty "admin_" u (by decide)
  have hf : db.admins.find? (fun a => decide (a.Username = u)) = none := by
    rw [List.find?_eq_none]
    intro a ha
    simpa using hno a ha
  constructor <;>
    simp [checkDeletePermission, hne, HasPrefix_append, TrimPrefix_append,
      GetAdminByUsername, hf, Except.bind]

theorem checkDeletePermission_admin_fallback_witness :
    checkDeletePermission { admins := [{ Username := "admin", Role := "super_admin" }] }
        ("admin_" ++ "old") "old" = Except.ok true
      ∧ checkDeletePermission { admins := [{ Username := "admin", Role := "super_admin" }] }
        ("admin_" ++ "old") ("admin_" ++ "old") = Except.ok true :=
  checkDeletePermission_admin_fallback
    { admins := [{ Username := "admin", Role := "super_admin" }] } "old" (by decide)

/-- An account with a role below admin is refused for every publisher
identity different from the acting identity and, when the acting identity is
administrator-shaped, also different from the stripped username. -/
theorem checkDeletePermission_low_role (db : Store) (userID publisherID : String)
    (hne : publisherID ≠ userID)
    (hacc :
      (HasPrefix userID "admin_" = true
        ∧ publisherID ≠ TrimPrefix userID "admin_"
        ∧ ∃ a, GetAdminByUsername db (TrimPrefix userID "admin_") = (some a, none)
            ∧ roleLevel a.Role < roleLevel "admin")
      ∨ (HasPrefix userID "admin_" = false
        ∧ ∃ u, GetUserByWechatID db userID = (u, none)
            ∧ roleLevel u.Role < roleLevel "admin")) :
    checkDeletePermission db userID publisherID = Except.ok false := by
  by_cases h0 : userID = ""
  · simp [checkDeletePermission, h0]
  · rcases hacc with ⟨hp, hs, a, hg, hl⟩ | ⟨hp, u, hg, hl⟩
    · rw [roleLevel_lt_admin_iff] at hl
      push_neg at hl
      simp [checkDeletePermission, h0, hp, hg, deref, Except.bind, hl.1, hl.2, hs, hne]
    · rw [roleLevel_lt_admin_iff] at hl
      push_neg at hl
      simp [checkDeletePermission, h0, hp, hg, hl.1, hl.2, hne]

/-- In a store that keeps the administrator-role invariant, every
administrator account that resolves has a role that satisfies "admin". -/
theorem adminRoleOf_satisfies (db : Store) (username role : String)
    (hinv : adminRolesValid db) (h : adminRoleOf db username = some role) :
    role = "super_admin" ∨ role = "admin" := by
  unfold adminRoleOf at h
  cases hf : db.admins.find? (fun a => decide (a.Username = username)) with
  | none => rw [hf] at h; cases h
  | some a =>
    rw [hf] at h
    simp only [Option.map_some', Option.some.injEq] at h
    rw [← h]
    exact hinv a (List.mem_of_find?_eq_some hf)

/-- C4: in every store that keeps the data model's administrator roles
(super_admin or admin), an acting identity, administrator-shaped or external,
whose resolved account has a role `R` with `level R < level admin` is refused
for every publisher identity different from the acting identity. -/
theorem checkDeletePermission_below_admin (db : Store) (userID publisherID role : String)
    (hinv : adminRolesValid db)
    (hres : resolvedRole db userID = some role)
    (hlow : roleLevel role < roleLevel "admin")
    (hne : publisherID ≠ userID) :
    checkDeletePermission db userID publisherID = Except.ok false := by
  by_cases hp : HasPrefix userID "admin_" = true
  · exfalso
    simp only [resolvedRole, hp, if_true] at hres
    have hr := adminRoleOf_satisfies db _ role hinv hres
    exact (roleLevel_lt_admin_iff role).1 hlow hr
  · have hp2 : HasPrefix userID "admin_" = false := by simpa using hp
    simp only [resolvedRole, hp2, Bool.false_eq_true, if_false] at hres
    unfold userRoleOf at hres
    cases hf : db.users.find? (fun u => decide (u.WechatID = userID)) with
    | none => rw [hf] at hres; cases hres
    | some u =>
      rw [hf] at hres
      simp only [Option.map_some', Option.some.injEq] at hres
      refine checkDeletePermission_low_role db userID publisherID hne
        (Or.inr ⟨hp2, u, by simp [GetUserByWechatID, hf], by rw [hres]; exact hlow⟩)

theorem checkDeletePermission_below_admin_witness :
    checkDeletePermission
        { admins := [{ Username := "admin", Role := "super_admin" }],
          users := [{ ID := 1, WechatID := "wx_xyz", Role := "user" }] }
        "wx_xyz" "wx_abc" = Except.ok false :=
  checkDeletePermission_below_admin
    { admins := [{ Username := "admin", Role := "super_admin" }],
      users := [{ ID := 1, WechatID := "wx_xyz", Role := "user" }] }
    "wx_xyz" "wx_abc" "user" (by decide) (by decide) (by decide) (by decide)

/-- C5: `checkDeletePermission` returns a boolean on every input and never
panics: the administrator pointer is `nil` exactly when the lookup reports an
error, and it is never dereferenced then; when the lookup of the acting
identity fails and the publisher identity matches neither the acting identity
nor (for an administrator-shaped identity) the stripped username, the result
is `false`. -/
theorem checkDeletePermission_total (db : Store) (userID publisherID : String) :
    (∃ b, checkDeletePermission db userID publisherID = Except.ok b)
      ∧ (∀ name, (GetAdminByUsername db name).1 = none ↔ (GetAdminByUsername db name).2 ≠ none)
      ∧ (HasPrefix userID "admin_" = true →
          (GetAdminByUsername db (TrimPrefix userID "admin_")).2 ≠ none →
          publisherID ≠ TrimPrefix userID "admin_" → publisherID ≠ userID →
          checkDeletePermission db userID publisherID = Except.ok false)
      ∧ (HasPrefix userID "admin_" = false →
          (GetUserByWechatID db userID).2 ≠ none → publisherID ≠ userID →
          checkDeletePermission db userID publisherID = Except.ok false) := by
  refine ⟨⟨_, cdp_eq_spec db userID publisherID⟩, ?_, ?_, ?_⟩
  · intro name
    unfold GetAdminByUsername
    cases db.admins.find? (fun a => decide (a.Username = name)) <;> simp
  · intro hp herr h1 h2
    by_cases h0 : userID = ""
    · simp [checkDeletePermission, h0]
    · unfold GetAdminByUsername at herr
      cases hf : db.admins.find? (fun a => decide (a.Username = TrimPrefix userID "admin_")) with
      | none => simp [checkDeletePermission, GetAdminByUsername, h0, hp, hf, Except.bind, h1, h2]
      | some a => simp [hf] at herr
  · intro hp herr h2
    by_cases h0 : userID = ""
    · simp [checkDeletePermission, h0]
    · unfold GetUserByWechatID at herr
      cases hf : db.users.find? (fun u => decide (u.WechatID = userID)) with
      | none => simp [checkDeletePermission, GetUserByWechatID, h0, hp, hf, h2]
      | some u => simp [hf] at herr

theorem checkDeletePermission_total_witness :
    checkDeletePermission {} "admin_ghost" "wx_abc" = Except.ok false :=
  (checkDeletePermission_total {} "admin_ghost" "wx_abc").2.2.1
    (by decide) (by decide) (by decide) (by decide)


/-! ## Role assignment -/

theorem isValidRole_iff (newRole : String) :
    isValidRole newRole = true ↔
      (newRole = "super_admin" ∨ newRole = "admin" ∨ newRole = "vip"
        ∨ newRole = "user" ∨ newRole = "banned") := by
  simp [isValidRole, validRoles]

/-- The checks of `updateRoleHandler` after the acting role is known: the
write is issued exactly when `assignAllowed` holds, and the request is turned
away otherwise. -/
theorem updateRoleGate_spec (db : Store) (req : UpdateRoleReq) (role : String)
    (werr : Option GoError) :
    ((updateRoleGate db req role werr).calls
        = [StoreCall.UpdateUserRole req.UserID req.NewRole] ↔ assignAllowed role req.NewRole)
      ∧ (¬ assignAllowed role req.NewRole → Rejected db (updateRoleGate db req role werr)) := by
  have rej : ∀ (c : Int) (m : String), c ≠ 200 → ¬ assignAllowed role req.NewRole →
      ((False ↔ assignAllowed role req.NewRole)
        ∧ (¬ assignAllowed role req.NewRole → Rejected db ⟨sendError c m, db, []⟩)) := by
    intro c m hc h3
    exact ⟨⟨fun h => h.elim, fun h => absurd h h3⟩, fun _ => ⟨hc, rfl, rfl⟩⟩
  unfold updateRoleGate
  split_ifs with hv h1 h2 h4
  · refine rej 400 _ (by decide) ?_
    intro h
    have hv2 : ¬ isValidRole req.NewRole = true := by simpa using hv
    apply hv2
    rw [isValidRole_iff]
    rcases h.1 with h | h | h | h
    · exact Or.inr (Or.inl h)
    · exact Or.inr (Or.inr (Or.inl h))
    · exact Or.inr (Or.inr (Or.inr (Or.inl h)))
    · exact Or.inr (Or.inr (Or.inr (Or.inr h)))
  · refine rej 403 _ (by decide) ?_
    intro h
    rw [h1] at h
    rcases h.1 with h | h | h | h <;> exact absurd h (by decide)
  · refine rej 403 _ (by decide) ?_
    exact fun h => h2.2 (h.2.1 h2.1)
  · refine rej 403 _ (by decide) ?_
    exact fun h => h.2.2.elim h4.2 h4.1
  · have hv2 : isValidRole req.NewRole = true := by simpa using hv
    have hin := (isValidRole_iff req.NewRole).1 hv2
    have h3 : assignAllowed role req.NewRole := by
      refine ⟨?_, ?_, ?_⟩
      · rcases hin with h | h | h | h | h
        · exact absurd h h1
        · exact Or.inl h
        · exact Or.inr (Or.inl h)
        · exact Or.inr (Or.inr (Or.inl h))
        · exact Or.inr (Or.inr (Or.inr h))
      · intro hn
        by_contra hr
        exact h2 ⟨hn, hr⟩
      · by_contra hr
        push_neg at hr
        exact h4 ⟨hr.2, hr.1⟩
    unfold UpdateUserRole
    cases werr <;> simp [h3]

theorem rejected_sendError (db : Store) (c : Int) (m : String) (hc : c ≠ 200) :
    Rejected db ⟨sendError c m, db, []⟩ :=
  ⟨hc, rfl, rfl⟩

/-- Every run of `updateRoleHandler` returns; it either turns the request away
before the role checks, or it is the run of `updateRoleGate` at the decoded
body and the resolved role of the acting identity. -/
theorem updateRoleHandler_cases (db : Store) (r : Request UpdateRoleReq)
    (werr : Option GoError) :
    ∃ res, updateRoleHandler db r werr = Except.ok res
      ∧ ((Rejected db res
            ∧ (r.Method ≠ "POST" ∨ r.XWechatID = "" ∨ r.Body = none
                ∨ resolvedRole db r.XWechatID = none))
          ∨ (r.Method = "POST" ∧ r.XWechatID ≠ "" ∧ ∃ req role, r.Body = some req
              ∧ resolvedRole db r.XWechatID = some role
              ∧ res = updateRoleGate db req role werr)) := by
  unfold updateRoleHandler
  by_cases hm : r.Method = "POST"
  swap
  · exact ⟨⟨sendError 405 "Method not allowed", db, []⟩, by simp [hm], Or.inl ⟨rejected_sendError db _ _ (by decide), Or.inl hm⟩⟩
  by_cases hid : r.XWechatID = ""
  · exact ⟨⟨sendError 401 "Unauthorized", db, []⟩, by simp [hm, hid], Or.inl ⟨rejected_sendError db _ _ (by decide), Or.inr (Or.inl hid)⟩⟩
  cases hb : r.Body with
  | none =>
    exact ⟨⟨sendError 400 "Invalid JSON", db, []⟩, by simp [hm, hid], Or.inl ⟨rejected_sendError db _ _ (by decide), Or.inr (Or.inr (Or.inl rfl))⟩⟩
  | some req =>
    by_cases hp : HasPrefix r.XWechatID "admin_" = true
    · cases hf : db.admins.find? (fun a => decide (a.Username = TrimPrefix r.XWechatID "admin_")) with
      | none =>
        refine ⟨⟨sendError 401 "Unauthorized", db, []⟩, by simp [hm, hid, hp, GetAdminByUsername, hf],
          Or.inl ⟨rejected_sendError db _ _ (by decide), Or.inr (Or.inr (Or.inr ?_))⟩⟩
        simp [resolvedRole, hp, adminRoleOf, hf]
      | some a =>
        refine ⟨_, by simp [hm, hid, hp, GetAdminByUsername, hf, deref, Except.bind],
          Or.inr ⟨hm, hid, req, a.Role, rfl, ?_, rfl⟩⟩
        simp [resolvedRole, hp, adminRoleOf, hf]
    · have hp2 : HasPrefix r.XWechatID "admin_" = false := by simpa using hp
      cases hf : db.users.find? (fun u => decide (u.WechatID = r.XWechatID)) with
      | none =>
        refine ⟨⟨sendError 401 "Unauthorized", db, []⟩, by simp [hm, hid, hp2, GetUserByWechatID, hf],
          Or.inl ⟨rejected_sendError db _ _ (by decide), Or.inr (Or.inr (Or.inr ?_))⟩⟩
        simp [resolvedRole, hp2, userRoleOf, hf]
      | some u =>
        refine ⟨_, by simp [hm, hid, hp2, GetUserByWechatID, hf],
          Or.inr ⟨hm, hid, req, u.Role, rfl, ?_, rfl⟩⟩
        simp [resolvedRole, hp2, userRoleOf, hf]

/-- Every run of `adminGrantRoleHandler` returns; it either turns the request
away, or the administrator account exists, the target role is valid and not
super_admin, the target admin was asked for by a super_admin, the target user
exists, and the write was issued. -/
theorem adminGrantRoleHandler_cases (db : Store) (r : Request GrantRoleReq)
    (werr : Option GoError) :
    ∃ res, adminGrantRoleHandler db r werr = Except.ok res
      ∧ (Rejected db res
          ∨ (r.Method = "POST" ∧ ∃ req role, r.Body = some req
              ∧ adminRoleOf db req.AdminUsername = some role
              ∧ isValidRole req.NewRole = true
              ∧ req.NewRole ≠ "super_admin"
              ∧ (req.NewRole = "admin" → role = "super_admin")
              ∧ userRoleOf db req.UserWechatID ≠ none
              ∧ res.calls = [StoreCall.UpdateUserRoleByWechatID req.UserWechatID req.NewRole])) := by
  unfold adminGrantRoleHandler
  by_cases hm : r.Method = "POST"
  swap
  · exact ⟨⟨sendError 405 "Method not allowed", db, []⟩, by simp [hm],
      Or.inl (rejected_sendError db _ _ (by decide))⟩
  cases hb : r.Body with
  | none =>
    exact ⟨⟨sendError 400 "Invalid JSON", db, []⟩, by simp [hm],
      Or.inl (rejected_sendError db _ _ (by decide))⟩
  | some req =>
    cases hf : db.admins.find? (fun a => decide (a.Username = req.AdminUsername)) with
    | none =>
      exact ⟨⟨sendError 401 "管理员身份验证失败", db, []⟩,
        by simp [hm, GetAdminByUsername, hf],
        Or.inl (rejected_sendError db _ _ (by decide))⟩
    | some a =>
      by_cases hv : isValidRole req.NewRole = true
      swap
      · exact ⟨⟨sendError 400 "无效的角色", db, []⟩,
          by simp [hm, GetAdminByUsername, hf, hv],
          Or.inl (rejected_sendError db _ _ (by decide))⟩
      by_cases h1 : req.NewRole = "super_admin"
      · exact ⟨⟨sendError 403 "权限不足：不能设置超级管理员角色", db, []⟩,
          by simp [hm, GetAdminByUsername, hf, h1, isValidRole, validRoles],
          Or.inl (rejected_sendError db _ _ (by decide))⟩
      by_cases h2 : req.NewRole = "admin" ∧ a.Role ≠ "super_admin"
      · exact ⟨⟨sendError 403 "权限不足：只有超级管理员可以设置管理员角色", db, []⟩,
          by simp [hm, GetAdminByUsername, hf, deref, Except.bind, h2, isValidRole, validRoles],
          Or.inl (rejected_sendError db _ _ (by decide))⟩
      cases hu : db.users.find? (fun u => decide (u.WechatID = req.UserWechatID)) with
      | none =>
        exact ⟨⟨sendError 404 "用户不存在", db, []⟩,
          by simp [hm, GetAdminByUsername, hf, hv, h1, deref, Except.bind, h2,
            GetUserByWechatID, hu],
          Or.inl (rejected_sendError db _ _ (by decide))⟩
      | some u =>
        have hadm : req.NewRole = "admin" → a.Role = "super_admin" := by
          intro hn
          by_contra hr
          exact h2 ⟨hn, hr⟩
        have hrole : adminRoleOf db req.AdminUsername = some a.Role := by
          simp [adminRoleOf, hf]
        have huser : userRoleOf db req.UserWechatID ≠ none := by
          simp [userRoleOf, hu]
        cases werr with
        | none =>
          exact ⟨_, by simp [hm, GetAdminByUsername, hf, hv, h1, deref, Except.bind, h2,
              GetUserByWechatID, hu, UpdateUserRoleByWechatID]; rfl,
            Or.inr ⟨hm, req, a.Role, rfl, hrole, hv, h1, hadm, huser, rfl⟩⟩
        | some e =>
          exact ⟨_, by simp [hm, GetAdminByUsername, hf, hv, h1, deref, Except.bind, h2,
              GetUserByWechatID, hu, UpdateUserRoleByWechatID]; rfl,
            Or.inr ⟨hm, req, a.Role, rfl, hrole, hv, h1, hadm, huser, rfl⟩⟩

/-- When the gating allows, `updateRoleGate` issues the write: on a successful
statement the answer is 200 and every user row with the target key has the
new role while nothing else changes; on a failed statement the answer is 500
and the store is as it was. -/
theorem updateRoleGate_accept (db : Store) (req : UpdateRoleReq) (role : String)
    (werr : Option GoError) (h : assignAllowed role req.NewRole) :
    (werr = none →
        updateRoleGate db req role werr
          = ⟨sendSuccess,
              { db with users := db.users.map (fun u =>
                  if u.ID = req.UserID then { u with Role := req.NewRole } else u) },
              [StoreCall.UpdateUserRole req.UserID req.NewRole]⟩)
      ∧ (∀ e, werr = some e →
        updateRoleGate db req role werr
          = ⟨sendError 500 "Failed to update role", db,
              [StoreCall.UpdateUserRole req.UserID req.NewRole]⟩) := by
  obtain ⟨hin, hadm, hrole⟩ := h
  have hv : isValidRole req.NewRole = true := by
    rw [isValidRole_iff]
    rcases hin with h | h | h | h
    · exact Or.inr (Or.inl h)
    · exact Or.inr (Or.inr (Or.inl h))
    · exact Or.inr (Or.inr (Or.inr (Or.inl h)))
    · exact Or.inr (Or.inr (Or.inr (Or.inr h)))
  have h1 : req.NewRole ≠ "super_admin" := by
    intro hs
    rw [hs] at hin
    exact absurd hin (by decide)
  have h2 : ¬ (req.NewRole = "admin" ∧ role ≠ "super_admin") := fun hc => hc.2 (hadm hc.1)
  have h4 : ¬ (role ≠ "super_admin" ∧ role ≠ "admin") := by
    intro hc
    rcases hrole with hr | hr
    · exact hc.2 hr
    · exact hc.1 hr
  constructor
  · intro hw
    subst hw
    unfold updateRoleGate UpdateUserRole
    rw [if_neg (by simp [hv]), if_neg h1, if_neg h2, if_neg h4]
  · intro e hw
    subst hw
    unfold updateRoleGate UpdateUserRole
    rw [if_neg (by simp [hv]), if_neg h1, if_neg h2, if_neg h4]

/-- C6: for a POST request with a decodable body and a non-empty acting
identity, `updateRoleHandler` returns, and it performs the role update exactly
when the acting identity resolves to an account (administrator account for an
"admin_"-prefixed identity, user account otherwise) whose role passes
`assignAllowed`: target role among admin, vip, user, banned; target admin only
for an acting super_admin; acting role admin or super_admin.  Performing the
update means: `UpdateUserRole` is called, and when the store accepts the
statement the answer is 200 and the store afterwards is the store before with
the role of every user row of the target key set to the target role and
nothing else changed (a statement the store refuses gives 500 and no change).
In every other case the request is turned away: error response, no write,
store unchanged. -/
theorem updateRoleHandler_gate (db : Store) (r : Request UpdateRoleReq)
    (werr : Option GoError) (req : UpdateRoleReq)
    (hm : r.Method = "POST") (hid : r.XWechatID ≠ "") (hb : r.Body = some req) :
    ∃ res, updateRoleHandler db r werr = Except.ok res
      ∧ (res.calls = [StoreCall.UpdateUserRole req.UserID req.NewRole]
          ↔ ∃ role, resolvedRole db r.XWechatID = some role ∧ assignAllowed role req.NewRole)
      ∧ ((∃ role, resolvedRole db r.XWechatID = some role ∧ assignAllowed role req.NewRole) →
          werr = none →
          res.resp = sendSuccess
            ∧ res.db = { db with users := db.users.map (fun u =>
                if u.ID = req.UserID then { u with Role := req.NewRole } else u) })
      ∧ ((∃ role, resolvedRole db r.XWechatID = some role ∧ assignAllowed role req.NewRole) →
          ∀ e, werr = some e →
          res.resp = sendError 500 "Failed to update role" ∧ res.db = db)
      ∧ ((¬ ∃ role, resolvedRole db r.XWechatID = some role ∧ assignAllowed role req.NewRole)
          → Rejected db res) := by
  obtain ⟨res, hres, hcase⟩ := updateRoleHandler_cases db r werr
  refine ⟨res, hres, ?_⟩
  rcases hcase with ⟨hrej, hwhy⟩ | ⟨_, _, req1, role, hb1, hrole, hgate⟩
  · have hnone : resolvedRole db r.XWechatID = none := by
      rcases hwhy with h | h | h | h
      · exact absurd hm h
      · exact absurd h hid
      · rw [hb] at h; cases h
      · exact h
    have hno : ¬ ∃ role, resolvedRole db r.XWechatID = some role
        ∧ assignAllowed role req.NewRole := by
      rintro ⟨role, h1, _⟩
      rw [hnone] at h1
      cases h1
    refine ⟨⟨fun h => ?_, fun h => absurd h hno⟩, fun h => absurd h hno,
      fun h => absurd h hno, fun _ => hrej⟩
    rw [hrej.2.1] at h
    cases h
  · rw [hb] at hb1
    cases hb1
    have hspec := updateRoleGate_spec db req role werr
    rw [← hgate] at hspec
    have hallowed : (∃ role1, resolvedRole db r.XWechatID = some role1
        ∧ assignAllowed role1 req.NewRole) → assignAllowed role req.NewRole := by
      rintro ⟨role1, h1, h2⟩
      rw [hrole] at h1
      cases h1
      exact h2
    refine ⟨⟨fun h => ⟨role, hrole, hspec.1.1 h⟩, fun h => hspec.1.2 (hallowed h)⟩,
      ?_, ?_, fun h => hspec.2 (fun ha => h ⟨role, hrole, ha⟩)⟩
    · intro h hw
      have hacc := (updateRoleGate_accept db req role werr (hallowed h)).1 hw
      rw [hgate, hacc]
      exact ⟨rfl, rfl⟩
    · intro h e hw
      have hacc := (updateRoleGate_accept db req role werr (hallowed h)).2 e hw
      rw [hgate, hacc]
      exact ⟨rfl, rfl⟩

theorem updateRoleHandler_gate_witness :
    updateRoleHandler
        { users := [{ ID := 1, WechatID := "wx_boss", Role := "admin" },
                    { ID := 2, WechatID := "wx_u", Role := "user" }] }
        ⟨"POST", "wx_boss", some ⟨2, "vip"⟩⟩ none
      = Except.ok ⟨sendSuccess,
          { users := [{ ID := 1, WechatID := "wx_boss", Role := "admin" },
                      { ID := 2, WechatID := "wx_u", Role := "vip" }] },
          [StoreCall.UpdateUserRole 2 "vip"]⟩ := by
  obtain ⟨res, hres, hcalls, hok, _, _⟩ := updateRoleHandler_gate
    { users := [{ ID := 1, WechatID := "wx_boss", Role := "admin" },
                { ID := 2, WechatID := "wx_u", Role := "user" }] }
    ⟨"POST", "wx_boss", some ⟨2, "vip"⟩⟩ none ⟨2, "vip"⟩ (by decide) (by decide) rfl
  have hall : ∃ role, resolvedRole
      { users := [{ ID := 1, WechatID := "wx_boss", Role := "admin" },
                  { ID := 2, WechatID := "wx_u", Role := "user" }] } "wx_boss" = some role
      ∧ assignAllowed role "vip" := ⟨"admin", by decide, by decide⟩
  have h1 := hok hall rfl
  have h2 := hcalls.2 hall
  rw [hres]
  cases res with
  | mk resp db1 calls =>
    simp only at h1 h2
    rw [h1.1, h1.2, h2]
    decide

/-- C7: a role-assignment request whose target role is super_admin is turned
away by `updateRoleHandler` and by `adminGrantRoleHandler`, whatever the
method, the acting identity, its role and the store: error response, no write
issued, store unchanged. -/
theorem super_admin_never_assigned (db : Store) (method hdr : String) (uid : Int)
    (adminUsername userWechatID : String) (werr : Option GoError) :
    (∃ res, updateRoleHandler db ⟨method, hdr, some ⟨uid, "super_admin"⟩⟩ werr = Except.ok res
        ∧ Rejected db res)
      ∧ (∃ res, adminGrantRoleHandler db
            ⟨method, hdr, some ⟨adminUsername, userWechatID, "super_admin"⟩⟩ werr = Except.ok res
          ∧ Rejected db res) := by
  constructor
  · obtain ⟨res, hres, hcase⟩ :=
      updateRoleHandler_cases db ⟨method, hdr, some ⟨uid, "super_admin"⟩⟩ werr
    refine ⟨res, hres, ?_⟩
    rcases hcase with ⟨hrej, _⟩ | ⟨_, _, req1, role, hb1, _, hgate⟩
    · exact hrej
    · cases hb1
      rw [hgate]
      apply (updateRoleGate_spec db ⟨uid, "super_admin"⟩ role werr).2
      intro h
      have h1 : ("super_admin" : String) = "admin" ∨ ("super_admin" : String) = "vip"
          ∨ ("super_admin" : String) = "user" ∨ ("super_admin" : String) = "banned" := h.1
      exact absurd h1 (by decide)
  · obtain ⟨res, hres, hcase⟩ := adminGrantRoleHandler_cases db
      ⟨method, hdr, some ⟨adminUsername, userWechatID, "super_admin"⟩⟩ werr
    refine ⟨res, hres, ?_⟩
    rcases hcase with hrej | ⟨_, req1, role, hb1, _, _, hns, _⟩
    · exact hrej
    · cases hb1
      exact absurd rfl hns

/-- C8: in `updateRoleHandler` and in `adminGrantRoleHandler`, a request to
assign the role admin answers 200 or issues a write only when the resolved
role of the acting identity is exactly super_admin; when that role is admin
the request is turned away and the store is unchanged. -/
theorem admin_assigned_only_by_super_admin (db : Store) (method hdr : String) (uid : Int)
    (adminUsername userWechatID : String) (werr : Option GoError) :
    (∃ res, updateRoleHandler db ⟨method, hdr, some ⟨uid, "admin"⟩⟩ werr = Except.ok res
        ∧ ((res.resp.Code = 200 ∨ res.calls ≠ []) → resolvedRole db hdr = some "super_admin")
        ∧ (resolvedRole db hdr = some "admin" → Rejected db res))
      ∧ (∃ res, adminGrantRoleHandler db
            ⟨method, hdr, some ⟨adminUsername, userWechatID, "admin"⟩⟩ werr = Except.ok res
          ∧ ((res.resp.Code = 200 ∨ res.calls ≠ [])
              → adminRoleOf db adminUsername = some "super_admin")
          ∧ (adminRoleOf db adminUsername = some "admin" → Rejected db res)) := by
  have key : ∀ (res : HandlerResult) (acting : Option String),
      (¬ Rejected db res → acting = some "super_admin") →
      ((res.resp.Code = 200 ∨ res.calls ≠ []) → acting = some "super_admin")
        ∧ (acting = some "admin" → Rejected db res) := by
    intro res acting h
    refine ⟨fun hs => h (fun hr => ?_), fun ha => ?_⟩
    · rcases hs with hs | hs
      · exact hr.1 hs
      · exact hs hr.2.1
    · by_contra hr
      have := h hr
      rw [ha] at this
      exact absurd this (by decide)
  constructor
  · obtain ⟨res, hres, hcase⟩ :=
      updateRoleHandler_cases db ⟨method, hdr, some ⟨uid, "admin"⟩⟩ werr
    refine ⟨res, hres, key res _ ?_⟩
    intro hnr
    rcases hcase with ⟨hrej, _⟩ | ⟨_, _, req1, role, hb1, hrole, hgate⟩
    · exact absurd hrej hnr
    · cases hb1
      have hspec := updateRoleGate_spec db ⟨uid, "admin"⟩ role werr
      rw [← hgate] at hspec
      have hall : assignAllowed role "admin" := by
        by_contra hna
        exact hnr (hspec.2 hna)
      have hr : role = "super_admin" := hall.2.1 rfl
      simpa [hr] using hrole
  · obtain ⟨res, hres, hcase⟩ := adminGrantRoleHandler_cases db
      ⟨method, hdr, some ⟨adminUsername, userWechatID, "admin"⟩⟩ werr
    refine ⟨res, hres, key res _ ?_⟩
    intro hnr
    rcases hcase with hrej | ⟨_, req1, role, hb1, hrole, _, _, hadm, _⟩
    · exact absurd hrej hnr
    · cases hb1
      have hr : role = "super_admin" := hadm rfl
      simpa [hr] using hrole

theorem admin_assigned_only_by_super_admin_witness :
    Rejected { users := [{ ID := 1, WechatID := "wx_boss", Role := "admin" },
                         { ID := 2, WechatID := "wx_u", Role := "user" }] }
      ⟨sendError 403 "Forbidden: Only super_admin can set admin role",
        { users := [{ ID := 1, WechatID := "wx_boss", Role := "admin" },
                    { ID := 2, WechatID := "wx_u", Role := "user" }] }, []⟩ := by
  obtain ⟨res, hres, _, hrej⟩ := (admin_assigned_only_by_super_admin
    { users := [{ ID := 1, WechatID := "wx_boss", Role := "admin" },
                { ID := 2, WechatID := "wx_u", Role := "user" }] }
    "POST" "wx_boss" 2 "" "" none).1
  have hval : updateRoleHandler
      { users := [{ ID := 1, WechatID := "wx_boss", Role := "admin" },
                  { ID := 2, WechatID := "wx_u", Role := "user" }] }
      ⟨"POST", "wx_boss", some ⟨2, "admin"⟩⟩ none
      = Except.ok ⟨sendError 403 "Forbidden: Only super_admin can set admin role",
        { users := [{ ID := 1, WechatID := "wx_boss", Role := "admin" },
                    { ID := 2, WechatID := "wx_u", Role := "user" }] }, []⟩ := by decide
  rw [hval] at hres
  cases hres
  exact hrej (by decide)

/-- Whatever the store held before, after `CreateDefaultAdmin` every
administrator account has role super_admin or admin: the rows not named
"admin" are deleted, and the rows named "admin" are given role super_admin
(or the one row inserted has it). -/
theorem CreateDefaultAdmin_adminRolesValid (db : Store) (newID : Int)
    (werr : Option GoError) :
    adminRolesValid (CreateDefaultAdmin db newID werr).1 := by
  unfold CreateDefaultAdmin adminRolesValid
  by_cases hc : (((db.admins.filter (fun a => decide (a.Username = "admin"))).filter
      (fun a => decide (a.Username = "admin"))).length : Int) = 0
  · have hnil : db.admins.filter (fun a => decide (a.Username = "admin")) = [] := by
      have h1 : ((db.admins.filter (fun a => decide (a.Username = "admin"))).filter
          (fun a => decide (a.Username = "admin"))).length = 0 := by exact_mod_cast hc
      rw [List.filter_filter] at h1
      simpa using h1
    cases werr with
    | some e => simp [hnil]
    | none => simp [hnil]
  · simp only [hc, if_false]
    intro a ha
    rw [List.mem_map] at ha
    obtain ⟨b, hb, hab⟩ := ha
    have hbn : b.Username = "admin" := by
      have := (List.mem_filter.mp hb).2
      simpa using this
    rw [if_pos hbn] at hab
    subst hab
    exact Or.inl rfl

/-- The accepting path of `adminGrantRoleHandler`: a POST whose administrator
account and target user exist, with target role vip, user or banned and a
store that accepts the statement, is answered 200 and sets the role of every
user row with that external identifier, changing nothing else. -/
theorem adminGrantRoleHandler_accept (db : Store) (hdr adminUsername userWechatID newRole : String)
    (hadmin : adminRoleOf db adminUsername ≠ none)
    (huser : userRoleOf db userWechatID ≠ none)
    (hnew : newRole = "vip" ∨ newRole = "user" ∨ newRole = "banned") :
    adminGrantRoleHandler db ⟨"POST", hdr, some ⟨adminUsername, userWechatID, newRole⟩⟩ none
      = Except.ok ⟨sendSuccess,
          { db with users := db.users.map (fun u =>
              if u.WechatID = userWechatID then { u with Role := newRole } else u) },
          [StoreCall.UpdateUserRoleByWechatID userWechatID newRole]⟩ := by
  have hv : isValidRole newRole = true := by
    rw [isValidRole_iff]
    rcases hnew with h | h | h
    · exact Or.inr (Or.inr (Or.inl h))
    · exact Or.inr (Or.inr (Or.inr (Or.inl h)))
    · exact Or.inr (Or.inr (Or.inr (Or.inr h)))
  have h1 : newRole ≠ "super_admin" := by
    rcases hnew with h | h | h <;> (rw [h]; decide)
  have h2 : newRole ≠ "admin" := by
    rcases hnew with h | h | h <;> (rw [h]; decide)
  cases hf : db.admins.find? (fun a => decide (a.Username = adminUsername)) with
  | none => exact absurd (by simp [adminRoleOf, hf]) hadmin
  | some a =>
    cases hu : db.users.find? (fun u => decide (u.WechatID = userWechatID)) with
    | none => exact absurd (by simp [userRoleOf, hu]) huser
    | some u =>
      simp [adminGrantRoleHandler, GetAdminByUsername, hf, hv, h1, h2, deref, Except.bind,
        GetUserByWechatID, hu, UpdateUserRoleByWechatID]

/-- C9: in every store that keeps the data model's administrator roles
(super_admin or admin), `adminGrantRoleHandler` asked for the target role vip,
user or banned returns, and it writes a role or changes the store only if the
acting administrator account resolves to a role that satisfies "admin";
whenever the acting administrator account does not resolve to such a role the
request is rejected (error response, no write, store unchanged).  The
accepting path is not empty: a POST by a resolving administrator for an
existing user, on a store that accepts the statement, is answered 200 and
sets the role of the user rows with that external identifier to the target
role, nothing else changing. -/
theorem adminGrantRoleHandler_requires_admin_role (db : Store)
    (method hdr adminUsername userWechatID newRole : String) (werr : Option GoError)
    (hinv : adminRolesValid db)
    (hnew : newRole = "vip" ∨ newRole = "user" ∨ newRole = "banned") :
    ∃ res, adminGrantRoleHandler db
          ⟨method, hdr, some ⟨adminUsername, userWechatID, newRole⟩⟩ werr = Except.ok res
      ∧ ((res.calls ≠ [] ∨ res.db ≠ db ∨ res.resp.Code = 200) →
          ∃ role, adminRoleOf db adminUsername = some role ∧ satisfies role "admin" = true)
      ∧ ((¬ ∃ role, adminRoleOf db adminUsername = some role ∧ satisfies role "admin" = true)
          → Rejected db res)
      ∧ (method = "POST" →
          (∃ role, adminRoleOf db adminUsername = some role ∧ satisfies role "admin" = true) →
          userRoleOf db userWechatID ≠ none → werr = none →
          res = ⟨sendSuccess,
            { db with users := db.users.map (fun u =>
                if u.WechatID = userWechatID then { u with Role := newRole } else u) },
            [StoreCall.UpdateUserRoleByWechatID userWechatID newRole]⟩) := by
  obtain ⟨res, hres, hcase⟩ := adminGrantRoleHandler_cases db
    ⟨method, hdr, some ⟨adminUsername, userWechatID, newRole⟩⟩ werr
  refine ⟨res, hres, ?_, ?_, ?_⟩
  · rcases hcase with hrej | ⟨_, req, role, hb, hrole, _⟩
    · intro h
      rcases h with h | h | h
      · exact absurd hrej.2.1 h
      · exact absurd hrej.2.2 h
      · exact absurd h hrej.1
    · intro _
      cases hb
      exact ⟨role, hrole, (satisfies_admin_iff role).2
        (adminRoleOf_satisfies db adminUsername role hinv hrole)⟩
  · rcases hcase with hrej | ⟨_, req, role, hb, hrole, _⟩
    · exact fun _ => hrej
    · intro hno
      cases hb
      exact absurd ⟨role, hrole, (satisfies_admin_iff role).2
        (adminRoleOf_satisfies db adminUsername role hinv hrole)⟩ hno
  · intro hm hadm huser hw
    subst hm
    subst hw
    obtain ⟨role, hrole, _⟩ := hadm
    have hacc := adminGrantRoleHandler_accept db hdr adminUsername userWechatID newRole
      (by rw [hrole]; exact fun h => Option.noConfusion h) huser hnew
    rw [hacc] at hres
    cases hres
    rfl

theorem adminGrantRoleHandler_requires_admin_role_witness :
    adminRolesValid
        { admins := [{ ID := 1, Username := "admin", Role := "super_admin" }],
          users := [{ ID := 1, WechatID := "wx_1", Role := "user" }] }
      ∧ adminGrantRoleHandler
          { admins := [{ ID := 1, Username := "admin", Role := "super_admin" }],
            users := [{ ID := 1, WechatID := "wx_1", Role := "user" }] }
          ⟨"POST", "", some ⟨"admin", "wx_1", "vip"⟩⟩ none
        = Except.ok ⟨sendSuccess,
            { admins := [{ ID := 1, Username := "admin", Role := "super_admin" }],
              users := [{ ID := 1, WechatID := "wx_1", Role := "vip" }] },
            [StoreCall.UpdateUserRoleByWechatID "wx_1" "vip"]⟩
      ∧ Rejected
          { admins := [{ ID := 1, Username := "admin", Role := "super_admin" }],
            users := [{ ID := 1, WechatID := "wx_1", Role := "user" }] }
          ⟨sendError 401 "管理员身份验证失败",
            { admins := [{ ID := 1, Username := "admin", Role := "super_admin" }],
              users := [{ ID := 1, WechatID := "wx_1", Role := "user" }] }, []⟩ := by
  refine ⟨by decide, ?_, ?_⟩
  · obtain ⟨res, hres, _, _, hok⟩ := adminGrantRoleHandler_requires_admin_role
      { admins := [{ ID := 1, Username := "admin", Role := "super_admin" }],
        users := [{ ID := 1, WechatID := "wx_1", Role := "user" }] }
      "POST" "" "admin" "wx_1" "vip" none (by decide) (Or.inl rfl)
    rw [hres, hok rfl ⟨"super_admin", by decide, by decide⟩ (by decide) rfl]
    decide
  · obtain ⟨res, hres, _, hrej, _⟩ := adminGrantRoleHandler_requires_admin_role
      { admins := [{ ID := 1, Username := "admin", Role := "super_admin" }],
        users := [{ ID := 1, WechatID := "wx_1", Role := "user" }] }
      "POST" "" "bob" "wx_1" "vip" none (by decide) (Or.inl rfl)
    have hval : adminGrantRoleHandler
        { admins := [{ ID := 1, Username := "admin", Role := "super_admin" }],
          users := [{ ID := 1, WechatID := "wx_1", Role := "user" }] }
        ⟨"POST", "", some ⟨"bob", "wx_1", "vip"⟩⟩ none
        = Except.ok ⟨sendError 401 "管理员身份验证失败",
          { admins := [{ ID := 1, Username := "admin", Role := "super_admin" }],
            users := [{ ID := 1, WechatID := "wx_1", Role := "user" }] }, []⟩ := by decide
    rw [hval] at hres
    cases hres
    exact hrej (by decide)

/-! ## Consultation creation -/

/-- C10, as stated, fails: the author identity `admin_ghost` has no account
row in either table of the empty store, and the POST arm of
`consultationHandler` still calls `ConsultationCreate` and answers 200. -/
theorem consultationHandlerPost_counterexample :
    adminRoleOf {} "ghost" = none
      ∧ userRoleOf {} "admin_ghost" = none
      ∧ consultationHandlerPost {} (some { Title := "t", AuthorID := "admin_ghost" })
          "2024-01-01 08:00" 1 none
        = ⟨sendSuccess,
            { consultations := [{ ID := 1, Title := "t", AuthorID := "admin_ghost",
                                  Status := "待回复", PublishTime := "2024-01-01 08:00" }] },
            [StoreCall.ConsultationCreate { Title := "t", AuthorID := "admin_ghost" }]⟩ := by
  decide

/-- C10, amended: the POST arm of `consultationHandler` calls
`ConsultationCreate` only if the author identity carries the prefix "admin_"
(no account is looked up for it) or names a user account whose role satisfies
"admin"; for every author identity without the prefix that has no user row, or
whose user role is below admin, `ConsultationCreate` is not called and the
request is answered 403 with the store unchanged. -/
theorem consultationHandlerPost_gate (db : Store) (req : Consultation) (now : String)
    (newID : Int) (werr : Option GoError) :
    ((consultationHandlerPost db (some req) now newID werr).calls ≠ [] →
        HasPrefix req.AuthorID "admin_" = true
          ∨ ∃ role, userRoleOf db req.AuthorID = some role ∧ satisfies role "admin" = true)
      ∧ (HasPrefix req.AuthorID "admin_" = false →
          (userRoleOf db req.AuthorID = none
            ∨ ∃ role, userRoleOf db req.AuthorID = some role
                ∧ roleLevel role < roleLevel "admin") →
          consultationHandlerPost db (some req) now newID werr
            = ⟨sendError 403 "只有管理员可以发布乡村咨询", db, []⟩) := by
  by_cases hp : HasPrefix req.AuthorID "admin_" = true
  · exact ⟨fun _ => Or.inl hp, fun h => by rw [hp] at h; cases h⟩
  · have hp2 : HasPrefix req.AuthorID "admin_" = false := by simpa using hp
    cases hf : db.users.find? (fun u => decide (u.WechatID = req.AuthorID)) with
    | none =>
      have hval : consultationHandlerPost db (some req) now newID werr
          = ⟨sendError 403 "只有管理员可以发布乡村咨询", db, []⟩ := by
        simp [consultationHandlerPost, hp2, GetUserByWechatID, hf]
      rw [hval]
      exact ⟨fun h => absurd rfl h, fun _ _ => rfl⟩
    | some u =>
      have hru : userRoleOf db req.AuthorID = some u.Role := by simp [userRoleOf, hf]
      by_cases hs : u.Role = "super_admin" ∨ u.Role = "admin"
      · refine ⟨fun _ => Or.inr ⟨u.Role, hru, (satisfies_admin_iff _).2 hs⟩, fun _ h => ?_⟩
        rcases h with h | ⟨role, h1, h2⟩
        · rw [hru] at h; cases h
        · rw [hru] at h1
          cases h1
          exact absurd hs ((roleLevel_lt_admin_iff _).1 h2)
      · have hval : consultationHandlerPost db (some req) now newID werr
            = ⟨sendError 403 "只有管理员可以发布乡村咨询", db, []⟩ := by
          push_neg at hs
          simp [consultationHandlerPost, hp2, GetUserByWechatID, hf, hs.1, hs.2]
        rw [hval]
        exact ⟨fun h => absurd rfl h, fun _ _ => rfl⟩

theorem consultationHandlerPost_gate_witness :
    consultationHandlerPost { users := [{ ID := 1, WechatID := "wx_xyz", Role := "user" }] }
        (some { Title := "t", AuthorID := "wx_xyz" }) "2024-01-01 08:00" 1 none
      = ⟨sendError 403 "只有管理员可以发布乡村咨询",
          { users := [{ ID := 1, WechatID := "wx_xyz", Role := "user" }] }, []⟩ :=
  (consultationHandlerPost_gate { users := [{ ID := 1, WechatID := "wx_xyz", Role := "user" }] }
    { Title := "t", AuthorID := "wx_xyz" } "2024-01-01 08:00" 1 none).2
    (by decide) (Or.inr ⟨"user", by decide, by decide⟩)

/-! ## Delete endpoints -/

/-- The shared `DELETE` arm decides with `checkDeletePermission`: for a
non-empty identity and a fetched row, the delete is issued exactly when
`checkDeletePermission` allows, and the request is answered 403 with the
store untouched when it refuses. -/
theorem deleteArm_decides (db : Store) (userID publisherID notFound : String)
    (deleted : Store × Option GoError) (call : StoreCall) (hu : userID ≠ "") :
    ∃ res, deleteArm db userID (some publisherID, none) notFound deleted call = Except.ok res
      ∧ (res.calls = [call] ↔ checkDeletePermission db userID publisherID = Except.ok true)
      ∧ (checkDeletePermission db userID publisherID = Except.ok false →
          res = ⟨sendError 403 "无权删除此内容", db, []⟩) := by
  have hc := cdp_eq_spec db userID publisherID
  cases hb : canDeleteSpec db userID publisherID with
  | false =>
    rw [hb] at hc
    refine ⟨⟨sendError 403 "无权删除此内容", db, []⟩, ?_, ?_, fun _ => rfl⟩
    · simp [deleteArm, hu, deref, Except.bind, hc]
    · rw [hc]
      constructor
      · intro h; cases h
      · intro h; cases h
  | true =>
    rw [hb] at hc
    rcases deleted with ⟨db1, _ | e⟩
    · refine ⟨⟨sendSuccess, db1, [call]⟩, ?_, ?_, ?_⟩
      · simp [deleteArm, hu, deref, Except.bind, hc]
      · simp [hc]
      · rw [hc]; intro h; cases h
    · refine ⟨⟨sendError 500 "删除失败", db1, [call]⟩, ?_, ?_, ?_⟩
      · simp [deleteArm, hu, deref, Except.bind, hc]
      · simp [hc]
      · rw [hc]; intro h; cases h

/-- The farmhouse, policy, tourism, job and help delete endpoints decide with
`checkDeletePermission` at the `PublisherID` of the fetched row. -/
theorem sibling_delete_arms_decide (db : Store) (userID : String) (id : Int)
    (werr : Option GoError) (hu : userID ≠ "") :
    (∀ x, db.farmhouses.find? (fun r => r.ID = id) = some x →
      ∃ res, farmhouseDetailHandlerDelete db userID id werr = Except.ok res
        ∧ (res.calls = [StoreCall.FarmhouseDelete id]
            ↔ checkDeletePermission db userID x.PublisherID = Except.ok true))
    ∧ (∀ x, db.policies.find? (fun r => r.ID = id) = some x →
      ∃ res, policyDetailHandlerDelete db userID id werr = Except.ok res
        ∧ (res.calls = [StoreCall.PolicyDelete id]
            ↔ checkDeletePermission db userID x.PublisherID = Except.ok true))
    ∧ (∀ x, db.tourisms.find? (fun r => r.ID = id) = some x →
      ∃ res, tourismDetailHandlerDelete db userID id werr = Except.ok res
        ∧ (res.calls = [StoreCall.TourismDelete id]
            ↔ checkDeletePermission db userID x.PublisherID = Except.ok true))
    ∧ (∀ x, db.jobs.find? (fun r => r.ID = id) = some x →
      ∃ res, jobsDetailHandlerDelete db userID id werr = Except.ok res
        ∧ (res.calls = [StoreCall.JobDelete id]
            ↔ checkDeletePermission db userID x.PublisherID = Except.ok true))
    ∧ (∀ x, db.helps.find? (fun r => r.ID = id) = some x →
      ∃ res, helpDetailHandlerDelete db userID id werr = Except.ok res
        ∧ (res.calls = [StoreCall.HelpDelete id]
            ↔ checkDeletePermission db userID x.PublisherID = Except.ok true)) := by
  refine ⟨?_, ?_, ?_, ?_, ?_⟩
  · intro x hx
    obtain ⟨res, h1, h2, _⟩ := deleteArm_decides db userID x.PublisherID "农家乐不存在"
      (FarmhouseDelete db id werr) (StoreCall.FarmhouseDelete id) hu
    exact ⟨res, by simpa [farmhouseDetailHandlerDelete, FarmhouseGetByID, hx] using h1, h2⟩
  · intro x hx
    obtain ⟨res, h1, h2, _⟩ := deleteArm_decides db userID x.PublisherID "政策不存在"
      (PolicyDelete db id werr) (StoreCall.PolicyDelete id) hu
    exact ⟨res, by simpa [policyDetailHandlerDelete, PolicyGetByID, hx] using h1, h2⟩
  · intro x hx
    obtain ⟨res, h1, h2, _⟩ := deleteArm_decides db userID x.PublisherID "景区不存在"
      (TourismDelete db id werr) (StoreCall.TourismDelete id) hu
    exact ⟨res, by simpa [tourismDetailHandlerDelete, TourismGetByID, hx] using h1, h2⟩
  · intro x hx
    obtain ⟨res, h1, h2, _⟩ := deleteArm_decides db userID x.PublisherID "招聘不存在"
      (JobDelete db id werr) (StoreCall.JobDelete id) hu
    exact ⟨res, by simpa [jobsDetailHandlerDelete, JobsGetByID, hx] using h1, h2⟩
  · intro x hx
    obtain ⟨res, h1, h2, _⟩ := deleteArm_decides db userID x.PublisherID "求助不存在"
      (HelpDelete db id werr) (StoreCall.HelpDelete id) hu
    exact ⟨res, by simpa [helpDetailHandlerDelete, HelpGetByID, hx] using h1, h2⟩

/-- C11, the code at the failing input: consultation 1 was published under
`admin_ghost`, which has no administrator account.  `checkDeletePermission`
allows `admin_ghost` to delete content published under `admin_ghost`, and the
policy delete endpoint follows it, but the consultation delete endpoint
answers 403.  The same happens to the author `wx_abc` of consultation 7 who
has no user row. -/
theorem consultationDelete_not_checkDeletePermission :
    checkDeletePermission { consultations := [{ ID := 1, AuthorID := "admin_ghost" }] }
        "admin_ghost" "admin_ghost" = Except.ok true
      ∧ consultationDetailHandlerDelete { consultations := [{ ID := 1, AuthorID := "admin_ghost" }] }
          "admin_ghost" 1 none
        = Except.ok ⟨sendError 403 "无权删除此内容",
            { consultations := [{ ID := 1, AuthorID := "admin_ghost" }] }, []⟩
      ∧ policyDetailHandlerDelete { policies := [{ ID := 1, PublisherID := "admin_ghost" }] }
          "admin_ghost" 1 none
        = Except.ok ⟨sendSuccess, {}, [StoreCall.PolicyDelete 1]⟩
      ∧ checkDeletePermission { consultations := [{ ID := 7, AuthorID := "wx_abc" }] }
          "wx_abc" "wx_abc" = Except.ok true
      ∧ consultationDetailHandlerDelete { consultations := [{ ID := 7, AuthorID := "wx_abc" }] }
          "wx_abc" 7 none
        = Except.ok ⟨sendError 403 "无权删除此内容",
            { consultations := [{ ID := 7, AuthorID := "wx_abc" }] }, []⟩ := by
  decide

/-! ## Ownership resolution -/

/-- The `switch` of `checkPermissionHandler` on every input: the recorded
owner for a recognized kind with a row, 404 for a recognized kind without,
400 for any other tag. -/
theorem resolvePublisher_eq (db : Store) (kind : String) (id : Int) :
    resolvePublisher db kind id = Except.ok
      (if kind ∈ recognizedKinds then
        (match recordedOwner db kind id with
          | some owner => Sum.inr owner
          | none => Sum.inl (sendError 404 "Content not found"))
       else Sum.inl (sendError 400 "Invalid content type")) := by
  by_cases h1 : kind = "policy"
  · subst h1
    cases hf : db.policies.find? (fun x => decide (x.ID = id)) <;>
      simp [resolvePublisher, recognizedKinds, recordedOwner, PolicyGetByID, hf, deref, Except.bind]
  by_cases h2 : kind = "tourism"
  · subst h2
    cases hf : db.tourisms.find? (fun x => decide (x.ID = id)) <;>
      simp [resolvePublisher, recognizedKinds, recordedOwner, TourismGetByID, hf, deref, Except.bind]
  by_cases h3 : kind = "job"
  · subst h3
    cases hf : db.jobs.find? (fun x => decide (x.ID = id)) <;>
      simp [resolvePublisher, recognizedKinds, recordedOwner, JobsGetByID, hf, deref, Except.bind]
  by_cases h4 : kind = "help"
  · subst h4
    cases hf : db.helps.find? (fun x => decide (x.ID = id)) <;>
      simp [resolvePublisher, recognizedKinds, recordedOwner, HelpGetByID, hf, deref, Except.bind]
  by_cases h5 : kind = "consultation"
  · subst h5
    cases hf : db.consultations.find? (fun x => decide (x.ID = id)) <;>
      simp [resolvePublisher, recognizedKinds, recordedOwner, ConsultationGetByID, hf, deref,
        Except.bind]
  by_cases h6 : kind = "farmhouse"
  · subst h6
    cases hf : db.farmhouses.find? (fun x => decide (x.ID = id)) <;>
      simp [resolvePublisher, recognizedKinds, recordedOwner, FarmhouseGetByID, hf, deref,
        Except.bind]
  simp [resolvePublisher, recognizedKinds, h1, h2, h3, h4, h5, h6]

/-- A request that passes the method, body and required-field checks is
answered from the `switch` and, when that yields an owner, from
`checkDeletePermission`. -/
theorem checkPermissionHandler_eq (db : Store) (userID kind : String) (id : Int)
    (hu : userID ≠ "") (hk : kind ≠ "") (hid : id ≠ 0) :
    checkPermissionHandler db "POST" (some ⟨userID, kind, id⟩) = Except.ok
      (if kind ∈ recognizedKinds then
        (match recordedOwner db kind id with
          | some owner => PermissionReply.success (canDeleteSpec db userID owner) owner userID
          | none => PermissionReply.error 404 "Content not found")
       else PermissionReply.error 400 "Invalid content type") := by
  unfold checkPermissionHandler
  simp only [ne_eq, not_true_eq_false, if_false, hu, hk, hid, or_self]
  rw [resolvePublisher_eq]
  by_cases hr : kind ∈ recognizedKinds
  · cases ho : recordedOwner db kind id with
    | none => simp [hr, Except.bind, sendError]
    | some owner => simp [hr, Except.bind, cdp_eq_spec]
  · simp [hr, Except.bind, sendError]

/-- C12: for a request to `checkPermissionHandler` with a non-empty user id,
a recognized content kind and the (non-zero) ID of an existing row of that
kind, the reply is the success envelope whose `publisher_id` is the owner
recorded on that row (`PublisherID`, `AuthorID` for a consultation) and whose
`can_delete` is the result of `checkDeletePermission` at the user id and that
owner. -/
theorem checkPermissionHandler_existing_row (db : Store) (userID kind owner : String)
    (id : Int) (hu : userID ≠ "") (hid : id ≠ 0) (hk : kind ∈ recognizedKinds)
    (ho : recordedOwner db kind id = some owner) :
    ∃ b, checkDeletePermission db userID owner = Except.ok b
      ∧ checkPermissionHandler db "POST" (some ⟨userID, kind, id⟩)
          = Except.ok (PermissionReply.success b owner userID) := by
  have hne : kind ≠ "" := by
    intro h
    rw [h] at hk
    exact absurd hk (by decide)
  refine ⟨canDeleteSpec db userID owner, cdp_eq_spec db userID owner, ?_⟩
  rw [checkPermissionHandler_eq db userID kind id hu hne hid]
  simp [hk, ho]

theorem checkPermissionHandler_existing_row_witness :
    ∃ b, checkDeletePermission
        { consultations := [{ ID := 3, AuthorID := "wx_abc" }] } "wx_abc" "wx_abc" = Except.ok b
      ∧ checkPermissionHandler { consultations := [{ ID := 3, AuthorID := "wx_abc" }] } "POST"
          (some ⟨"wx_abc", "consultation", 3⟩)
          = Except.ok (PermissionReply.success b "wx_abc" "wx_abc") :=
  checkPermissionHandler_existing_row { consultations := [{ ID := 3, AuthorID := "wx_abc" }] }
    "wx_abc" "consultation" "wx_abc" 3 (by decide) (by decide) (by decide) (by decide)

/-- C13: ownership resolution in `checkPermissionHandler` answers 400
"Invalid content type" for every tag that is not recognized, whatever the ID
and the store, and 404 "Content not found" for every recognized tag when no
row with the given ID exists; a request that reaches the resolution (non-empty
user id and tag, non-zero ID) gets that error as its reply, so no permission
decision is produced. -/
theorem ownership_resolution_errors (db : Store) (userID kind : String) (id : Int) :
    (kind ∉ recognizedKinds →
        resolvePublisher db kind id
          = Except.ok (Sum.inl (sendError 400 "Invalid content type")))
      ∧ (kind ∈ recognizedKinds → recordedOwner db kind id = none →
        resolvePublisher db kind id
          = Except.ok (Sum.inl (sendError 404 "Content not found")))
      ∧ (userID ≠ "" → kind ≠ "" → id ≠ 0 → kind ∉ recognizedKinds →
        checkPermissionHandler db "POST" (some ⟨userID, kind, id⟩)
          = Except.ok (PermissionReply.error 400 "Invalid content type"))
      ∧ (userID ≠ "" → id ≠ 0 → kind ∈ recognizedKinds → recordedOwner db kind id = none →
        checkPermissionHandler db "POST" (some ⟨userID, kind, id⟩)
          = Except.ok (PermissionReply.error 404 "Content not found")) := by
  refine ⟨?_, ?_, ?_, ?_⟩
  · intro hk
    rw [resolvePublisher_eq]
    simp [hk]
  · intro hk ho
    rw [resolvePublisher_eq]
    simp [hk, ho]
  · intro hu hne hid hk
    rw [checkPermissionHandler_eq db userID kind id hu hne hid]
    simp [hk]
  · intro hu hid hk ho
    have hne : kind ≠ "" := by
      intro h
      rw [h] at hk
      exact absurd hk (by decide)
    rw [checkPermissionHandler_eq db userID kind id hu hne hid]
    simp [hk, ho]

theorem ownership_resolution_errors_witness :
    checkPermissionHandler { policies := [{ ID := 7, PublisherID := "wx_abc" }] } "POST"
        (some ⟨"wx_abc", "video", 7⟩)
        = Except.ok (PermissionReply.error 400 "Invalid content type")
      ∧ checkPermissionHandler { policies := [{ ID := 7, PublisherID := "wx_abc" }] } "POST"
        (some ⟨"wx_abc", "policy", 8⟩)
        = Except.ok (PermissionReply.error 404 "Content not found") :=
  ⟨(ownership_resolution_errors { policies := [{ ID := 7, PublisherID := "wx_abc" }] }
      "wx_abc" "video" 7).2.2.1 (by decide) (by decide) (by decide) (by decide),
   (ownership_resolution_errors { policies := [{ ID := 7, PublisherID := "wx_abc" }] }
      "wx_abc" "policy" 8).2.2.2 (by decide) (by decide) (by decide) (by decide)⟩

/-- C14, as stated, fails: news row 1 exists with publisher `wx_abc`, and
ownership resolution treats the tag `news` as unsupported. -/
theorem resolvePublisher_news_counterexample :
    recordedOwner { news := [{ ID := 1, Title := "t", PublisherID := "wx_abc" }] } "news" 1
        = some "wx_abc"
      ∧ resolvePublisher { news := [{ ID := 1, Title := "t", PublisherID := "wx_abc" }] } "news" 1
        = Except.ok (Sum.inl (sendError 400 "Invalid content type"))
      ∧ checkPermissionHandler { news := [{ ID := 1, Title := "t", PublisherID := "wx_abc" }] }
          "POST" (some ⟨"wx_abc", "news", 1⟩)
        = Except.ok (PermissionReply.error 400 "Invalid content type") := by
  decide

/-- C14, amended: for each of the six kinds `checkPermissionHandler`
recognizes (policy, tourism, job, help, consultation, farmhouse) and every
existing row of that kind, ownership resolution succeeds and returns the owner
recorded on the row. -/
theorem resolvePublisher_recognized (db : Store) (kind owner : String) (id : Int)
    (hk : kind ∈ recognizedKinds) (ho : recordedOwner db kind id = some owner) :
    resolvePublisher db kind id = Except.ok (Sum.inr owner) := by
  rw [resolvePublisher_eq]
  simp [hk, ho]

theorem resolvePublisher_recognized_witness :
    resolvePublisher { farmhouses := [{ ID := 2, PublisherID := "admin_admin" }] } "farmhouse" 2
      = Except.ok (Sum.inr "admin_admin") :=
  resolvePublisher_recognized { farmhouses := [{ ID := 2, PublisherID := "admin_admin" }] }
    "farmhouse" "admin_admin" 2 (by decide) (by decide)

/-! ## Retrying create -/

theorem createRetryLoop_all_busy (what : String) (m : Nat) (attempt : Nat → Option GoError) :
    ∀ (remaining i : Nat),
      (∀ k, k < remaining → ∃ e, attempt (i + k) = some e ∧ isTransient e = true) →
      createRetryLoop what m attempt remaining i
        = ⟨some (GoError.Other
            ("failed to create " ++ what ++ " after " ++ toString m ++ " retries")),
          remaining, (List.range remaining).map (fun k => 100 * (i + k + 1))⟩ := by
  intro remaining
  induction remaining with
  | zero => intro i _; simp [createRetryLoop]
  | succ r ih =>
    intro i h
    obtain ⟨e, he, ht⟩ := h 0 (Nat.succ_pos r)
    have hrest := ih (i + 1) (fun k hk => by
      have := h (k + 1) (Nat.succ_lt_succ hk)
      rwa [show i + (k + 1) = i + 1 + k by omega] at this)
    have ht2 : (Contains e.Error "database is locked" || Contains e.Error "SQLITE_BUSY") = true := ht
    rw [Nat.add_zero] at he
    rw [createRetryLoop, he]
    simp only [ht2, if_true, hrest]
    rw [List.range_succ_eq_map]
    simp [List.map_map, Function.comp_def, Nat.add_assoc, Nat.add_comm 1]

theorem createRetryLoop_settled (what : String) (m : Nat) (attempt : Nat → Option GoError) :
    ∀ (j remaining i : Nat), j < remaining →
      (∀ k, k < j → ∃ e, attempt (i + k) = some e ∧ isTransient e = true) →
      (∀ e, attempt (i + j) = some e → isTransient e = false) →
      createRetryLoop what m attempt remaining i
        = ⟨attempt (i + j), j + 1, (List.range j).map (fun k => 100 * (i + k + 1))⟩ := by
  intro j
  induction j with
  | zero =>
    intro remaining i hj _ hs
    obtain ⟨r, rfl⟩ : ∃ r, remaining = r + 1 := ⟨remaining - 1, by omega⟩
    rw [Nat.add_zero] at hs ⊢
    cases ha : attempt i with
    | none => simp [createRetryLoop, ha]
    | some e =>
      have hf : (Contains e.Error "database is locked" || Contains e.Error "SQLITE_BUSY") = false :=
        hs e ha
      rw [createRetryLoop, ha]
      simp [hf, ha]
  | succ j ih =>
    intro remaining i hj hb hs
    obtain ⟨r, rfl⟩ : ∃ r, remaining = r + 1 := ⟨remaining - 1, by omega⟩
    obtain ⟨e, he, ht⟩ := hb 0 (Nat.succ_pos j)
    have ht2 : (Contains e.Error "database is locked" || Contains e.Error "SQLITE_BUSY") = true := ht
    have hrest := ih r (i + 1) (by omega)
      (fun k hk => by
        have := hb (k + 1) (Nat.succ_lt_succ hk)
        rwa [show i + (k + 1) = i + 1 + k by omega] at this)
      (fun e1 h1 => hs e1 (by rwa [show i + (j + 1) = i + 1 + j by omega]))
    rw [Nat.add_zero] at he
    rw [createRetryLoop, he]
    simp only [ht2, if_true, hrest]
    rw [List.range_succ_eq_map, show i + (j + 1) = i + 1 + j by omega]
    simp [List.map_map, Function.comp_def, Nat.add_assoc, Nat.add_comm 1]

theorem CreateNews_run (db : Store) (n : News) (now : String) (newID : Int)
    (attempt : Nat → Option GoError) :
    (CreateNews db n now newID attempt).2.2 = createRetryLoop "news" 3 attempt 3 0 := by
  unfold CreateNews
  cases h : (createRetryLoop "news" 3 attempt 3 0).err <;> simp [h]

theorem PolicyCreate_run (db : Store) (p : Policy) (now : String) (newID : Int)
    (attempt : Nat → Option GoError) :
    (PolicyCreate db p now newID attempt).2.2 = createRetryLoop "policy" 3 attempt 3 0 := by
  unfold PolicyCreate
  cases h : (createRetryLoop "policy" 3 attempt 3 0).err <;> simp [h]

theorem CreateNews_failed (db : Store) (n : News) (now : String) (newID : Int)
    (attempt : Nat → Option GoError) (e : GoError)
    (h : (createRetryLoop "news" 3 attempt 3 0).err = some e) :
    (CreateNews db n now newID attempt).1 = db := by
  unfold CreateNews
  simp [h]

theorem PolicyCreate_failed (db : Store) (p : Policy) (now : String) (newID : Int)
    (attempt : Nat → Option GoError) (e : GoError)
    (h : (createRetryLoop "policy" 3 attempt 3 0).err = some e) :
    (PolicyCreate db p now newID attempt).1 = db := by
  unfold PolicyCreate
  simp [h]

theorem exhausted_news_text :
    "failed to create " ++ "news" ++ " after " ++ toString 3 ++ " retries"
      = "failed to create news after 3 retries" := by decide

theorem exhausted_policy_text :
    "failed to create " ++ "policy" ++ " after " ++ toString 3 ++ " retries"
      = "failed to create policy after 3 retries" := by decide

/-- C15: when the store reports transient contention on each of the first
three `DB.Create` calls, `CreateNews` and `PolicyCreate` make exactly three
calls (what a fourth call would answer is never asked) and return the error
"failed to create ... after 3 retries", which is none of the store's errors;
nothing is inserted. -/
theorem create_gives_up_after_three (db : Store) (n : News) (p : Policy) (now : String)
    (newID : Int) (attempt : Nat → Option GoError)
    (hbusy : ∀ k, k < 3 → ∃ e, attempt k = some e ∧ isTransient e = true) :
    (CreateNews db n now newID attempt).2.2.attempts = 3
      ∧ (CreateNews db n now newID attempt).2.2.err
          = some (GoError.Other "failed to create news after 3 retries")
      ∧ (CreateNews db n now newID attempt).1 = db
      ∧ (PolicyCreate db p now newID attempt).2.2.attempts = 3
      ∧ (PolicyCreate db p now newID attempt).2.2.err
          = some (GoError.Other "failed to create policy after 3 retries")
      ∧ (PolicyCreate db p now newID attempt).1 = db
      ∧ (∀ k e, k < 3 → attempt k = some e →
          e ≠ GoError.Other "failed to create news after 3 retries"
            ∧ e ≠ GoError.Other "failed to create policy after 3 retries") := by
  have hb : ∀ k, k < 3 → ∃ e, attempt (0 + k) = some e ∧ isTransient e = true := by
    intro k hk
    rw [Nat.zero_add]
    exact hbusy k hk
  have hn := createRetryLoop_all_busy "news" 3 attempt 3 0 hb
  have hp := createRetryLoop_all_busy "policy" 3 attempt 3 0 hb
  rw [exhausted_news_text] at hn
  rw [exhausted_policy_text] at hp
  refine ⟨?_, ?_, ?_, ?_, ?_, ?_, ?_⟩
  · rw [CreateNews_run, hn]
  · rw [CreateNews_run, hn]
  · exact CreateNews_failed db n now newID attempt _ (by rw [hn])
  · rw [PolicyCreate_run, hp]
  · rw [PolicyCreate_run, hp]
  · exact PolicyCreate_failed db p now newID attempt _ (by rw [hp])
  · intro k e hk he
    obtain ⟨e1, he1, ht⟩ := hbusy k hk
    rw [he] at he1
    cases he1
    constructor
    · intro h
      rw [h] at ht
      exact absurd ht (by decide)
    · intro h
      rw [h] at ht
      exact absurd ht (by decide)

theorem create_gives_up_after_three_witness :
    (CreateNews {} { Title := "t" } "2024-01-01" 1
        (fun _ => some (GoError.Other "database is locked"))).2.2.attempts = 3
      ∧ (CreateNews {} { Title := "t" } "2024-01-01" 1
        (fun _ => some (GoError.Other "database is locked"))).2.2.err
          = some (GoError.Other "failed to create news after 3 retries") :=
  have h := create_gives_up_after_three {} { Title := "t" } { Title := "t" } "2024-01-01" 1
    (fun _ => some (GoError.Other "database is locked"))
    (fun _ _ => ⟨GoError.Other "database is locked", rfl, by decide⟩)
  ⟨h.1, h.2.1⟩

/-- C16: an error whose text contains neither "database is locked" nor
"SQLITE_BUSY", met at call `j + 1` (after `j` transient failures, `j < 3`), is
returned as it is by `CreateNews` and `PolicyCreate`: that call is the last
one, the only sleeps are the `j` taken after the earlier failures, and
nothing is inserted. -/
theorem create_returns_other_error_at_once (db : Store) (n : News) (p : Policy)
    (now : String) (newID : Int) (attempt : Nat → Option GoError) (j : Nat) (e : GoError)
    (hj : j < 3)
    (hbefore : ∀ k, k < j → ∃ e1, attempt k = some e1 ∧ isTransient e1 = true)
    (he : attempt j = some e)
    (hnt : Contains e.Error "database is locked" = false
      ∧ Contains e.Error "SQLITE_BUSY" = false) :
    (CreateNews db n now newID attempt).2.2
        = ⟨some e, j + 1, (List.range j).map (fun k => 100 * (k + 1))⟩
      ∧ (CreateNews db n now newID attempt).1 = db
      ∧ (PolicyCreate db p now newID attempt).2.2
        = ⟨some e, j + 1, (List.range j).map (fun k => 100 * (k + 1))⟩
      ∧ (PolicyCreate db p now newID attempt).1 = db := by
  have hb : ∀ k, k < j → ∃ e1, attempt (0 + k) = some e1 ∧ isTransient e1 = true := by
    intro k hk
    rw [Nat.zero_add]
    exact hbefore k hk
  have hs : ∀ e1, attempt (0 + j) = some e1 → isTransient e1 = false := by
    intro e1 h1
    rw [Nat.zero_add, he] at h1
    cases h1
    simp [isTransient, hnt.1, hnt.2]
  have hn := createRetryLoop_settled "news" 3 attempt j 3 0 hj hb hs
  have hp := createRetryLoop_settled "policy" 3 attempt j 3 0 hj hb hs
  simp only [Nat.zero_add, he] at hn hp
  refine ⟨?_, ?_, ?_, ?_⟩
  · rw [CreateNews_run, hn]
  · exact CreateNews_failed db n now newID attempt e (by rw [hn])
  · rw [PolicyCreate_run, hp]
  · exact PolicyCreate_failed db p now newID attempt e (by rw [hp])

theorem create_returns_other_error_at_once_witness :
    (PolicyCreate {} { Title := "t" } "2024-01-01" 1
        (fun k => if k = 0 then some (GoError.Other "database is locked (5) (SQLITE_BUSY)")
          else some (GoError.Other "UNIQUE constraint failed: policies.id"))).2.2
      = ⟨some (GoError.Other "UNIQUE constraint failed: policies.id"), 1 + 1,
          (List.range 1).map (fun k => 100 * (k + 1))⟩ :=
  (create_returns_other_error_at_once {} { Title := "t" } { Title := "t" } "2024-01-01" 1
    (fun k => if k = 0 then some (GoError.Other "database is locked (5) (SQLITE_BUSY)")
      else some (GoError.Other "UNIQUE constraint failed: policies.id"))
    1 (GoError.Other "UNIQUE constraint failed: policies.id") (by decide)
    (fun k hk => ⟨GoError.Other "database is locked (5) (SQLITE_BUSY)",
      by simp [Nat.lt_one_iff.1 hk], by decide⟩)
    (by decide) ⟨by decide, by decide⟩).2.2.1

theorem createRetryLoop_stops (what : String) (attempt : Nat → Option GoError) (j : Nat)
    (hj : j < 3) (hb : busyBefore attempt j)
    (hs : ∀ e, attempt j = some e → isTransient e = false) :
    (createRetryLoop what 3 attempt 3 0).err = attempt j
      ∧ (createRetryLoop what 3 attempt 3 0).attempts = j + 1 := by
  have h := createRetryLoop_settled what 3 attempt j 3 0 hj
    (fun k hk => by rw [Nat.zero_add]; exact hb k hk)
    (fun e he => hs e (by rwa [Nat.zero_add] at he))
  rw [Nat.zero_add] at h
  rw [h]
  exact ⟨rfl, rfl⟩

/-- C17: `CreateNews` and `PolicyCreate` stop at the first `DB.Create` call
among the first three whose answer is not transient contention.  If call
`j + 1` (`j < 3`, after `j` transient failures) succeeds, they make exactly
`j + 1` calls, return no error and the row is in the table; if it fails with
a non-transient error, they make exactly `j + 1` calls and return that error;
if the first three answers are all transient, they make exactly 3 calls and
return the "after 3 retries" error. -/
theorem create_stops_at_first_settled_attempt (db : Store) (n : News) (p : Policy)
    (now : String) (newID : Int) (attempt : Nat → Option GoError) :
    (∀ j, j < 3 → busyBefore attempt j → attempt j = none →
        (CreateNews db n now newID attempt).2.2.err = none
          ∧ (CreateNews db n now newID attempt).2.2.attempts = j + 1
          ∧ (CreateNews db n now newID attempt).1.news
              = db.news ++ [(CreateNews db n now newID attempt).2.1]
          ∧ (PolicyCreate db p now newID attempt).2.2.err = none
          ∧ (PolicyCreate db p now newID attempt).2.2.attempts = j + 1
          ∧ (PolicyCreate db p now newID attempt).1.policies
              = db.policies ++ [(PolicyCreate db p now newID attempt).2.1])
      ∧ (∀ j e, j < 3 → busyBefore attempt j → attempt j = some e → isTransient e = false →
        (CreateNews db n now newID attempt).2.2.err = some e
          ∧ (CreateNews db n now newID attempt).2.2.attempts = j + 1
          ∧ (PolicyCreate db p now newID attempt).2.2.err = some e
          ∧ (PolicyCreate db p now newID attempt).2.2.attempts = j + 1)
      ∧ (busyBefore attempt 3 →
        (CreateNews db n now newID attempt).2.2.err
            = some (GoError.Other "failed to create news after 3 retries")
          ∧ (CreateNews db n now newID attempt).2.2.attempts = 3
          ∧ (PolicyCreate db p now newID attempt).2.2.err
            = some (GoError.Other "failed to create policy after 3 retries")
          ∧ (PolicyCreate db p now newID attempt).2.2.attempts = 3) := by
  refine ⟨?_, ?_, ?_⟩
  · intro j hj hb ha
    have hs : ∀ e, attempt j = some e → isTransient e = false := by
      intro e he
      rw [ha] at he
      cases he
    have hn := createRetryLoop_stops "news" attempt j hj hb hs
    have hp := createRetryLoop_stops "policy" attempt j hj hb hs
    rw [ha] at hn hp
    refine ⟨?_, ?_, ?_, ?_, ?_, ?_⟩
    · rw [CreateNews_run]; exact hn.1
    · rw [CreateNews_run]; exact hn.2
    · simp [CreateNews, hn.1]
    · rw [PolicyCreate_run]; exact hp.1
    · rw [PolicyCreate_run]; exact hp.2
    · simp [PolicyCreate, hp.1]
  · intro j e hj hb he hnt
    have hs : ∀ e1, attempt j = some e1 → isTransient e1 = false := by
      intro e1 h1
      rw [he] at h1
      cases h1
      exact hnt
    have hn := createRetryLoop_stops "news" attempt j hj hb hs
    have hp := createRetryLoop_stops "policy" attempt j hj hb hs
    rw [he] at hn hp
    refine ⟨?_, ?_, ?_, ?_⟩
    · rw [CreateNews_run]; exact hn.1
    · rw [CreateNews_run]; exact hn.2
    · rw [PolicyCreate_run]; exact hp.1
    · rw [PolicyCreate_run]; exact hp.2
  · intro hb
    have hb0 : ∀ k, k < 3 → ∃ e, attempt (0 + k) = some e ∧ isTransient e = true := by
      intro k hk
      rw [Nat.zero_add]
      exact hb k hk
    have hn := createRetryLoop_all_busy "news" 3 attempt 3 0 hb0
    have hp := createRetryLoop_all_busy "policy" 3 attempt 3 0 hb0
    rw [exhausted_news_text] at hn
    rw [exhausted_policy_text] at hp
    refine ⟨?_, ?_, ?_, ?_⟩
    · rw [CreateNews_run, hn]
    · rw [CreateNews_run, hn]
    · rw [PolicyCreate_run, hp]
    · rw [PolicyCreate_run, hp]

theorem create_stops_at_first_settled_attempt_witness :
    (CreateNews {} { Title := "t" } "2024-01-01" 5
        (fun k => if k = 0 then some (GoError.Other "SQLITE_BUSY") else none)).2.2.err = none
      ∧ (CreateNews {} { Title := "t" } "2024-01-01" 5
        (fun k => if k = 0 then some (GoError.Other "SQLITE_BUSY") else none)).2.2.attempts
          = 1 + 1 :=
  have h := (create_stops_at_first_settled_attempt {} { Title := "t" } { Title := "t" }
    "2024-01-01" 5 (fun k => if k = 0 then some (GoError.Other "SQLITE_BUSY") else none)).1
      1 (by decide)
      (fun k hk => ⟨GoError.Other "SQLITE_BUSY", by simp [Nat.lt_one_iff.1 hk], by decide⟩)
      (by decide)
  ⟨h.1, h.2.1⟩

/-! ## Role hierarchy -/

theorem roleLevel_unknown (role : String) (h : role ∉ validRoles) : roleLevel role = 0 := by
  simp only [validRoles, List.mem_cons, List.mem_singleton, List.not_mem_nil, or_false,
    not_or] at h
  obtain ⟨h1, h2, h3, h4, h5⟩ := h
  have e1 : (role == "super_admin") = false := by simpa using h1
  have e2 : (role == "admin") = false := by simpa using h2
  have e3 : (role == "vip") = false := by simpa using h3
  have e4 : (role == "user") = false := by simpa using h4
  have e5 : (role == "banned") = false := by simpa using h5
  simp [roleLevel, roleLevelMap, List.lookup, e1, e2, e3, e4, e5]

theorem CheckUserPermission_found (db : Store) (wechatID requiredRole : String) (u : User)
    (h : db.users.find? (fun x => x.WechatID = wechatID) = some u) :
    CheckUserPermission db wechatID requiredRole
      = (decide (roleLevel u.Role ≥ roleLevel requiredRole), none) := by
  simp [CheckUserPermission, GetUserByWechatID, h]

/-- C18: for an existing user with role `a`, `CheckUserPermission` returns
`level a >= level r` and no error, with the levels super_admin 4, admin 3,
vip 2, user 1, banned 0; the requirement "admin" is met exactly by the roles
admin and super_admin.  When no user account has the identity, it returns
`false` and an error. -/
theorem CheckUserPermission_levels (db : Store) (wechatID requiredRole : String) :
    (∀ u, db.users.find? (fun x => x.WechatID = wechatID) = some u →
        CheckUserPermission db wechatID requiredRole
            = (decide (roleLevel u.Role ≥ roleLevel requiredRole), none)
          ∧ ((CheckUserPermission db wechatID "admin").1 = true
              ↔ (u.Role = "admin" ∨ u.Role = "super_admin")))
      ∧ (roleLevel "super_admin" = 4 ∧ roleLevel "admin" = 3 ∧ roleLevel "vip" = 2
          ∧ roleLevel "user" = 1 ∧ roleLevel "banned" = 0)
      ∧ (db.users.find? (fun x => x.WechatID = wechatID) = none →
          ∃ err, CheckUserPermission db wechatID requiredRole = (false, some err)) := by
  refine ⟨?_, by decide, ?_⟩
  · intro u hu
    refine ⟨CheckUserPermission_found db wechatID requiredRole u hu, ?_⟩
    rw [CheckUserPermission_found db wechatID "admin" u hu]
    have h := satisfies_admin_iff u.Role
    unfold satisfies at h
    rw [h]
    exact Or.comm
  · intro hn
    exact ⟨GoError.ErrRecordNotFound, by simp [CheckUserPermission, GetUserByWechatID, hn]⟩

theorem CheckUserPermission_levels_witness :
    CheckUserPermission { users := [{ ID := 1, WechatID := "wx_v", Role := "vip" }] } "wx_v" "user"
        = (decide (roleLevel "vip" ≥ roleLevel "user"), none)
      ∧ ((CheckUserPermission { users := [{ ID := 1, WechatID := "wx_v", Role := "vip" }] }
            "wx_v" "admin").1 = true
          ↔ (("vip" : String) = "admin" ∨ ("vip" : String) = "super_admin")) :=
  (CheckUserPermission_levels { users := [{ ID := 1, WechatID := "wx_v", Role := "vip" }] }
    "wx_v" "user").1 { ID := 1, WechatID := "wx_v", Role := "vip" } (by decide)

/-- C19: a role string outside the five recognized roles has the level of
banned, the lowest; a user whose stored role is such a string fails the
requirements user, vip, admin and super_admin in `CheckUserPermission`, and
`checkDeletePermission` refuses that user for content published by anyone
else. -/
theorem unknown_role_fails_closed (db : Store) (role : String) (hunk : role ∉ validRoles) :
    roleLevel role = roleLevel "banned"
      ∧ (∀ r, roleLevel "banned" ≤ roleLevel r)
      ∧ (∀ wechatID required u,
          db.users.find? (fun x => x.WechatID = wechatID) = some u → u.Role = role →
          (required = "user" ∨ required = "vip" ∨ required = "admin"
            ∨ required = "super_admin") →
          CheckUserPermission db wechatID required = (false, none))
      ∧ (∀ userID publisherID u, HasPrefix userID "admin_" = false →
          db.users.find? (fun x => x.WechatID = userID) = some u → u.Role = role →
          publisherID ≠ userID →
          checkDeletePermission db userID publisherID = Except.ok false) := by
  have h0 : roleLevel role = 0 := roleLevel_unknown role hunk
  have hnot : role ≠ "super_admin" ∧ role ≠ "admin" := by
    simp only [validRoles, List.mem_cons, List.mem_singleton, List.not_mem_nil, or_false,
      not_or] at hunk
    exact ⟨hunk.1, hunk.2.1⟩
  refine ⟨by rw [h0]; decide, ?_, ?_, ?_⟩
  · intro r
    by_cases hr : r ∈ validRoles
    · simp only [validRoles, List.mem_cons, List.mem_singleton, List.not_mem_nil,
        or_false] at hr
      rcases hr with h | h | h | h | h <;> subst h <;> decide
    · rw [roleLevel_unknown r hr]
      decide
  · intro wechatID required u hu hrole hreq
    rw [CheckUserPermission_found db wechatID required u hu, hrole, h0]
    rcases hreq with h | h | h | h <;> subst h <;> decide
  · intro userID publisherID u hp hu hrole hne
    by_cases h0 : userID = ""
    · simp [checkDeletePermission, h0]
    · rw [← hrole] at hnot
      simp [checkDeletePermission, h0, hp, hne, GetUserByWechatID, hu, hnot.1, hnot.2]

theorem unknown_role_fails_closed_witness :
    CheckUserPermission { users := [{ ID := 1, WechatID := "wx_m", Role := "moderator" }] }
      "wx_m" "user" = (false, none) :=
  (unknown_role_fails_closed { users := [{ ID := 1, WechatID := "wx_m", Role := "moderator" }] }
    "moderator" (by decide)).2.2.1 "wx_m" "user"
    { ID := 1, WechatID := "wx_m", Role := "moderator" } (by decide) rfl (Or.inl rfl)

/-! ## Publisher identity under later operations -/

/-- C20, as stated, fails: farmhouse 1 was created with publisher
`wx_owner`; a PUT whose body names `wx_other` is answered 200 and leaves the
row with publisher `wx_other`.  `UpdateNews` does the same to a news row. -/
theorem publisher_overwritten_counterexample :
    farmhouseDetailHandlerPut
        { farmhouses := [{ ID := 1, Title := "a", PublisherID := "wx_owner" }] } 1
        (some { Title := "a", PublisherID := "wx_other" }) none
      = ⟨sendSuccess, { farmhouses := [{ ID := 1, Title := "a", PublisherID := "wx_other" }] },
          [StoreCall.FarmhouseUpdate 1 { Title := "a", PublisherID := "wx_other" }]⟩
      ∧ (UpdateNews { news := [{ ID := 1, Title := "a", PublisherID := "wx_owner" }] } 1
          { Title := "a", PublisherID := "wx_other" } none).1
        = { news := [{ ID := 1, Title := "a", PublisherID := "wx_other" }] } := by
  decide

theorem find_replace_same {α : Type} (l : List α) (key : α → Int) (i : Int) (a : α)
    (ha : key a = i) :
    (l.map (fun y => if key y = i then a else y)).find? (fun y => decide (key y = i))
      = (l.find? (fun y => decide (key y = i))).map (fun _ => a) := by
  induction l with
  | nil => rfl
  | cons y t ih =>
    by_cases h : key y = i
    · simp [List.find?, h, ha]
    · simp [List.find?, h, ih]

theorem find_replace_other {α : Type} (l : List α) (key : α → Int) (i j : Int) (a : α)
    (ha : key a = i) (hj : j ≠ i) :
    (l.map (fun y => if key y = i then a else y)).find? (fun y => decide (key y = j))
      = l.find? (fun y => decide (key y = j)) := by
  induction l with
  | nil => rfl
  | cons y t ih =>
    rw [List.map_cons]
    by_cases h : key y = i
    · have h1 : ¬ key y = j := fun e => hj (e.symm.trans h)
      have h2 : ¬ key a = j := by rw [ha]; exact fun e => hj e.symm
      rw [if_pos h, List.find?_cons_of_neg _ (by simpa using h2),
        List.find?_cons_of_neg _ (by simpa using h1), ih]
    · rw [if_neg h]
      by_cases h1 : key y = j
      · rw [List.find?_cons_of_pos _ (by simpa using h1),
          List.find?_cons_of_pos _ (by simpa using h1)]
      · rw [List.find?_cons_of_neg _ (by simpa using h1),
          List.find?_cons_of_neg _ (by simpa using h1), ih]

theorem lookup_append (l : List (Int × String)) (pr : Int × String) (id : Int) (owner : String)
    (h : (l.find? (fun q => decide (q.1 = id))).map Prod.snd = some owner) :
    ((l ++ [pr]).find? (fun q => decide (q.1 = id))).map Prod.snd = some owner := by
  cases hf : l.find? (fun q => decide (q.1 = id)) with
  | none => rw [hf] at h; cases h
  | some x =>
    rw [List.find?_append, hf]
    rw [hf] at h
    exact h

theorem find_filter_other (l : List (Int × String)) (i id : Int) (hi : id ≠ i) :
    (l.filter (fun q => decide (q.1 ≠ i))).find? (fun q => decide (q.1 = id))
      = l.find? (fun q => decide (q.1 = id)) := by
  induction l with
  | nil => rfl
  | cons y t ih =>
    by_cases h1 : y.1 = i
    · have h2 : ¬ y.1 = id := fun e => hi (e.symm.trans h1)
      rw [List.filter_cons_of_neg (by simpa using h1),
        List.find?_cons_of_neg _ (by simpa using h2), ih]
    · rw [List.filter_cons_of_pos (by simpa using h1)]
      by_cases h2 : y.1 = id
      · rw [List.find?_cons_of_pos _ (by simpa using h2),
          List.find?_cons_of_pos _ (by simpa using h2)]
      · rw [List.find?_cons_of_neg _ (by simpa using h2),
          List.find?_cons_of_neg _ (by simpa using h2), ih]

theorem lookup_filter (l : List (Int × String)) (i id : Int) (owner : String)
    (h : (l.find? (fun q => decide (q.1 = id))).map Prod.snd = some owner) :
    ((l.filter (fun q => decide (q.1 ≠ i))).find? (fun q => decide (q.1 = id))).map Prod.snd
        = some owner
      ∨ ((l.filter (fun q => decide (q.1 ≠ i))).find? (fun q => decide (q.1 = id))).map Prod.snd
        = none := by
  by_cases hi : id = i
  · right
    have hn : (l.filter (fun q => decide (q.1 ≠ i))).find? (fun q => decide (q.1 = id))
        = none := by
      rw [List.find?_eq_none]
      intro x hx
      have := (List.mem_filter.1 hx).2
      simp only [ne_eq, decide_not, Bool.not_eq_true', decide_eq_false_iff_not] at this
      simpa [hi] using this
    rw [hn]
    rfl
  · left
    rw [find_filter_other l i id hi]
    exact h

/-- The owner `recordedOwner` reports is the owner column of the first pair of
`ownerPairs` with the given key. -/
theorem recordedOwner_eq_pairs (db : Store) (kind : String) (id : Int) :
    recordedOwner db kind id
      = ((ownerPairs db kind).find? (fun q => decide (q.1 = id))).map Prod.snd := by
  unfold recordedOwner ownerPairs
  split_ifs <;> simp [List.find?_map, Function.comp_def]

theorem ownerPairs_news (db : Store) (l : List News) (kind : String) :
    ownerPairs { db with news := l } kind
      = if kind = "news" then l.map (fun x => (x.ID, x.PublisherID)) else ownerPairs db kind := by
  by_cases hk : kind = "news"
  · subst hk; simp [ownerPairs]
  · simp [ownerPairs, hk]

theorem ownerPairs_news_keep (db : Store) (l : List News) (kind : String)
    (hl : l.map (fun x => (x.ID, x.PublisherID)) = db.news.map (fun x => (x.ID, x.PublisherID))) :
    ownerPairs { db with news := l } kind = ownerPairs db kind := by
  rw [ownerPairs_news]
  by_cases hk : kind = "news"
  · rw [if_pos hk, hl]
    subst hk
    simp [ownerPairs]
  · rw [if_neg hk]

theorem ownerPairs_news_append (db : Store) (a : News) (kind : String) :
    ownerPairs { db with news := db.news ++ [a] } kind = ownerPairs db kind
      ∨ ∃ pr, ownerPairs { db with news := db.news ++ [a] } kind
          = ownerPairs db kind ++ [pr] := by
  rw [ownerPairs_news]
  by_cases hk : kind = "news"
  · have hp : ownerPairs db kind = db.news.map (fun x => (x.ID, x.PublisherID)) := by
      subst hk; simp [ownerPairs]
    rw [if_pos hk, hp]
    exact Or.inr ⟨(a.ID, a.PublisherID), by rw [List.map_append]; rfl⟩
  · rw [if_neg hk]
    exact Or.inl rfl

theorem ownerPairs_news_filter (db : Store) (i : Int) (kind : String) :
    ownerPairs { db with news := db.news.filter (fun x => decide (x.ID ≠ i)) } kind
        = ownerPairs db kind
      ∨ ∃ j, ownerPairs { db with news := db.news.filter (fun x => decide (x.ID ≠ i)) } kind
          = (ownerPairs db kind).filter (fun q => decide (q.1 ≠ j)) := by
  rw [ownerPairs_news]
  by_cases hk : kind = "news"
  · have hp : ownerPairs db kind = db.news.map (fun x => (x.ID, x.PublisherID)) := by
      subst hk; simp [ownerPairs]
    rw [if_pos hk, hp]
    refine Or.inr ⟨i, ?_⟩
    rw [List.filter_map]
    rfl
  · rw [if_neg hk]
    exact Or.inl rfl

theorem ownerPairs_farmhouses (db : Store) (l : List Farmhouse) (kind : String) :
    ownerPairs { db with farmhouses := l } kind
      = if kind = "farmhouse" then l.map (fun x => (x.ID, x.PublisherID)) else ownerPairs db kind := by
  by_cases hk : kind = "farmhouse"
  · subst hk; simp [ownerPairs]
  · simp [ownerPairs, hk]

theorem ownerPairs_farmhouses_keep (db : Store) (l : List Farmhouse) (kind : String)
    (hl : l.map (fun x => (x.ID, x.PublisherID)) = db.farmhouses.map (fun x => (x.ID, x.PublisherID))) :
    ownerPairs { db with farmhouses := l } kind = ownerPairs db kind := by
  rw [ownerPairs_farmhouses]
  by_cases hk : kind = "farmhouse"
  · rw [if_pos hk, hl]
    subst hk
    simp [ownerPairs]
  · rw [if_neg hk]

theorem ownerPairs_farmhouses_append (db : Store) (a : Farmhouse) (kind : String) :
    ownerPairs { db with farmhouses := db.farmhouses ++ [a] } kind = ownerPairs db kind
      ∨ ∃ pr, ownerPairs { db with farmhouses := db.farmhouses ++ [a] } kind
          = ownerPairs db kind ++ [pr] := by
  rw [ownerPairs_farmhouses]
  by_cases hk : kind = "farmhouse"
  · have hp : ownerPairs db kind = db.farmhouses.map (fun x => (x.ID, x.PublisherID)) := by
      subst hk; simp [ownerPairs]
    rw [if_pos hk, hp]
    exact Or.inr ⟨(a.ID, a.PublisherID), by rw [List.map_append]; rfl⟩
  · rw [if_neg hk]
    exact Or.inl rfl

theorem ownerPairs_farmhouses_filter (db : Store) (i : Int) (kind : String) :
    ownerPairs { db with farmhouses := db.farmhouses.filter (fun x => decide (x.ID ≠ i)) } kind
        = ownerPairs db kind
      ∨ ∃ j, ownerPairs { db with farmhouses := db.farmhouses.filter (fun x => decide (x.ID ≠ i)) } kind
          = (ownerPairs db kind).filter (fun q => decide (q.1 ≠ j)) := by
  rw [ownerPairs_farmhouses]
  by_cases hk : kind = "farmhouse"
  · have hp : ownerPairs db kind = db.farmhouses.map (fun x => (x.ID, x.PublisherID)) := by
      subst hk; simp [ownerPairs]
    rw [if_pos hk, hp]
    refine Or.inr ⟨i, ?_⟩
    rw [List.filter_map]
    rfl
  · rw [if_neg hk]
    exact Or.inl rfl

theorem ownerPairs_policies (db : Store) (l : List Policy) (kind : String) :
    ownerPairs { db with policies := l } kind
      = if kind = "policy" then l.map (fun x => (x.ID, x.PublisherID)) else ownerPairs db kind := by
  by_cases hk : kind = "policy"
  · subst hk; simp [ownerPairs]
  · simp [ownerPairs, hk]

theorem ownerPairs_policies_keep (db : Store) (l : List Policy) (kind : String)
    (hl : l.map (fun x => (x.ID, x.PublisherID)) = db.policies.map (fun x => (x.ID, x.PublisherID))) :
    ownerPairs { db with policies := l } kind = ownerPairs db kind := by
  rw [ownerPairs_policies]
  by_cases hk : kind = "policy"
  · rw [if_pos hk, hl]
    subst hk
    simp [ownerPairs]
  · rw [if_neg hk]

theorem ownerPairs_policies_append (db : Store) (a : Policy) (kind : String) :
    ownerPairs { db with policies := db.policies ++ [a] } kind = ownerPairs db kind
      ∨ ∃ pr, ownerPairs { db with policies := db.policies ++ [a] } kind
          = ownerPairs db kind ++ [pr] := by
  rw [ownerPairs_policies]
  by_cases hk : kind = "policy"
  · have hp : ownerPairs db kind = db.policies.map (fun x => (x.ID, x.PublisherID)) := by
      subst hk; simp [ownerPairs]
    rw [if_pos hk, hp]
    exact Or.inr ⟨(a.ID, a.PublisherID), by rw [List.map_append]; rfl⟩
  · rw [if_neg hk]
    exact Or.inl rfl

theorem ownerPairs_policies_filter (db : Store) (i : Int) (kind : String) :
    ownerPairs { db with policies := db.policies.filter (fun x => decide (x.ID ≠ i)) } kind
        = ownerPairs db kind
      ∨ ∃ j, ownerPairs { db with policies := db.policies.filter (fun x => decide (x.ID ≠ i)) } kind
          = (ownerPairs db kind).filter (fun q => decide (q.1 ≠ j)) := by
  rw [ownerPairs_policies]
  by_cases hk : kind = "policy"
  · have hp : ownerPairs db kind = db.policies.map (fun x => (x.ID, x.PublisherID)) := by
      subst hk; simp [ownerPairs]
    rw [if_pos hk, hp]
    refine Or.inr ⟨i, ?_⟩
    rw [List.filter_map]
    rfl
  · rw [if_neg hk]
    exact Or.inl rfl

theorem ownerPairs_tourisms (db : Store) (l : List Tourism) (kind : String) :
    ownerPairs { db with tourisms := l } kind
      = if kind = "tourism" then l.map (fun x => (x.ID, x.PublisherID)) else ownerPairs db kind := by
  by_cases hk : kind = "tourism"
  · subst hk; simp [ownerPairs]
  · simp [ownerPairs, hk]

theorem ownerPairs_tourisms_keep (db : Store) (l : List Tourism) (kind : String)
    (hl : l.map (fun x => (x.ID, x.PublisherID)) = db.tourisms.map (fun x => (x.ID, x.PublisherID))) :
    ownerPairs { db with tourisms := l } kind = ownerPairs db kind := by
  rw [ownerPairs_tourisms]
  by_cases hk : kind = "tourism"
  · rw [if_pos hk, hl]
    subst hk
    simp [ownerPairs]
  · rw [if_neg hk]

theorem ownerPairs_tourisms_append (db : Store) (a : Tourism) (kind : String) :
    ownerPairs { db with tourisms := db.tourisms ++ [a] } kind = ownerPairs db kind
      ∨ ∃ pr, ownerPairs { db with tourisms := db.tourisms ++ [a] } kind
          = ownerPairs db kind ++ [pr] := by
  rw [ownerPairs_tourisms]
  by_cases hk : kind = "tourism"
  · have hp : ownerPairs db kind = db.tourisms.map (fun x => (x.ID, x.PublisherID)) := by
      subst hk; simp [ownerPairs]
    rw [if_pos hk, hp]
    exact Or.inr ⟨(a.ID, a.PublisherID), by rw [List.map_append]; rfl⟩
  · rw [if_neg hk]
    exact Or.inl rfl

theorem ownerPairs_tourisms_filter (db : Store) (i : Int) (kind : String) :
    ownerPairs { db with tourisms := db.tourisms.filter (fun x => decide (x.ID ≠ i)) } kind
        = ownerPairs db kind
      ∨ ∃ j, ownerPairs { db with tourisms := db.tourisms.filter (fun x => decide (x.ID ≠ i)) } kind
          = (ownerPairs db kind).filter (fun q => decide (q.1 ≠ j)) := by
  rw [ownerPairs_tourisms]
  by_cases hk : kind = "tourism"
  · have hp : ownerPairs db kind = db.tourisms.map (fun x => (x.ID, x.PublisherID)) := by
      subst hk; simp [ownerPairs]
    rw [if_pos hk, hp]
    refine Or.inr ⟨i, ?_⟩
    rw [List.filter_map]
    rfl
  · rw [if_neg hk]
    exact Or.inl rfl

theorem ownerPairs_jobs (db : Store) (l : List Job) (kind : String) :
    ownerPairs { db with jobs := l } kind
      = if kind = "job" then l.map (fun x => (x.ID, x.PublisherID)) else ownerPairs db kind := by
  by_cases hk : kind = "job"
  · subst hk; simp [ownerPairs]
  · simp [ownerPairs, hk]

theorem ownerPairs_jobs_keep (db : Store) (l : List Job) (kind : String)
    (hl : l.map (fun x => (x.ID, x.PublisherID)) = db.jobs.map (fun x => (x.ID, x.PublisherID))) :
    ownerPairs { db with jobs := l } kind = ownerPairs db kind := by
  rw [ownerPairs_jobs]
  by_cases hk : kind = "job"
  · rw [if_pos hk, hl]
    subst hk
    simp [ownerPairs]
  · rw [if_neg hk]

theorem ownerPairs_jobs_append (db : Store) (a : Job) (kind : String) :
    ownerPairs { db with jobs := db.jobs ++ [a] } kind = ownerPairs db kind
      ∨ ∃ pr, ownerPairs { db with jobs := db.jobs ++ [a] } kind
          = ownerPairs db kind ++ [pr] := by
  rw [ownerPairs_jobs]
  by_cases hk : kind = "job"
  · have hp : ownerPairs db kind = db.jobs.map (fun x => (x.ID, x.PublisherID)) := by
      subst hk; simp [ownerPairs]
    rw [if_pos hk, hp]
    exact Or.inr ⟨(a.ID, a.PublisherID), by rw [List.map_append]; rfl⟩
  · rw [if_neg hk]
    exact Or.inl rfl

theorem ownerPairs_jobs_filter (db : Store) (i : Int) (kind : String) :
    ownerPairs { db with jobs := db.jobs.filter (fun x => decide (x.ID ≠ i)) } kind
        = ownerPairs db kind
      ∨ ∃ j, ownerPairs { db with jobs := db.jobs.filter (fun x => decide (x.ID ≠ i)) } kind
          = (ownerPairs db kind).filter (fun q => decide (q.1 ≠ j)) := by
  rw [ownerPairs_jobs]
  by_cases hk : kind = "job"
  · have hp : ownerPairs db kind = db.jobs.map (fun x => (x.ID, x.PublisherID)) := by
      subst hk; simp [ownerPairs]
    rw [if_pos hk, hp]
    refine Or.inr ⟨i, ?_⟩
    rw [List.filter_map]
    rfl
  · rw [if_neg hk]
    exact Or.inl rfl

theorem ownerPairs_helps (db : Store) (l : List Help) (kind : String) :
    ownerPairs { db with helps := l } kind
      = if kind = "help" then l.map (fun x => (x.ID, x.PublisherID)) else ownerPairs db kind := by
  by_cases hk : kind = "help"
  · subst hk; simp [ownerPairs]
  · simp [ownerPairs, hk]

theorem ownerPairs_helps_keep (db : Store) (l : List Help) (kind : String)
    (hl : l.map (fun x => (x.ID, x.PublisherID)) = db.helps.map (fun x => (x.ID, x.PublisherID))) :
    ownerPairs { db with helps := l } kind = ownerPairs db kind := by
  rw [ownerPairs_helps]
  by_cases hk : kind = "help"
  · rw [if_pos hk, hl]
    subst hk
    simp [ownerPairs]
  · rw [if_neg hk]

theorem ownerPairs_helps_append (db : Store) (a : Help) (kind : String) :
    ownerPairs { db with helps := db.helps ++ [a] } kind = ownerPairs db kind
      ∨ ∃ pr, ownerPairs { db with helps := db.helps ++ [a] } kind
          = ownerPairs db kind ++ [pr] := by
  rw [ownerPairs_helps]
  by_cases hk : kind = "help"
  · have hp : ownerPairs db kind = db.helps.map (fun x => (x.ID, x.PublisherID)) := by
      subst hk; simp [ownerPairs]
    rw [if_pos hk, hp]
    exact Or.inr ⟨(a.ID, a.PublisherID), by rw [List.map_append]; rfl⟩
  · rw [if_neg hk]
    exact Or.inl rfl

theorem ownerPairs_helps_filter (db : Store) (i : Int) (kind : String) :
    ownerPairs { db with helps := db.helps.filter (fun x => decide (x.ID ≠ i)) } kind
        = ownerPairs db kind
      ∨ ∃ j, ownerPairs { db with helps := db.helps.filter (fun x => decide (x.ID ≠ i)) } kind
          = (ownerPairs db kind).filter (fun q => decide (q.1 ≠ j)) := by
  rw [ownerPairs_helps]
  by_cases hk : kind = "help"
  · have hp : ownerPairs db kind = db.helps.map (fun x => (x.ID, x.PublisherID)) := by
      subst hk; simp [ownerPairs]
    rw [if_pos hk, hp]
    refine Or.inr ⟨i, ?_⟩
    rw [List.filter_map]
    rfl
  · rw [if_neg hk]
    exact Or.inl rfl

theorem ownerPairs_consultations (db : Store) (l : List Consultation) (kind : String) :
    ownerPairs { db with consultations := l } kind
      = if kind = "consultation" then l.map (fun x => (x.ID, x.AuthorID)) else ownerPairs db kind := by
  by_cases hk : kind = "consultation"
  · subst hk; simp [ownerPairs]
  · simp [ownerPairs, hk]

theorem ownerPairs_consultations_keep (db : Store) (l : List Consultation) (kind : String)
    (hl : l.map (fun x => (x.ID, x.AuthorID)) = db.consultations.map (fun x => (x.ID, x.AuthorID))) :
    ownerPairs { db with consultations := l } kind = ownerPairs db kind := by
  rw [ownerPairs_consultations]
  by_cases hk : kind = "consultation"
  · rw [if_pos hk, hl]
    subst hk
    simp [ownerPairs]
  · rw [if_neg hk]

theorem ownerPairs_consultations_append (db : Store) (a : Consultation) (kind : String) :
    ownerPairs { db with consultations := db.consultations ++ [a] } kind = ownerPairs db kind
      ∨ ∃ pr, ownerPairs { db with consultations := db.consultations ++ [a] } kind
          = ownerPairs db kind ++ [pr] := by
  rw [ownerPairs_consultations]
  by_cases hk : kind = "consultation"
  · have hp : ownerPairs db kind = db.consultations.map (fun x => (x.ID, x.AuthorID)) := by
      subst hk; simp [ownerPairs]
    rw [if_pos hk, hp]
    exact Or.inr ⟨(a.ID, a.AuthorID), by rw [List.map_append]; rfl⟩
  · rw [if_neg hk]
    exact Or.inl rfl

theorem ownerPairs_consultations_filter (db : Store) (i : Int) (kind : String) :
    ownerPairs { db with consultations := db.consultations.filter (fun x => decide (x.ID ≠ i)) } kind
        = ownerPairs db kind
      ∨ ∃ j, ownerPairs { db with consultations := db.consultations.filter (fun x => decide (x.ID ≠ i)) } kind
          = (ownerPairs db kind).filter (fun q => decide (q.1 ≠ j)) := by
  rw [ownerPairs_consultations]
  by_cases hk : kind = "consultation"
  · have hp : ownerPairs db kind = db.consultations.map (fun x => (x.ID, x.AuthorID)) := by
      subst hk; simp [ownerPairs]
    rw [if_pos hk, hp]
    refine Or.inr ⟨i, ?_⟩
    rw [List.filter_map]
    rfl
  · rw [if_neg hk]
    exact Or.inl rfl

theorem pairs_CreateNews (db : Store) (n : News) (now : String) (newID : Int) (attempt : Nat → Option GoError) (kind : String) :
    ownerPairs (CreateNews db n now newID attempt).1 kind = ownerPairs db kind
      ∨ ∃ pr, ownerPairs (CreateNews db n now newID attempt).1 kind = ownerPairs db kind ++ [pr] := by
  have hst : (CreateNews db n now newID attempt).1 = db
      ∨ ∃ a, (CreateNews db n now newID attempt).1 = { db with news := db.news ++ [a] } := by
    simp only [CreateNews]
    split
    · exact Or.inl rfl
    · exact Or.inr ⟨_, rfl⟩
  rcases hst with h | ⟨a, h⟩
  · rw [h]
    exact Or.inl rfl
  · rw [h]
    exact ownerPairs_news_append db a kind

theorem pairs_FarmhouseCreate (db : Store) (f : Farmhouse) (now : String) (newID : Int) (werr : Option GoError) (kind : String) :
    ownerPairs (FarmhouseCreate db f now newID werr).1 kind = ownerPairs db kind
      ∨ ∃ pr, ownerPairs (FarmhouseCreate db f now newID werr).1 kind = ownerPairs db kind ++ [pr] := by
  have hst : (FarmhouseCreate db f now newID werr).1 = db
      ∨ ∃ a, (FarmhouseCreate db f now newID werr).1 = { db with farmhouses := db.farmhouses ++ [a] } := by
    unfold FarmhouseCreate
    cases werr with
    | some e => exact Or.inl rfl
    | none => exact Or.inr ⟨_, rfl⟩
  rcases hst with h | ⟨a, h⟩
  · rw [h]
    exact Or.inl rfl
  · rw [h]
    exact ownerPairs_farmhouses_append db a kind

theorem pairs_PolicyCreate (db : Store) (p : Policy) (now : String) (newID : Int) (attempt : Nat → Option GoError) (kind : String) :
    ownerPairs (PolicyCreate db p now newID attempt).1 kind = ownerPairs db kind
      ∨ ∃ pr, ownerPairs (PolicyCreate db p now newID attempt).1 kind = ownerPairs db kind ++ [pr] := by
  have hst : (PolicyCreate db p now newID attempt).1 = db
      ∨ ∃ a, (PolicyCreate db p now newID attempt).1 = { db with policies := db.policies ++ [a] } := by
    simp only [PolicyCreate]
    split
    · exact Or.inl rfl
    · exact Or.inr ⟨_, rfl⟩
  rcases hst with h | ⟨a, h⟩
  · rw [h]
    exact Or.inl rfl
  · rw [h]
    exact ownerPairs_policies_append db a kind

theorem pairs_TourismCreate (db : Store) (t : Tourism) (newID : Int) (werr : Option GoError) (kind : String) :
    ownerPairs (TourismCreate db t newID werr).1 kind = ownerPairs db kind
      ∨ ∃ pr, ownerPairs (TourismCreate db t newID werr).1 kind = ownerPairs db kind ++ [pr] := by
  have hst : (TourismCreate db t newID werr).1 = db
      ∨ ∃ a, (TourismCreate db t newID werr).1 = { db with tourisms := db.tourisms ++ [a] } := by
    unfold TourismCreate
    cases werr with
    | some e => exact Or.inl rfl
    | none => exact Or.inr ⟨_, rfl⟩
  rcases hst with h | ⟨a, h⟩
  · rw [h]
    exact Or.inl rfl
  · rw [h]
    exact ownerPairs_tourisms_append db a kind

theorem pairs_JobsCreate (db : Store) (j : Job) (now : String) (newID : Int) (werr : Option GoError) (kind : String) :
    ownerPairs (JobsCreate db j now newID werr).1 kind = ownerPairs db kind
      ∨ ∃ pr, ownerPairs (JobsCreate db j now newID werr).1 kind = ownerPairs db kind ++ [pr] := by
  have hst : (JobsCreate db j now newID werr).1 = db
      ∨ ∃ a, (JobsCreate db j now newID werr).1 = { db with jobs := db.jobs ++ [a] } := by
    unfold JobsCreate
    cases werr with
    | some e => exact Or.inl rfl
    | none => exact Or.inr ⟨_, rfl⟩
  rcases hst with h | ⟨a, h⟩
  · rw [h]
    exact Or.inl rfl
  · rw [h]
    exact ownerPairs_jobs_append db a kind

theorem pairs_HelpCreate (db : Store) (r : Help) (now : String) (newID : Int) (werr : Option GoError) (kind : String) :
    ownerPairs (HelpCreate db r now newID werr).1 kind = ownerPairs db kind
      ∨ ∃ pr, ownerPairs (HelpCreate db r now newID werr).1 kind = ownerPairs db kind ++ [pr] := by
  have hst : (HelpCreate db r now newID werr).1 = db
      ∨ ∃ a, (HelpCreate db r now newID werr).1 = { db with helps := db.helps ++ [a] } := by
    unfold HelpCreate
    cases werr with
    | some e => exact Or.inl rfl
    | none => exact Or.inr ⟨_, rfl⟩
  rcases hst with h | ⟨a, h⟩
  · rw [h]
    exact Or.inl rfl
  · rw [h]
    exact ownerPairs_helps_append db a kind

theorem pairs_ConsultationCreate (db : Store) (c : Consultation) (now : String) (newID : Int) (werr : Option GoError) (kind : String) :
    ownerPairs (ConsultationCreate db c now newID werr).1 kind = ownerPairs db kind
      ∨ ∃ pr, ownerPairs (ConsultationCreate db c now newID werr).1 kind = ownerPairs db kind ++ [pr] := by
  have hst : (ConsultationCreate db c now newID werr).1 = db
      ∨ ∃ a, (ConsultationCreate db c now newID werr).1 = { db with consultations := db.consultations ++ [a] } := by
    unfold ConsultationCreate
    cases werr with
    | some e => exact Or.inl rfl
    | none => exact Or.inr ⟨_, rfl⟩
  rcases hst with h | ⟨a, h⟩
  · rw [h]
    exact Or.inl rfl
  · rw [h]
    exact ownerPairs_consultations_append db a kind

theorem pairs_IncrementNewsView (db : Store) (id : Int) (werr : Option GoError) (kind : String) :
    ownerPairs (IncrementNewsView db id werr).1 kind = ownerPairs db kind := by
  unfold IncrementNewsView
  cases werr with
  | some e => rfl
  | none =>
    exact ownerPairs_news_keep db _ kind (by
      rw [List.map_map]
      apply List.map_congr_left
      intro x _
      by_cases h : x.ID = id <;> simp [h])

theorem pairs_IncrementPolicyRead (db : Store) (id : Int) (werr : Option GoError) (kind : String) :
    ownerPairs (IncrementPolicyRead db id werr).1 kind = ownerPairs db kind := by
  unfold IncrementPolicyRead
  cases werr with
  | some e => rfl
  | none =>
    exact ownerPairs_policies_keep db _ kind (by
      rw [List.map_map]
      apply List.map_congr_left
      intro x _
      by_cases h : x.ID = id <;> simp [h])

theorem pairs_IncrementTourismView (db : Store) (id : Int) (werr : Option GoError) (kind : String) :
    ownerPairs (IncrementTourismView db id werr).1 kind = ownerPairs db kind := by
  unfold IncrementTourismView
  cases werr with
  | some e => rfl
  | none =>
    exact ownerPairs_tourisms_keep db _ kind (by
      rw [List.map_map]
      apply List.map_congr_left
      intro x _
      by_cases h : x.ID = id <;> simp [h])

theorem pairs_IncrementJobView (db : Store) (id : Int) (werr : Option GoError) (kind : String) :
    ownerPairs (IncrementJobView db id werr).1 kind = ownerPairs db kind := by
  unfold IncrementJobView
  cases werr with
  | some e => rfl
  | none =>
    exact ownerPairs_jobs_keep db _ kind (by
      rw [List.map_map]
      apply List.map_congr_left
      intro x _
      by_cases h : x.ID = id <;> simp [h])

theorem pairs_IncrementHelpView (db : Store) (id : Int) (werr : Option GoError) (kind : String) :
    ownerPairs (IncrementHelpView db id werr).1 kind = ownerPairs db kind := by
  unfold IncrementHelpView
  cases werr with
  | some e => rfl
  | none =>
    exact ownerPairs_helps_keep db _ kind (by
      rw [List.map_map]
      apply List.map_congr_left
      intro x _
      by_cases h : x.ID = id <;> simp [h])

theorem pairs_IncrementConsultationView (db : Store) (id : Int) (werr : Option GoError) (kind : String) :
    ownerPairs (IncrementConsultationView db id werr).1 kind = ownerPairs db kind := by
  unfold IncrementConsultationView
  cases werr with
  | some e => rfl
  | none =>
    exact ownerPairs_consultations_keep db _ kind (by
      rw [List.map_map]
      apply List.map_congr_left
      intro x _
      by_cases h : x.ID = id <;> simp [h])

theorem pairs_DeleteNews (db : Store) (id : Int) (werr : Option GoError) (kind : String) :
    ownerPairs (DeleteNews db id werr).1 kind = ownerPairs db kind
      ∨ ∃ j, ownerPairs (DeleteNews db id werr).1 kind
          = (ownerPairs db kind).filter (fun q => decide (q.1 ≠ j)) := by
  unfold DeleteNews
  cases werr with
  | some e => exact Or.inl rfl
  | none =>
    by_cases h : db.news.any (fun x => decide (x.ID = id)) = true
    · simp only [h, if_true]
      exact ownerPairs_news_filter db id kind
    · simp only [h]
      exact Or.inl rfl

theorem pairs_FarmhouseDelete (db : Store) (id : Int) (werr : Option GoError) (kind : String) :
    ownerPairs (FarmhouseDelete db id werr).1 kind = ownerPairs db kind
      ∨ ∃ j, ownerPairs (FarmhouseDelete db id werr).1 kind
          = (ownerPairs db kind).filter (fun q => decide (q.1 ≠ j)) := by
  unfold FarmhouseDelete
  cases werr with
  | some e => exact Or.inl rfl
  | none =>
    by_cases h : db.farmhouses.any (fun x => decide (x.ID = id)) = true
    · simp only [h, if_true]
      exact ownerPairs_farmhouses_filter db id kind
    · simp only [h]
      exact Or.inl rfl

theorem pairs_PolicyDelete (db : Store) (id : Int) (werr : Option GoError) (kind : String) :
    ownerPairs (PolicyDelete db id werr).1 kind = ownerPairs db kind
      ∨ ∃ j, ownerPairs (PolicyDelete db id werr).1 kind
          = (ownerPairs db kind).filter (fun q => decide (q.1 ≠ j)) := by
  unfold PolicyDelete
  cases werr with
  | some e => exact Or.inl rfl
  | none =>
    by_cases h : db.policies.any (fun x => decide (x.ID = id)) = true
    · simp only [h, if_true]
      exact ownerPairs_policies_filter db id kind
    · simp only [h]
      exact Or.inl rfl

theorem pairs_TourismDelete (db : Store) (id : Int) (werr : Option GoError) (kind : String) :
    ownerPairs (TourismDelete db id werr).1 kind = ownerPairs db kind
      ∨ ∃ j, ownerPairs (TourismDelete db id werr).1 kind
          = (ownerPairs db kind).filter (fun q => decide (q.1 ≠ j)) := by
  unfold TourismDelete
  cases werr with
  | some e => exact Or.inl rfl
  | none =>
    by_cases h : db.tourisms.any (fun x => decide (x.ID = id)) = true
    · simp only [h, if_true]
      exact ownerPairs_tourisms_filter db id kind
    · simp only [h]
      exact Or.inl rfl

theorem pairs_JobDelete (db : Store) (id : Int) (werr : Option GoError) (kind : String) :
    ownerPairs (JobDelete db id werr).1 kind = ownerPairs db kind
      ∨ ∃ j, ownerPairs (JobDelete db id werr).1 kind
          = (ownerPairs db kind).filter (fun q => decide (q.1 ≠ j)) := by
  unfold JobDelete
  cases werr with
  | some e => exact Or.inl rfl
  | none =>
    by_cases h : db.jobs.any (fun x => decide (x.ID = id)) = true
    · simp only [h, if_true]
      exact ownerPairs_jobs_filter db id kind
    · simp only [h]
      exact Or.inl rfl

theorem pairs_HelpDelete (db : Store) (id : Int) (werr : Option GoError) (kind : String) :
    ownerPairs (HelpDelete db id werr).1 kind = ownerPairs db kind
      ∨ ∃ j, ownerPairs (HelpDelete db id werr).1 kind
          = (ownerPairs db kind).filter (fun q => decide (q.1 ≠ j)) := by
  unfold HelpDelete
  cases werr with
  | some e => exact Or.inl rfl
  | none =>
    by_cases h : db.helps.any (fun x => decide (x.ID = id)) = true
    · simp only [h, if_true]
      exact ownerPairs_helps_filter db id kind
    · simp only [h]
      exact Or.inl rfl

theorem pairs_ConsultationDelete (db : Store) (id : Int) (werr : Option GoError) (kind : String) :
    ownerPairs (ConsultationDelete db id werr).1 kind = ownerPairs db kind
      ∨ ∃ j, ownerPairs (ConsultationDelete db id werr).1 kind
          = (ownerPairs db kind).filter (fun q => decide (q.1 ≠ j)) := by
  unfold ConsultationDelete
  cases werr with
  | some e => exact Or.inl rfl
  | none =>
    by_cases h : db.consultations.any (fun x => decide (x.ID = id)) = true
    · simp only [h, if_true]
      exact ownerPairs_consultations_filter db id kind
    · simp only [h]
      exact Or.inl rfl

theorem recordedOwner_news (db : Store) (l : List News) (kind : String) (id : Int) :
    recordedOwner { db with news := l } kind id
      = if kind = "news" then
          (l.find? (fun x => decide (x.ID = id))).map (fun x => x.PublisherID)
        else recordedOwner db kind id := by
  by_cases hk : kind = "news"
  · subst hk; simp [recordedOwner]
  · simp [recordedOwner, hk]

/-- `UpdateNews` and the recorded owners: every item other than the updated
one keeps its owner, as does the updated one when the statement fails; after
a successful update the updated item carries the submitted `PublisherID`. -/
theorem UpdateNews_owner (db : Store) (i : Int) (n : News) (werr : Option GoError)
    (kind : String) (id : Int) (owner : String)
    (h : recordedOwner db kind id = some owner) :
    ((kind ≠ "news" ∨ id ≠ i ∨ werr ≠ none) →
        recordedOwner (UpdateNews db i n werr).1 kind id = some owner)
      ∧ (kind = "news" → id = i → werr = none →
        recordedOwner (UpdateNews db i n werr).1 kind id = some n.PublisherID) := by
  have hrow : kind = "news" → id = i →
      db.news.find? (fun x => decide (x.ID = i)) ≠ none := by
    intro hk hid hf
    subst hk
    subst hid
    simp [recordedOwner, hf] at h
  unfold UpdateNews
  cases hf : db.news.find? (fun x => decide (x.ID = i)) with
  | none =>
    exact ⟨fun _ => h, fun hk hid _ => absurd hf (hrow hk hid)⟩
  | some y =>
    cases werr with
    | some e => exact ⟨fun _ => h, fun _ _ hw => Option.noConfusion hw⟩
    | none =>
      simp only []
      rw [recordedOwner_news]
      constructor
      · intro hor
        by_cases hk : kind = "news"
        · rw [if_pos hk]
          rcases hor with h1 | h1 | h1
          · exact absurd hk h1
          · rw [find_replace_other db.news (fun x => x.ID) i id { n with ID := i } rfl h1]
            subst hk
            simpa [recordedOwner] using h
          · exact absurd rfl h1
        · rw [if_neg hk]
          exact h
      · intro hk hid _
        subst hid
        rw [if_pos hk, find_replace_same db.news (fun x => x.ID) id { n with ID := id } rfl,
          hf]
        rfl

theorem recordedOwner_farmhouses (db : Store) (l : List Farmhouse) (kind : String) (id : Int) :
    recordedOwner { db with farmhouses := l } kind id
      = if kind = "farmhouse" then
          (l.find? (fun x => decide (x.ID = id))).map (fun x => x.PublisherID)
        else recordedOwner db kind id := by
  by_cases hk : kind = "farmhouse"
  · subst hk; simp [recordedOwner]
  · simp [recordedOwner, hk]

/-- `FarmhouseUpdate` and the recorded owners: every item other than the updated
one keeps its owner, as does the updated one when the statement fails; after
a successful update the updated item carries the submitted `PublisherID`. -/
theorem FarmhouseUpdate_owner (db : Store) (i : Int) (f : Farmhouse) (werr : Option GoError)
    (kind : String) (id : Int) (owner : String)
    (h : recordedOwner db kind id = some owner) :
    ((kind ≠ "farmhouse" ∨ id ≠ i ∨ werr ≠ none) →
        recordedOwner (FarmhouseUpdate db i f werr).1 kind id = some owner)
      ∧ (kind = "farmhouse" → id = i → werr = none →
        recordedOwner (FarmhouseUpdate db i f werr).1 kind id = some f.PublisherID) := by
  have hrow : kind = "farmhouse" → id = i →
      db.farmhouses.find? (fun x => decide (x.ID = i)) ≠ none := by
    intro hk hid hf
    subst hk
    subst hid
    simp [recordedOwner, hf] at h
  unfold FarmhouseUpdate
  cases hf : db.farmhouses.find? (fun x => decide (x.ID = i)) with
  | none =>
    exact ⟨fun _ => h, fun hk hid _ => absurd hf (hrow hk hid)⟩
  | some y =>
    cases werr with
    | some e => exact ⟨fun _ => h, fun _ _ hw => Option.noConfusion hw⟩
    | none =>
      simp only []
      rw [recordedOwner_farmhouses]
      constructor
      · intro hor
        by_cases hk : kind = "farmhouse"
        · rw [if_pos hk]
          rcases hor with h1 | h1 | h1
          · exact absurd hk h1
          · rw [find_replace_other db.farmhouses (fun x => x.ID) i id { f with ID := i } rfl h1]
            subst hk
            simpa [recordedOwner] using h
          · exact absurd rfl h1
        · rw [if_neg hk]
          exact h
      · intro hk hid _
        subst hid
        rw [if_pos hk, find_replace_same db.farmhouses (fun x => x.ID) id { f with ID := id } rfl,
          hf]
        rfl

/-- The operations that neither delete nor rewrite a row keep the recorded
owner of every item. -/
theorem ContentOp_keeps_owner (db : Store) (op : ContentOp) (kind : String) (id : Int)
    (owner : String) (h : recordedOwner db kind id = some owner)
    (hs : op.isFullRowUpdate = false) (hd : op.isDelete = false) :
    recordedOwner (op.run db) kind id = some owner := by
  rw [recordedOwner_eq_pairs] at h ⊢
  cases op with
  | updateNews i n werr => exact Bool.noConfusion hs
  | farmhouseUpdate i f werr => exact Bool.noConfusion hs
  | deleteNews i werr => exact Bool.noConfusion hd
  | farmhouseDelete i werr => exact Bool.noConfusion hd
  | policyDelete i werr => exact Bool.noConfusion hd
  | tourismDelete i werr => exact Bool.noConfusion hd
  | jobDelete i werr => exact Bool.noConfusion hd
  | helpDelete i werr => exact Bool.noConfusion hd
  | consultationDelete i werr => exact Bool.noConfusion hd
  | createNews n now newID attempt =>
    show ((ownerPairs (CreateNews db n now newID attempt).1 kind).find? _).map Prod.snd = some owner
    rcases pairs_CreateNews db n now newID attempt kind with e | ⟨pr, e⟩
    · rw [e]; exact h
    · rw [e]; exact lookup_append _ pr id owner h
  | farmhouseCreate f now newID werr =>
    show ((ownerPairs (FarmhouseCreate db f now newID werr).1 kind).find? _).map Prod.snd = some owner
    rcases pairs_FarmhouseCreate db f now newID werr kind with e | ⟨pr, e⟩
    · rw [e]; exact h
    · rw [e]; exact lookup_append _ pr id owner h
  | policyCreate p now newID attempt =>
    show ((ownerPairs (PolicyCreate db p now newID attempt).1 kind).find? _).map Prod.snd = some owner
    rcases pairs_PolicyCreate db p now newID attempt kind with e | ⟨pr, e⟩
    · rw [e]; exact h
    · rw [e]; exact lookup_append _ pr id owner h
  | tourismCreate t newID werr =>
    show ((ownerPairs (TourismCreate db t newID werr).1 kind).find? _).map Prod.snd = some owner
    rcases pairs_TourismCreate db t newID werr kind with e | ⟨pr, e⟩
    · rw [e]; exact h
    · rw [e]; exact lookup_append _ pr id owner h
  | jobsCreate j now newID werr =>
    show ((ownerPairs (JobsCreate db j now newID werr).1 kind).find? _).map Prod.snd = some owner
    rcases pairs_JobsCreate db j now newID werr kind with e | ⟨pr, e⟩
    · rw [e]; exact h
    · rw [e]; exact lookup_append _ pr id owner h
  | helpCreate r now newID werr =>
    show ((ownerPairs (HelpCreate db r now newID werr).1 kind).find? _).map Prod.snd = some owner
    rcases pairs_HelpCreate db r now newID werr kind with e | ⟨pr, e⟩
    · rw [e]; exact h
    · rw [e]; exact lookup_append _ pr id owner h
  | consultationCreate c now newID werr =>
    show ((ownerPairs (ConsultationCreate db c now newID werr).1 kind).find? _).map Prod.snd = some owner
    rcases pairs_ConsultationCreate db c now newID werr kind with e | ⟨pr, e⟩
    · rw [e]; exact h
    · rw [e]; exact lookup_append _ pr id owner h
  | incrementNewsView i werr =>
    show ((ownerPairs (IncrementNewsView db i werr).1 kind).find? _).map Prod.snd = some owner
    rw [pairs_IncrementNewsView db i werr kind]
    exact h
  | incrementPolicyRead i werr =>
    show ((ownerPairs (IncrementPolicyRead db i werr).1 kind).find? _).map Prod.snd = some owner
    rw [pairs_IncrementPolicyRead db i werr kind]
    exact h
  | incrementTourismView i werr =>
    show ((ownerPairs (IncrementTourismView db i werr).1 kind).find? _).map Prod.snd = some owner
    rw [pairs_IncrementTourismView db i werr kind]
    exact h
  | incrementJobView i werr =>
    show ((ownerPairs (IncrementJobView db i werr).1 kind).find? _).map Prod.snd = some owner
    rw [pairs_IncrementJobView db i werr kind]
    exact h
  | incrementHelpView i werr =>
    show ((ownerPairs (IncrementHelpView db i werr).1 kind).find? _).map Prod.snd = some owner
    rw [pairs_IncrementHelpView db i werr kind]
    exact h
  | incrementConsultationView i werr =>
    show ((ownerPairs (IncrementConsultationView db i werr).1 kind).find? _).map Prod.snd = some owner
    rw [pairs_IncrementConsultationView db i werr kind]
    exact h

/-- After a delete every item either keeps its recorded owner or is gone. -/
theorem ContentOp_delete_owner (db : Store) (op : ContentOp) (kind : String) (id : Int)
    (owner : String) (h : recordedOwner db kind id = some owner)
    (hd : op.isDelete = true) :
    recordedOwner (op.run db) kind id = some owner
      ∨ recordedOwner (op.run db) kind id = none := by
  rw [recordedOwner_eq_pairs] at h
  rw [recordedOwner_eq_pairs]
  cases op with
  | updateNews i n werr => exact Bool.noConfusion hd
  | farmhouseUpdate i f werr => exact Bool.noConfusion hd
  | createNews n now newID attempt => exact Bool.noConfusion hd
  | farmhouseCreate f now newID werr => exact Bool.noConfusion hd
  | policyCreate p now newID attempt => exact Bool.noConfusion hd
  | tourismCreate t newID werr => exact Bool.noConfusion hd
  | jobsCreate j now newID werr => exact Bool.noConfusion hd
  | helpCreate r now newID werr => exact Bool.noConfusion hd
  | consultationCreate c now newID werr => exact Bool.noConfusion hd
  | incrementNewsView i werr => exact Bool.noConfusion hd
  | incrementPolicyRead i werr => exact Bool.noConfusion hd
  | incrementTourismView i werr => exact Bool.noConfusion hd
  | incrementJobView i werr => exact Bool.noConfusion hd
  | incrementHelpView i werr => exact Bool.noConfusion hd
  | incrementConsultationView i werr => exact Bool.noConfusion hd
  | deleteNews i werr =>
    show ((ownerPairs (DeleteNews db i werr).1 kind).find? _).map Prod.snd = some owner
      ∨ ((ownerPairs (DeleteNews db i werr).1 kind).find? _).map Prod.snd = none
    rcases pairs_DeleteNews db i werr kind with e | ⟨j, e⟩
    · rw [e]; exact Or.inl h
    · rw [e]; exact lookup_filter _ j id owner h
  | farmhouseDelete i werr =>
    show ((ownerPairs (FarmhouseDelete db i werr).1 kind).find? _).map Prod.snd = some owner
      ∨ ((ownerPairs (FarmhouseDelete db i werr).1 kind).find? _).map Prod.snd = none
    rcases pairs_FarmhouseDelete db i werr kind with e | ⟨j, e⟩
    · rw [e]; exact Or.inl h
    · rw [e]; exact lookup_filter _ j id owner h
  | policyDelete i werr =>
    show ((ownerPairs (PolicyDelete db i werr).1 kind).find? _).map Prod.snd = some owner
      ∨ ((ownerPairs (PolicyDelete db i werr).1 kind).find? _).map Prod.snd = none
    rcases pairs_PolicyDelete db i werr kind with e | ⟨j, e⟩
    · rw [e]; exact Or.inl h
    · rw [e]; exact lookup_filter _ j id owner h
  | tourismDelete i werr =>
    show ((ownerPairs (TourismDelete db i werr).1 kind).find? _).map Prod.snd = some owner
      ∨ ((ownerPairs (TourismDelete db i werr).1 kind).find? _).map Prod.snd = none
    rcases pairs_TourismDelete db i werr kind with e | ⟨j, e⟩
    · rw [e]; exact Or.inl h
    · rw [e]; exact lookup_filter _ j id owner h
  | jobDelete i werr =>
    show ((ownerPairs (JobDelete db i werr).1 kind).find? _).map Prod.snd = some owner
      ∨ ((ownerPairs (JobDelete db i werr).1 kind).find? _).map Prod.snd = none
    rcases pairs_JobDelete db i werr kind with e | ⟨j, e⟩
    · rw [e]; exact Or.inl h
    · rw [e]; exact lookup_filter _ j id owner h
  | helpDelete i werr =>
    show ((ownerPairs (HelpDelete db i werr).1 kind).find? _).map Prod.snd = some owner
      ∨ ((ownerPairs (HelpDelete db i werr).1 kind).find? _).map Prod.snd = none
    rcases pairs_HelpDelete db i werr kind with e | ⟨j, e⟩
    · rw [e]; exact Or.inl h
    · rw [e]; exact lookup_filter _ j id owner h
  | consultationDelete i werr =>
    show ((ownerPairs (ConsultationDelete db i werr).1 kind).find? _).map Prod.snd = some owner
      ∨ ((ownerPairs (ConsultationDelete db i werr).1 kind).find? _).map Prod.snd = none
    rcases pairs_ConsultationDelete db i werr kind with e | ⟨j, e⟩
    · rw [e]; exact Or.inl h
    · rw [e]; exact lookup_filter _ j id owner h

/-- C20, amended: of the operations the store offers on the seven content
kinds (news, farmhouse, policy, tourism, job, help, consultation), only the
two full-row updates can change the owner recorded on an existing item.  For
every item with a recorded owner: after any create or view-count operation
the item has the same owner; after any delete the item has the same owner or
no longer exists; after `UpdateNews` or `FarmhouseUpdate` (reached by PUT,
without any identity or permission check) every other item, and the updated
item when the statement fails, has the same owner, while after a successful
update under a non-zero key the updated item carries the `PublisherID` of the
submitted record, which is the owner recorded at creation only if the
submitted record repeats it. -/
theorem publisher_after_operations (db : Store) (op : ContentOp) (kind : String) (id : Int)
    (owner : String) (h : recordedOwner db kind id = some owner) :
    (op.isFullRowUpdate = false → op.isDelete = false →
        recordedOwner (op.run db) kind id = some owner)
      ∧ (op.isDelete = true →
        recordedOwner (op.run db) kind id = some owner
          ∨ recordedOwner (op.run db) kind id = none)
      ∧ (∀ i n werr, op = ContentOp.updateNews i n werr →
        ((kind ≠ "news" ∨ id ≠ i ∨ werr ≠ none) →
            recordedOwner (op.run db) kind id = some owner)
          ∧ (kind = "news" → id = i → i ≠ 0 → werr = none →
            recordedOwner (op.run db) kind id = some n.PublisherID))
      ∧ (∀ i f werr, op = ContentOp.farmhouseUpdate i f werr →
        ((kind ≠ "farmhouse" ∨ id ≠ i ∨ werr ≠ none) →
            recordedOwner (op.run db) kind id = some owner)
          ∧ (kind = "farmhouse" → id = i → i ≠ 0 → werr = none →
            recordedOwner (op.run db) kind id = some f.PublisherID)) := by
  refine ⟨ContentOp_keeps_owner db op kind id owner h,
    ContentOp_delete_owner db op kind id owner h, ?_, ?_⟩
  · intro i n werr hop
    subst hop
    have hu := UpdateNews_owner db i n werr kind id owner h
    exact ⟨hu.1, fun hk hid _ hw => hu.2 hk hid hw⟩
  · intro i f werr hop
    subst hop
    have hu := FarmhouseUpdate_owner db i f werr kind id owner h
    exact ⟨hu.1, fun hk hid _ hw => hu.2 hk hid hw⟩

theorem publisher_after_operations_witness :
    recordedOwner
        (ContentOp.run (ContentOp.incrementPolicyRead 1 none)
          { policies := [{ ID := 1, Title := "a", PublisherID := "wx_owner" }] })
        "policy" 1 = some "wx_owner"
      ∧ recordedOwner
        (ContentOp.run (ContentOp.farmhouseUpdate 1 { Title := "b", PublisherID := "wx_other" } none)
          { farmhouses := [{ ID := 1, Title := "a", PublisherID := "wx_owner" }] })
        "farmhouse" 1 = some "wx_other" :=
  ⟨(publisher_after_operations
      { policies := [{ ID := 1, Title := "a", PublisherID := "wx_owner" }] }
      (ContentOp.incrementPolicyRead 1 none) "policy" 1 "wx_owner" (by decide)).1 rfl rfl,
   ((publisher_after_operations
      { farmhouses := [{ ID := 1, Title := "a", PublisherID := "wx_owner" }] }
      (ContentOp.farmhouseUpdate 1 { Title := "b", PublisherID := "wx_other" } none)
      "farmhouse" 1 "wx_owner" (by decide)).2.2.2 1 { Title := "b", PublisherID := "wx_other" }
      none rfl).2 rfl rfl (by decide) rfl⟩

/-! ## Startup provisioning -/

theorem filter_admin_of_nodup (l : List Admin) (h : (l.map (fun a => a.Username)).Nodup) :
    l.filter (fun a => decide (a.Username = "admin")) = []
      ∨ ∃ a, l.filter (fun a => decide (a.Username = "admin")) = [a] ∧ a.Username = "admin" := by
  induction l with
  | nil => exact Or.inl rfl
  | cons a t ih =>
    rw [List.map_cons, List.nodup_cons] at h
    by_cases ha : a.Username = "admin"
    · right
      refine ⟨a, ?_, ha⟩
      have ht : t.filter (fun a => decide (a.Username = "admin")) = [] := by
        rw [List.filter_eq_nil_iff]
        intro b hb
        have hne : b.Username ≠ a.Username := by
          intro heq
          exact h.1 (List.mem_map.2 ⟨b, hb, heq⟩)
        rw [ha] at hne
        simpa using hne
      simp [List.filter, ha, ht]
    · rcases ih h.2 with h0 | ⟨b, hb, hbn⟩
      · left
        simp [List.filter, ha, h0]
      · right
        exact ⟨b, by simp [List.filter, ha, hb], hbn⟩

theorem CreateDefaultAdmin_single (db : Store) (newID : Int) (werr : Option GoError) (a : Admin)
    (ha : db.admins = [a]) (hn : a.Username = "admin") :
    CreateDefaultAdmin db newID werr
      = ({ db with admins := [{ a with Role := "super_admin", Nickname := "超级管理员" }] }, none) := by
  simp [CreateDefaultAdmin, ha, hn]

/-- C21: for every administrator table that respects the unique index on
`username`, a run of `CreateDefaultAdmin` whose store operations succeed
leaves exactly one row, named "admin" with role super_admin (so no row with
another username); a second run, whatever the store answers, returns no error
and leaves the whole store as the first run left it. -/
theorem CreateDefaultAdmin_provisions (db : Store) (newID newID2 : Int)
    (werr2 : Option GoError) (hu : (db.admins.map (fun a => a.Username)).Nodup) :
    (∃ a, (CreateDefaultAdmin db newID none).1.admins = [a]
        ∧ a.Username = "admin" ∧ a.Role = "super_admin")
      ∧ (CreateDefaultAdmin db newID none).2 = none
      ∧ CreateDefaultAdmin (CreateDefaultAdmin db newID none).1 newID2 werr2
          = ((CreateDefaultAdmin db newID none).1, none) := by
  rcases filter_admin_of_nodup db.admins hu with h0 | ⟨a, ha, hn⟩
  · have hrun : CreateDefaultAdmin db newID none
        = ({ db with admins :=
              [Admin.mk newID "admin" defaultAdminPassword "超级管理员" "super_admin"] },
            none) := by
      simp [CreateDefaultAdmin, h0]
    rw [hrun]
    refine ⟨⟨_, rfl, rfl, rfl⟩, rfl, ?_⟩
    rw [CreateDefaultAdmin_single _ newID2 werr2 _ rfl rfl]
  · have hrun : CreateDefaultAdmin db newID none
        = ({ db with admins := [{ a with Role := "super_admin", Nickname := "超级管理员" }] },
            none) := by
      simp [CreateDefaultAdmin, ha, hn]
    rw [hrun]
    refine ⟨⟨_, rfl, hn, rfl⟩, rfl, ?_⟩
    rw [CreateDefaultAdmin_single _ newID2 werr2
      { a with Role := "super_admin", Nickname := "超级管理员" } rfl hn]

theorem CreateDefaultAdmin_provisions_witness :
    (∃ a, (CreateDefaultAdmin
          { admins := [{ ID := 3, Username := "bob", Role := "admin" },
                       { ID := 5, Username := "admin", Role := "admin" }] } 9 none).1.admins = [a]
        ∧ a.Username = "admin" ∧ a.Role = "super_admin") :=
  (CreateDefaultAdmin_provisions
    { admins := [{ ID := 3, Username := "bob", Role := "admin" },
                 { ID := 5, Username := "admin", Role := "admin" }] } 9 9 none (by decide)).1

/-! ## Get-or-create login -/

theorem filter_length_map_same {α : Type} (l : List α) (g : α → α) (p : α → Bool)
    (h : ∀ x, p (g x) = p x) : ((l.map g).filter p).length = (l.filter p).length := by
  induction l with
  | nil => rfl
  | cons x t ih =>
    cases hp : p x <;> simp [List.filter, h, hp, ih]

/-- The number of rows with the identifier after one call: one when there
was none and the insert succeeded, the number before otherwise. -/
theorem getOrCreate_count (db : Store) (w n a : String) (id : Int) (werr : Option GoError) :
    ((GetOrCreateUserByWechatID db w n a id werr).1.users.filter
        (fun u => decide (u.WechatID = w))).length
      = if (db.users.filter (fun u => decide (u.WechatID = w))).length = 0 ∧ werr = none then 1
        else (db.users.filter (fun u => decide (u.WechatID = w))).length := by
  unfold GetOrCreateUserByWechatID
  cases hf : db.users.find? (fun u => decide (u.WechatID = w)) with
  | none =>
    have h0 : db.users.filter (fun u => decide (u.WechatID = w)) = [] := by
      rw [List.filter_eq_nil_iff]
      intro x hx
      exact List.find?_eq_none.1 hf x hx
    cases werr with
    | none => simp [h0, List.filter_append]
    | some e => simp [h0]
  | some u0 =>
    have hmem := List.mem_of_find?_eq_some hf
    have hp := List.find?_some hf
    have hne : (db.users.filter (fun u => decide (u.WechatID = w))).length ≠ 0 := by
      intro h
      have hnil := List.length_eq_zero.1 h
      have : u0 ∈ db.users.filter (fun u => decide (u.WechatID = w)) :=
        List.mem_filter.2 ⟨hmem, hp⟩
      rw [hnil] at this
      cases this
    simp only [hne, false_and, if_false]
    apply filter_length_map_same
    intro x
    by_cases hx : x.ID = u0.ID <;> simp [hx]

theorem getOrCreate_fold_count (w : String)
    (calls : List (String × String × Int × Option GoError)) :
    ∀ db : Store, (db.users.filter (fun u => decide (u.WechatID = w))).length ≤ 1 →
      ((calls.foldl (fun d c =>
          (GetOrCreateUserByWechatID d w c.1 c.2.1 c.2.2.1 c.2.2.2).1) db).users.filter
        (fun u => decide (u.WechatID = w))).length ≤ 1 := by
  induction calls with
  | nil => intro db h; exact h
  | cons c rest ih =>
    intro db h
    rw [List.foldl_cons]
    apply ih
    rw [getOrCreate_count]
    split
    · exact Nat.le_refl 1
    · exact h

/-- C22: `GetOrCreateUserByWechatID` gets or creates.  With no row for the
identifier and a successful insert, the table gains exactly one row, with
that identifier, role "user" and favorites "[]", and that row is returned.
With a row for the identifier, no row is added, the returned account is that
row's, and every row keeps its key, identifier and role.  Over any sequence
of calls with the same identifier, a table that had at most one row for it
still has at most one. -/
theorem GetOrCreateUserByWechatID_semantics (db : Store) (wechatID nickname avatar : String)
    (newID : Int) (werr : Option GoError)
    (calls : List (String × String × Int × Option GoError)) :
    (db.users.find? (fun u => decide (u.WechatID = wechatID)) = none →
        ∃ u, GetOrCreateUserByWechatID db wechatID nickname avatar newID none
              = ({ db with users := db.users ++ [u] }, some u, none)
          ∧ u.WechatID = wechatID ∧ u.Role = "user" ∧ u.Favorites = "[]")
      ∧ (∀ u0, db.users.find? (fun u => decide (u.WechatID = wechatID)) = some u0 →
        ∃ db1 u1, GetOrCreateUserByWechatID db wechatID nickname avatar newID werr
              = (db1, some u1, none)
          ∧ db1.users.length = db.users.length
          ∧ db1.users.map (fun u => (u.ID, u.WechatID, u.Role))
              = db.users.map (fun u => (u.ID, u.WechatID, u.Role))
          ∧ u1.ID = u0.ID ∧ u1.WechatID = wechatID ∧ u1.Role = u0.Role)
      ∧ ((db.users.filter (fun u => decide (u.WechatID = wechatID))).length ≤ 1 →
        ((calls.foldl (fun d c =>
            (GetOrCreateUserByWechatID d wechatID c.1 c.2.1 c.2.2.1 c.2.2.2).1) db).users.filter
          (fun u => decide (u.WechatID = wechatID))).length ≤ 1) := by
  refine ⟨?_, ?_, getOrCreate_fold_count wechatID calls db⟩
  · intro hf
    refine ⟨_, by simp [GetOrCreateUserByWechatID, hf]; rfl, rfl, rfl, rfl⟩
  · intro u0 hf
    have hp : u0.WechatID = wechatID := by simpa using List.find?_some hf
    let n1 := if nickname ≠ "" ∧ nickname ≠ "微信用户" then nickname else u0.Nickname
    let a1 := if avatar ≠ "" ∧ Contains avatar "unsplash.com" = false then avatar else u0.Avatar
    let g : User → User := fun u =>
      if u.ID = u0.ID then { u with Nickname := n1, Avatar := a1 } else u
    refine ⟨{ db with users := db.users.map g }, { u0 with Nickname := n1, Avatar := a1 },
      by simp [GetOrCreateUserByWechatID, hf, g, n1, a1], ?_, ?_, rfl, hp, rfl⟩
    · simp
    · simp only [List.map_map]
      apply List.map_congr_left
      intro x _
      by_cases hx : x.ID = u0.ID <;> simp [g, hx]

theorem GetOrCreateUserByWechatID_semantics_witness :
    ∃ u, GetOrCreateUserByWechatID {} "wx_new" "Li" "" 1 none
          = ({ users := [] ++ [u] }, some u, none)
      ∧ u.WechatID = "wx_new" ∧ u.Role = "user" ∧ u.Favorites = "[]" :=
  (GetOrCreateUserByWechatID_semantics {} "wx_new" "Li" "" 1 none []).1 (by decide)

/-! ## Identity namespaces -/

theorem getOrCreate_identifiers (db : Store) (w n a : String) (id : Int)
    (werr : Option GoError) :
    ∀ u ∈ (GetOrCreateUserByWechatID db w n a id werr).1.users,
      (∃ u0 ∈ db.users, u.WechatID = u0.WechatID) ∨ u.WechatID = w := by
  intro u hu
  unfold GetOrCreateUserByWechatID at hu
  cases hf : db.users.find? (fun u => decide (u.WechatID = w)) with
  | none =>
    rw [hf] at hu
    cases werr with
    | some e => exact Or.inl ⟨u, hu, rfl⟩
    | none =>
      simp only [List.mem_append, List.mem_singleton] at hu
      rcases hu with h | h
      · exact Or.inl ⟨u, h, rfl⟩
      · right; rw [h]
  | some u0 =>
    rw [hf] at hu
    simp only [List.mem_map] at hu
    obtain ⟨x, hx, hxu⟩ := hu
    refine Or.inl ⟨x, hx, ?_⟩
    rw [← hxu]
    by_cases h : x.ID = u0.ID <;> simp [h]

theorem wechatLoginHandler_identifiers (db : Store) (s : LoginStep)
    (hs : ∀ b, s.body = some b → HasPrefix b.WechatID "admin_" = false)
    (hdb : ∀ u ∈ db.users, HasPrefix u.WechatID "admin_" = false) :
    ∀ u ∈ (wechatLoginHandler db s.method s.body s.newID s.werr).db.users,
      HasPrefix u.WechatID "admin_" = false := by
  intro u hu
  unfold wechatLoginHandler at hu
  by_cases hm : s.method = "POST"
  swap
  · simp only [ne_eq, hm, not_false_eq_true, if_true] at hu
    exact hdb u hu
  cases hb : s.body with
  | none =>
    simp only [ne_eq, hm, not_true_eq_false, if_false, hb] at hu
    exact hdb u hu
  | some req =>
    by_cases he : req.WechatID = ""
    · simp only [ne_eq, hm, not_true_eq_false, if_false, hb, he, if_true] at hu
      exact hdb u hu
    · have hmem : u ∈ (GetOrCreateUserByWechatID db req.WechatID req.Nickname req.Avatar
          s.newID s.werr).1.users := by
        simp only [ne_eq, hm, not_true_eq_false, if_false, hb, he] at hu
        rcases hrun : GetOrCreateUserByWechatID db req.WechatID req.Nickname req.Avatar
            s.newID s.werr with ⟨db1, u1, _ | e⟩
        · rw [hrun] at hu; exact hu
        · rw [hrun] at hu; exact hu
      rcases getOrCreate_identifiers db _ _ _ _ _ u hmem with ⟨u0, h0, heq⟩ | heq
      · rw [heq]; exact hdb u0 h0
      · rw [heq]; exact hs req hb

/-- C23, as stated, fails: after startup provisioning of a fresh database, one
login with `wechat_id` "admin_admin" is answered 200 and leaves a user account
whose identifier begins with "admin_"; the string "admin_admin" then names the
administrator account "admin" after stripping the prefix and is the
identifier of a user account. -/
theorem login_prefix_counterexample :
    (wechatLoginHandler startup "POST" (some ⟨"admin_admin", "n", ""⟩) 1 none).resp = sendSuccess
      ∧ (runLogins startup [⟨"POST", some ⟨"admin_admin", "n", ""⟩, 1, none⟩]).users.any
          (fun u => HasPrefix u.WechatID "admin_") = true
      ∧ adminRoleOf (runLogins startup [⟨"POST", some ⟨"admin_admin", "n", ""⟩, 1, none⟩])
          (TrimPrefix "admin_admin" "admin_") = some "super_admin"
      ∧ userRoleOf (runLogins startup [⟨"POST", some ⟨"admin_admin", "n", ""⟩, 1, none⟩])
          "admin_admin" = some "user" := by
  decide

/-- C23, amended: the handler checks only that the identifier is not empty,
so the separation is kept by the callers, not by the code: from a store in
which no user identifier begins with "admin_", every sequence of wechat
logins whose submitted identifiers do not begin with "admin_" leads to a
store in which no user identifier begins with "admin_". -/
theorem logins_keep_prefix_free (steps : List LoginStep) :
    ∀ db : Store, (∀ u ∈ db.users, HasPrefix u.WechatID "admin_" = false) →
      (∀ s ∈ steps, ∀ b, s.body = some b → HasPrefix b.WechatID "admin_" = false) →
      ∀ u ∈ (runLogins db steps).users, HasPrefix u.WechatID "admin_" = false := by
  induction steps with
  | nil => intro db hdb _; exact hdb
  | cons s rest ih =>
    intro db hdb hs
    rw [runLogins]
    apply ih
    · exact wechatLoginHandler_identifiers db s (hs s (List.mem_cons_self s rest)) hdb
    · intro s1 h1
      exact hs s1 (List.mem_cons_of_mem s h1)

theorem logins_keep_prefix_free_witness :
    (runLogins startup [⟨"POST", some ⟨"wx_abc", "n", ""⟩, 1, none⟩,
        ⟨"POST", some ⟨"wx_abc", "m", ""⟩, 2, none⟩]).users.all
      (fun u => HasPrefix u.WechatID "admin_" = false) = true :=
  List.all_eq_true.2 (fun u hu => by
    simpa using logins_keep_prefix_free
      [⟨"POST", some ⟨"wx_abc", "n", ""⟩, 1, none⟩, ⟨"POST", some ⟨"wx_abc", "m", ""⟩, 2, none⟩]
      startup (by decide) (by decide) u hu)

/-! ## Backoff and the creates without retry -/

/-- C24, as stated, fails: when every `DB.Create` call is answered with
"database is locked", `CreateNews` and `PolicyCreate` make three calls and
sleep three times, 100, 200 and 300 ms.  The third sleep is not between a
transient failure and a retry: no fourth call is made, the loop ends and the
exhaustion error is returned. -/
theorem create_backoff_counterexample :
    (CreateNews {} { Title := "t" } "2024-01-01" 1
        (fun _ => some (GoError.Other "database is locked"))).2.2
        = ⟨some (GoError.Other "failed to create news after 3 retries"), 3, [100, 200, 300]⟩
      ∧ (PolicyCreate {} { Title := "t" } "2024-01-01" 1
        (fun _ => some (GoError.Other "database is locked"))).2.2
        = ⟨some (GoError.Other "failed to create policy after 3 retries"), 3, [100, 200, 300]⟩ := by
  decide

/-- C24, amended: in `CreateNews` and `PolicyCreate` the sleep taken after the
n-th transient failure is 100 ms times n, and a sleep is taken only after a
transient failure.  A run that ends at call `j + 1` (`j < 3`) with a success
or a non-transient error returns that answer, has made `j + 1` calls and has
slept 100, ..., 100 j: one sleep after each of its `j` transient failures,
each followed by the next call, and none after the last call.  A run whose
three calls all fail transiently has made three calls and slept 100, 200,
300: the sleeps after the first and the second failure are followed by a
retry, the sleep after the third by the exhaustion error. -/
theorem create_backoff (db : Store) (n : News) (p : Policy) (now : String) (newID : Int)
    (attempt : Nat → Option GoError) :
    (∀ j, j < 3 → busyBefore attempt j → (∀ e, attempt j = some e → isTransient e = false) →
        (CreateNews db n now newID attempt).2.2
            = ⟨attempt j, j + 1, (List.range j).map (fun k => 100 * (k + 1))⟩
          ∧ (PolicyCreate db p now newID attempt).2.2
            = ⟨attempt j, j + 1, (List.range j).map (fun k => 100 * (k + 1))⟩
          ∧ (CreateNews db n now newID attempt).2.2.sleeps.length + 1
            = (CreateNews db n now newID attempt).2.2.attempts
          ∧ (PolicyCreate db p now newID attempt).2.2.sleeps.length + 1
            = (PolicyCreate db p now newID attempt).2.2.attempts)
      ∧ (busyBefore attempt 3 →
        (CreateNews db n now newID attempt).2.2
            = ⟨some (GoError.Other "failed to create news after 3 retries"), 3, [100, 200, 300]⟩
          ∧ (PolicyCreate db p now newID attempt).2.2
            = ⟨some (GoError.Other "failed to create policy after 3 retries"), 3,
                [100, 200, 300]⟩
          ∧ (CreateNews db n now newID attempt).2.2.sleeps.length
            = (CreateNews db n now newID attempt).2.2.attempts
          ∧ (PolicyCreate db p now newID attempt).2.2.sleeps.length
            = (PolicyCreate db p now newID attempt).2.2.attempts) := by
  constructor
  · intro j hj hb hs
    have hb0 : ∀ k, k < j → ∃ e, attempt (0 + k) = some e ∧ isTransient e = true := by
      intro k hk
      rw [Nat.zero_add]
      exact hb k hk
    have hs0 : ∀ e, attempt (0 + j) = some e → isTransient e = false := by
      intro e he
      rw [Nat.zero_add] at he
      exact hs e he
    have hn := createRetryLoop_settled "news" 3 attempt j 3 0 hj hb0 hs0
    have hp := createRetryLoop_settled "policy" 3 attempt j 3 0 hj hb0 hs0
    simp only [Nat.zero_add] at hn hp
    rw [CreateNews_run, PolicyCreate_run, hn, hp]
    exact ⟨rfl, rfl, by simp, by simp⟩
  · intro hb
    have hb0 : ∀ k, k < 3 → ∃ e, attempt (0 + k) = some e ∧ isTransient e = true := by
      intro k hk
      rw [Nat.zero_add]
      exact hb k hk
    have hn := createRetryLoop_all_busy "news" 3 attempt 3 0 hb0
    have hp := createRetryLoop_all_busy "policy" 3 attempt 3 0 hb0
    rw [CreateNews_run, PolicyCreate_run, hn, hp]
    exact ⟨by decide, by decide, by decide, by decide⟩

theorem create_backoff_witness :
    (CreateNews {} { Title := "t" } "2024-01-01" 1
        (fun k => if k < 2 then some (GoError.Other "SQLITE_BUSY") else none)).2.2
      = ⟨(fun k => if k < 2 then some (GoError.Other "SQLITE_BUSY") else none) 2, 2 + 1,
          (List.range 2).map (fun k => 100 * (k + 1))⟩ :=
  ((create_backoff {} { Title := "t" } { Title := "t" } "2024-01-01" 1
      (fun k => if k < 2 then some (GoError.Other "SQLITE_BUSY") else none)).1 2 (by decide)
    (fun k hk => ⟨GoError.Other "SQLITE_BUSY", by simp [hk], by decide⟩)
    (by decide)).1

/-- C25, the code at the failing input: the store answers the first
`DB.Create` with "database is locked" and would accept the next.
`CreateNews` and `PolicyCreate` retry and succeed; `FarmhouseCreate`,
`TourismCreate`, `JobsCreate`, `HelpCreate` and `ConsultationCreate` make
that one call and return its error, with nothing inserted. -/
theorem creates_without_retry :
    (CreateNews {} { Title := "t" } "2024-01-01" 1
        (fun k => if k = 0 then some (GoError.Other "database is locked") else none)).2.2.err
        = none
      ∧ (PolicyCreate {} { Title := "t" } "2024-01-01" 1
        (fun k => if k = 0 then some (GoError.Other "database is locked") else none)).2.2.err
        = none
      ∧ FarmhouseCreate {} { Title := "t" } "2024-01-01" 1
          ((fun k => if k = 0 then some (GoError.Other "database is locked") else none) 0)
        = ({}, { Title := "t", PublishTime := "2024-01-01" },
            some (GoError.Other "database is locked"))
      ∧ TourismCreate {} { Name := "t" } 1
          ((fun k => if k = 0 then some (GoError.Other "database is locked") else none) 0)
        = ({}, { Name := "t" }, some (GoError.Other "database is locked"))
      ∧ JobsCreate {} { Title := "t" } "2024-01-01" 1
          ((fun k => if k = 0 then some (GoError.Other "database is locked") else none) 0)
        = ({}, { Title := "t", PublishTime := "2024-01-01" },
            some (GoError.Other "database is locked"))
      ∧ HelpCreate {} { Title := "t" } "2024-01-01" 1
          ((fun k => if k = 0 then some (GoError.Other "database is locked") else none) 0)
        = ({}, { Title := "t", PublishTime := "2024-01-01", Status := "求助中" },
            some (GoError.Other "database is locked"))
      ∧ ConsultationCreate {} { Title := "t" } "2024-01-01 08:00" 1
          ((fun k => if k = 0 then some (GoError.Other "database is locked") else none) 0)
        = ({}, { Title := "t", PublishTime := "2024-01-01 08:00", Status := "待回复" },
            some (GoError.Other "database is locked")) := by
  decide

/-! ## Delete permission, continued -/

/-- An acting identity that resolves to no account is allowed to delete only
by a name match: an administrator-shaped identity when the publisher is its
stripped username or the identity itself, any other identity when it is the
publisher. -/
theorem checkDeletePermission_no_account (db : Store) (userID publisherID : String)
    (hnone : resolvedRole db userID = none)
    (hok : checkDeletePermission db userID publisherID = Except.ok true) :
    (HasPrefix userID "admin_" = true
        ∧ (publisherID = TrimPrefix userID "admin_" ∨ publisherID = userID))
      ∨ (HasPrefix userID "admin_" = false ∧ publisherID = userID) := by
  rw [cdp_eq_spec] at hok
  have hc : canDeleteSpec db userID publisherID = true := by
    injection hok
  unfold canDeleteSpec at hc
  unfold resolvedRole at hnone
  by_cases h0 : userID = ""
  · simp [h0] at hc
  · by_cases hp : HasPrefix userID "admin_" = true
    · rw [if_pos hp] at hnone
      have hf : db.admins.find? (fun a => decide (a.Username = TrimPrefix userID "admin_"))
          = none := by
        unfold adminRoleOf at hnone
        simpa using hnone
      left
      refine ⟨hp, ?_⟩
      simpa [h0, hp, hf] using hc
    · have hp2 : HasPrefix userID "admin_" = false := by simpa using hp
      rw [if_neg hp] at hnone
      have hf : db.users.find? (fun u => decide (u.WechatID = userID)) = none := by
        unfold userRoleOf at hnone
        simpa using hnone
      right
      refine ⟨hp2, ?_⟩
      simpa [h0, hp2, hf] using hc

/-- C26, as stated, fails: after startup provisioning and one login with the
external identifier "admin", the store holds the administrator account
`admin` and a user account `admin`.  For content published under "admin" the
identity "admin_admin" is allowed, but it resolves to the administrator
account; and no non-empty acting identity that resolves to no account is
allowed to delete that content. -/
theorem prefixed_publisher_counterexample :
    runLogins startup [⟨"POST", some ⟨"admin", "n", ""⟩, 2, none⟩]
        = { admins := [Admin.mk 1 "admin" defaultAdminPassword "超级管理员" "super_admin"],
            users := [{ ID := 2, WechatID := "admin", Nickname := "n", Role := "user",
                        Favorites := "[]", PublishedIDs := "[]" }] }
      ∧ checkDeletePermission (runLogins startup [⟨"POST", some ⟨"admin", "n", ""⟩, 2, none⟩])
          "admin_admin" "admin" = Except.ok true
      ∧ resolvedRole (runLogins startup [⟨"POST", some ⟨"admin", "n", ""⟩, 2, none⟩])
          "admin_admin" = some "super_admin"
      ∧ ¬ ∃ userID, userID ≠ ""
          ∧ resolvedRole (runLogins startup [⟨"POST", some ⟨"admin", "n", ""⟩, 2, none⟩])
              userID = none
          ∧ checkDeletePermission
              (runLogins startup [⟨"POST", some ⟨"admin", "n", ""⟩, 2, none⟩])
              userID "admin" = Except.ok true := by
  have hdb : runLogins startup [⟨"POST", some ⟨"admin", "n", ""⟩, 2, none⟩]
      = { admins := [Admin.mk 1 "admin" defaultAdminPassword "超级管理员" "super_admin"],
          users := [{ ID := 2, WechatID := "admin", Nickname := "n", Role := "user",
                      Favorites := "[]", PublishedIDs := "[]" }] } := by decide
  refine ⟨hdb, ?_, ?_, ?_⟩
  · rw [hdb]; decide
  · rw [hdb]; decide
  · rw [hdb]
    rintro ⟨userID, _, hnone, hok⟩
    rcases checkDeletePermission_no_account _ userID "admin" hnone hok with
      ⟨hp, h | h⟩ | ⟨hp, h⟩
    · unfold resolvedRole at hnone
      rw [if_pos hp, ← h] at hnone
      exact absurd hnone (by decide)
    · rw [← h] at hp
      exact absurd hp (by decide)
    · rw [← h] at hnone
      exact absurd hnone (by decide)

/-- C26, amended: for every publisher identity `p`, the empty one included,
and every store, the non-empty identity `"admin_" ++ p` is allowed to delete
content published under `p`, and the result is the same in every store: no
account record is consulted for it.  That identity resolves to no account
exactly in the stores where no administrator account is named `p`; where one
is, the allowed identity is that administrator's own.  For content with an
empty publisher identity the identity is "admin_". -/
theorem checkDeletePermission_prefixed_publisher (db : Store) (p : String) :
    "admin_" ++ p ≠ ""
      ∧ checkDeletePermission db ("admin_" ++ p) p = Except.ok true
      ∧ (∀ db2, checkDeletePermission db2 ("admin_" ++ p) p
          = checkDeletePermission db ("admin_" ++ p) p)
      ∧ ((∀ a ∈ db.admins, a.Username ≠ p) ↔ resolvedRole db ("admin_" ++ p) = none)
      ∧ checkDeletePermission db "admin_" "" = Except.ok true := by
  have hne : "admin_" ++ p ≠ "" := append_ne_empty "admin_" p (by decide)
  have key : ∀ (d : Store) (q : String),
      checkDeletePermission d ("admin_" ++ q) q = Except.ok true := by
    intro d q
    rw [cdp_eq_spec]
    simp [canDeleteSpec, append_ne_empty "admin_" q (by decide), HasPrefix_append,
      TrimPrefix_append]
  refine ⟨hne, key db p, fun db2 => by rw [key db2 p, key db p], ?_, key db ""⟩
  have hres : resolvedRole db ("admin_" ++ p) = none
      ↔ db.admins.find? (fun a => decide (a.Username = p)) = none := by
    simp [resolvedRole, HasPrefix_append, TrimPrefix_append, adminRoleOf]
  rw [hres, List.find?_eq_none]
  constructor
  · intro hno a ha
    simpa using hno a ha
  · intro hno a ha
    simpa using hno a ha

theorem checkDeletePermission_prefixed_publisher_witness :
    checkDeletePermission startup ("admin_" ++ "wx_owner") "wx_owner" = Except.ok true
      ∧ resolvedRole startup ("admin_" ++ "wx_owner") = none :=
  ⟨(checkDeletePermission_prefixed_publisher startup "wx_owner").2.1,
    (checkDeletePermission_prefixed_publisher startup "wx_owner").2.2.2.1.1 (by decide)⟩

/-- C29: `checkDeletePermission` reads one table.  For an
administrator-shaped acting identity the result is the same in any two stores
with the same administrator table; for a non-empty identity of the other
shape it is the same in any two stores with the same user table. -/
theorem checkDeletePermission_reads_one_table (db1 db2 : Store)
    (userID publisherID : String) :
    (HasPrefix userID "admin_" = true → db1.admins = db2.admins →
        checkDeletePermission db1 userID publisherID
          = checkDeletePermission db2 userID publisherID)
      ∧ (userID ≠ "" → HasPrefix userID "admin_" = false → db1.users = db2.users →
        checkDeletePermission db1 userID publisherID
          = checkDeletePermission db2 userID publisherID) := by
  constructor
  · intro hp h
    by_cases h0 : userID = ""
    · simp [checkDeletePermission, h0]
    · simp [checkDeletePermission, h0, hp, GetAdminByUsername, h]
  · intro h0 hp h
    simp [checkDeletePermission, h0, hp, GetUserByWechatID, h]

theorem checkDeletePermission_reads_one_table_witness :
    checkDeletePermission
        { admins := [{ Username := "root", Role := "admin" }],
          users := [{ ID := 1, WechatID := "admin_root", Role := "banned" }] } "admin_root" "wx_a"
      = checkDeletePermission { admins := [{ Username := "root", Role := "admin" }] }
          "admin_root" "wx_a" :=
  (checkDeletePermission_reads_one_table
    { admins := [{ Username := "root", Role := "admin" }],
      users := [{ ID := 1, WechatID := "admin_root", Role := "banned" }] }
    { admins := [{ Username := "root", Role := "admin" }] } "admin_root" "wx_a").1
    (by decide) rfl

/-! ## Profile update -/

/-- C27, the code at the failing input: user `wx_u` has role user; a PUT on
the profile endpoint with payload `role = super_admin` is answered 200 and the
account's role is super_admin afterwards; the key spelled as the Go field,
`Role`, does the same.  The gated path refuses the same user:
`updateRoleHandler` answers 403 when `wx_u` asks for role vip. -/
theorem userHandlerPut_changes_role :
    userHandlerPut { users := [{ ID := 2, WechatID := "wx_u", Role := "user" }] } "wx_u"
        (some [("role", JSONValue.str "super_admin")]) none
      = ⟨sendSuccess, { users := [{ ID := 2, WechatID := "wx_u", Role := "super_admin" }] },
          [StoreCall.UpdateUserProfile 2 [("role", JSONValue.str "super_admin")]]⟩
      ∧ userHandlerPut { users := [{ ID := 2, WechatID := "wx_u", Role := "user" }] } "wx_u"
        (some [("Role", JSONValue.str "admin")]) none
      = ⟨sendSuccess, { users := [{ ID := 2, WechatID := "wx_u", Role := "admin" }] },
          [StoreCall.UpdateUserProfile 2 [("Role", JSONValue.str "admin")]]⟩
      ∧ updateRoleHandler { users := [{ ID := 2, WechatID := "wx_u", Role := "user" }] }
          ⟨"POST", "wx_u", some ⟨2, "vip"⟩⟩ none
        = Except.ok ⟨sendError 403 "Forbidden: Admin permission required",
            { users := [{ ID := 2, WechatID := "wx_u", Role := "user" }] }, []⟩
      ∧ updateRoleHandler { users := [{ ID := 2, WechatID := "wx_u", Role := "user" }] }
          ⟨"POST", "wx_u", some ⟨2, "super_admin"⟩⟩ none
        = Except.ok ⟨sendError 403 "Forbidden: Cannot set super_admin role",
            { users := [{ ID := 2, WechatID := "wx_u", Role := "user" }] }, []⟩ := by
  decide

/-! ## Role hierarchy, requirement side -/

theorem roleLevel_nonneg (role : String) : 0 ≤ roleLevel role := by
  by_cases hr : role ∈ validRoles
  · simp only [validRoles, List.mem_cons, List.mem_singleton, List.not_mem_nil,
      or_false] at hr
    rcases hr with h | h | h | h | h <;> subst h <;> decide
  · rw [roleLevel_unknown role hr]

/-- C28, as stated, fails: the user `wx_b` is banned, the required role
"moderator" is none of the five, and `CheckUserPermission` returns true. -/
theorem CheckUserPermission_unknown_requirement_counterexample :
    "moderator" ∉ validRoles
      ∧ CheckUserPermission { users := [{ ID := 1, WechatID := "wx_b", Role := "banned" }] }
          "wx_b" "moderator" = (true, none) := by
  decide

/-- C28, amended: a required-role string that is none of the five recognized
roles reads the level 0, the lowest, so `CheckUserPermission` returns true for
every existing user, whatever the stored role (banned and unknown roles
included); it returns false only when no user account has the identity. -/
theorem CheckUserPermission_unknown_requirement (db : Store) (wechatID required : String)
    (hreq : required ∉ validRoles) :
    (∀ u, db.users.find? (fun x => decide (x.WechatID = wechatID)) = some u →
        CheckUserPermission db wechatID required = (true, none))
      ∧ (db.users.find? (fun x => decide (x.WechatID = wechatID)) = none →
        CheckUserPermission db wechatID required = (false, some GoError.ErrRecordNotFound)) := by
  constructor
  · intro u hu
    have h := CheckUserPermission_found db wechatID required u (by simpa using hu)
    rw [h, roleLevel_unknown required hreq]
    simp [roleLevel_nonneg]
  · intro hn
    simp [CheckUserPermission, GetUserByWechatID, hn]

theorem CheckUserPermission_unknown_requirement_witness :
    CheckUserPermission { users := [{ ID := 1, WechatID := "wx_v", Role := "vip" }] }
      "wx_v" "editor" = (true, none) :=
  (CheckUserPermission_unknown_requirement
    { users := [{ ID := 1, WechatID := "wx_v", Role := "vip" }] } "wx_v" "editor"
    (by decide)).1 { ID := 1, WechatID := "wx_v", Role := "vip" } (by decide)

/-! ## Latest news -/

/-- For a `count` that is not negative the handler sends the first
`min count len` items of the id-descending list. -/
theorem latestNewsHandler_nonneg (db : Store) (count : Int) (h : 0 ≤ count) :
    latestNewsHandler db "GET" (some count) none
      = Except.ok (sendSuccess,
          (db.news.insertionSort (fun a b => a.ID ≥ b.ID)).take
            (min count.toNat (db.news.insertionSort (fun a b => a.ID ≥ b.ID)).length)) := by
  unfold latestNewsHandler NewsListAll sliceTo
  generalize db.news.insertionSort (fun a b => a.ID ≥ b.ID) = l
  by_cases hlt : (l.length : Int) < count
  · have hmin : min count.toNat l.length = l.length := by omega
    have h2 : ¬ (l.length : Int) < 0 := by omega
    simp [hlt, hmin, h2, Except.bind]
  · have hmin : min count.toNat l.length = count.toNat := by omega
    have h1 : ¬ count < 0 := by omega
    simp [hlt, hmin, h1, Except.bind]

/-- C30, the code at the failing input: with `count=-1` the comparison
`len(list) < count` is false, `count` stays -1 and the slice expression
`list[:count]` panics.  With `count=0` and `count=5` on the same two rows the
handler sends no item and both items, newest first. -/
theorem latestNewsHandler_negative_count :
    latestNewsHandler { news := [{ ID := 1, Title := "a" }, { ID := 2, Title := "b" }] } "GET"
        (some (-1)) none
      = Except.error Panic.sliceBounds
      ∧ latestNewsHandler { news := [{ ID := 1, Title := "a" }, { ID := 2, Title := "b" }] } "GET"
        (some 0) none
      = Except.ok (sendSuccess, [])
      ∧ latestNewsHandler { news := [{ ID := 1, Title := "a" }, { ID := 2, Title := "b" }] } "GET"
        (some 5) none
      = Except.ok (sendSuccess, [{ ID := 2, Title := "b" }, { ID := 1, Title := "a" }]) := by
  decide

end Zxbe
